import Mathlib

/-!
# nginx-prometheus-exporter: status parsers and collectors

A shallow embedding of `client/nginx.go`, `collector/rtmp.go` and
`collector/vts.go`, with the properties of the status parsers and of the
collection cycles proved about it.

Library code the exporters call is embedded as far as the exporters use it:

* `fmt.Fscanf` for formats made of literal text, white space and the verb
  `%d` without a width (all that the two stub_status templates contain);
* `bytes.Buffer.ReadRune` / `utf8.DecodeRune`;
* `strconv.ParseInt` in base 10 with bit size 64;
* the `xmlquery` node tree with the two queries and the child lookup used;
* the `xmlquery` name test compares the local name and the namespace prefix;
* `prometheus.BuildFQName`, `prometheus.NewDesc` with its checks of the
  metric name and of the label names (the legacy validation of names:
  `[a-zA-Z_:][a-zA-Z0-9_:]*` for a metric name), and
  `prometheus.MustNewConstMetric`.

`strconv.ParseFloat`, `regexp.Regexp.FindString`, `xmlquery.Parse`,
`json.Unmarshal` and the HTTP round trip are parameters.
-/

namespace NginxExporter

/-- Result of a Go call that either returns normally or panics. -/
inductive GoResult (α : Type) where
  | ok : α → GoResult α
  | panic : String → GoResult α

/-- Sequencing of calls: a panic ends the sequence. -/
def GoResult.bind {α β : Type} (x : GoResult α) (f : α → GoResult β) : GoResult β :=
  match x with
  | .ok a => f a
  | .panic msg => .panic msg

instance : Monad GoResult where
  pure := GoResult.ok
  bind := GoResult.bind

/-- The value of a call that returned. -/
def GoResult.toOption {α : Type} : GoResult α → Option α
  | .ok a => some a
  | .panic _ => none

/-- The message of a nil pointer dereference. -/
def nilDeref : String := "invalid memory address or nil pointer dereference"

/-! ## unicode/utf8 and bytes.Buffer -/

/-! Bytes and runes (code points) are natural numbers. -/

/-- The value `utf8.RuneError`. -/
def RuneError : Nat := 0xFFFD

/-- Continuation byte range `locb..hicb`. -/
def locb : Nat := 0x80

/-- Upper end of the continuation byte range. -/
def hicb : Nat := 0xBF

/-- Table `first` of unicode/utf8: `none` stands for the entries `as` and `xx`
(one-byte results), `some (size, lo, hi)` for a lead byte of a sequence of
`size` bytes whose second byte has to lie in `lo..hi` (`acceptRanges`). -/
def first (p0 : Nat) : Option (Nat × Nat × Nat) :=
  if p0 < 0xC2 then none
  else if p0 < 0xE0 then some (2, locb, hicb)
  else if p0 = 0xE0 then some (3, 0xA0, hicb)
  else if p0 < 0xED then some (3, locb, hicb)
  else if p0 = 0xED then some (3, locb, 0x9F)
  else if p0 < 0xF0 then some (3, locb, hicb)
  else if p0 = 0xF0 then some (4, 0x90, hicb)
  else if p0 < 0xF4 then some (4, locb, hicb)
  else if p0 = 0xF4 then some (4, locb, 0x8F)
  else none

/-- Function `utf8.DecodeRune`: the first rune of `p` and its width in bytes. -/
def DecodeRune (p : List Nat) : Nat × Nat :=
  match p with
  | [] => (RuneError, 0)
  | p0 :: rest =>
    match first p0 with
    | none => (if p0 < 0x80 then p0 else RuneError, 1)
    | some (sz, lo, hi) =>
      if p.length < sz then (RuneError, 1)
      else
        let b1 := rest.getD 0 0
        if b1 < lo ∨ hi < b1 then (RuneError, 1)
        else if sz ≤ 2 then ((p0 % 0x20) * 0x40 + b1 % 0x40, 2)
        else
          let b2 := rest.getD 1 0
          if b2 < locb ∨ hicb < b2 then (RuneError, 1)
          else if sz ≤ 3 then ((p0 % 0x10) * 0x1000 + (b1 % 0x40) * 0x40 + b2 % 0x40, 3)
          else
            let b3 := rest.getD 2 0
            if b3 < locb ∨ hicb < b3 then (RuneError, 1)
            else ((p0 % 0x08) * 0x40000 + (b1 % 0x40) * 0x1000 + (b2 % 0x40) * 0x40
                    + b3 % 0x40, 4)

/-- The runes that successive calls of `bytes.Buffer.ReadRune` return until
the buffer is empty. -/
def readRunes : List Nat → List Nat
  | [] => []
  | c :: rest =>
    if c < 0x80 then c :: readRunes rest
    else (DecodeRune (c :: rest)).1 :: readRunes (rest.drop ((DecodeRune (c :: rest)).2 - 1))
termination_by l => l.length
decreasing_by
  all_goals simp_wf
  all_goals omega

/-! ## fmt: scanning -/

/-- Errors with which `Fscanf` returns. -/
inductive ScanError where
  | inputDoesNotMatchFormat
  | newlineInFormatDoesNotMatchInput
  | expectedSpaceInInput
  | newlineInInputDoesNotMatchFormat
  | missingVerb
  | missingLiteralPercent
  | unexpectedNewline
  | unexpectedEOF
  | EOF
  | expectedInteger
  | tooFewOperands
  | tooManyOperands
  | errSyntax
  | errRange
  | notModelled
  deriving DecidableEq, Repr

/-- Constant `hugeWid`: the scanner reads at most this many runes. -/
def hugeWid : Nat := 2 ^ 30

/-- Table `space` of fmt/scan.go. -/
def space : List (Nat × Nat) :=
  [(0x0009, 0x000d), (0x0020, 0x0020), (0x0085, 0x0085), (0x00a0, 0x00a0),
   (0x1680, 0x1680), (0x2000, 0x200a), (0x2028, 0x2029), (0x202f, 0x202f),
   (0x205f, 0x205f), (0x3000, 0x3000)]

/-- The loop of `isSpace` over the table. -/
def isSpaceLoop : List (Nat × Nat) → Nat → Bool
  | [], _ => false
  | rng :: rest, rx =>
    if rx < rng.1 then false
    else if rx ≤ rng.2 then true
    else isSpaceLoop rest rx

/-- Function `isSpace` of fmt/scan.go. -/
def isSpace (r : Nat) : Bool :=
  if r ≥ 65536 then false else isSpaceLoop space r

/-- Method `ss.SkipSpace` with `nlIsSpace = false`, on the unread input. -/
def SkipSpace : List Nat → Except ScanError (List Nat)
  | [] => .ok []
  | r :: rest =>
    if r = 13 ∧ rest.head? = some 10 then SkipSpace rest
    else if r = 10 then .error .unexpectedNewline
    else if !isSpace r then .ok (r :: rest)
    else SkipSpace rest

/-- The loop of `advance` over a run of space characters in the format: the
number of newlines and whether a space follows the last of them. -/
def spaceRun : List Char → Nat → Bool → Nat × Bool
  | [], newlines, trailingSpace => (newlines, trailingSpace)
  | fmtc :: rest, newlines, trailingSpace =>
    if isSpace fmtc.toNat then
      if fmtc = '\n' then spaceRun rest (newlines + 1) false
      else spaceRun rest newlines true
    else (newlines, trailingSpace)

/-- One newline of the format: spaces of the input, then a newline or the end
of the input. -/
def matchNewline : List Nat → Except ScanError (List Nat)
  | [] => .ok []
  | inputc :: rest =>
    if isSpace inputc ∧ inputc ≠ 10 then matchNewline rest
    else if inputc ≠ 10 then .error .newlineInFormatDoesNotMatchInput
    else .ok rest

/-- The loop `for j := 0; j < newlines; j++` of `advance`. -/
def matchNewlines : Nat → List Nat → Except ScanError (List Nat)
  | 0, input => .ok input
  | j + 1, input =>
    match matchNewline input with
    | .error e => .error e
    | .ok input1 => matchNewlines j input1

/-- Spaces other than newline are read; the first other rune is unread. -/
def skipBlanks : List Nat → List Nat
  | [] => []
  | inputc :: rest =>
    if isSpace inputc ∧ inputc ≠ 10 then skipBlanks rest else inputc :: rest

/-- The `if trailingSpace` block of `advance`. -/
def matchTrailingSpace (newlines : Nat) (input : List Nat) : Except ScanError (List Nat) :=
  match input with
  | [] => .ok []
  | inputc :: rest =>
    if newlines = 0 ∧ isSpace inputc = false then .error .expectedSpaceInInput
    else if newlines = 0 ∧ inputc = 10 then .error .newlineInInputDoesNotMatchFormat
    else .ok (skipBlanks (inputc :: rest))

/-- Method `ss.advance`: the part of the format that is left when it stops,
whether the input matched (`false` is the result `-1`), and the input left.
The number of format bytes consumed is the difference of the lengths. -/
def advance : List Char → List Nat → Except ScanError (Bool × List Char × List Nat)
  | [], input => .ok (true, [], input)
  | fmtc :: rest, input =>
    if isSpace fmtc.toNat then
      match matchNewlines (spaceRun (fmtc :: rest) 0 false).1 input with
      | .error e => .error e
      | .ok input1 =>
        match (if (spaceRun (fmtc :: rest) 0 false).2
                then matchTrailingSpace (spaceRun (fmtc :: rest) 0 false).1 input1
                else .ok input1) with
        | .error e => .error e
        | .ok input2 => advance (rest.dropWhile (fun c => isSpace c.toNat)) input2
    else if fmtc = '%' ∧ rest = [] then .error .missingVerb
    else if fmtc = '%' ∧ rest.head? ≠ some '%' then .ok (true, fmtc :: rest, input)
    else
      match input.head? with
      | none => .error .unexpectedEOF
      | some inputc =>
        if fmtc.toNat ≠ inputc then .ok (false, fmtc :: rest, input)
        else advance (if fmtc = '%' then rest.tail else rest) input.tail
termination_by format => format.length
decreasing_by
  all_goals simp_wf
  · exact Nat.lt_succ_of_le (List.dropWhile_sublist _).length_le
  · split
    · exact Nat.lt_succ_of_le (by simp)
    · exact Nat.lt_succ_self _

/-- The digits accepted for the verb `d`. -/
def decimalDigits : List Nat := "0123456789".toList.map Char.toNat

/-- The characters accepted as a sign. -/
def sign : List Nat := "+-".toList.map Char.toNat

/-- The loop `for s.accept(digits) {}`: the digits read and the input left. -/
def acceptDigits : List Nat → List Nat × List Nat
  | [] => ([], [])
  | r :: rest =>
    if r ∈ decimalDigits then ((acceptDigits rest).1.cons r, (acceptDigits rest).2)
    else ([], r :: rest)

/-- Function `strconv.ParseUint` in base 10, without the 64 bit cutoff (that
is taken by `ParseInt`): `none` for a syntax error. -/
def ParseUint : List Nat → Nat → Option Nat
  | [], n => some n
  | c :: rest, n =>
    if 48 ≤ c ∧ c ≤ 57 then ParseUint rest (n * 10 + (c - 48)) else none

/-- Function `strconv.ParseInt(tok, 10, 64)`. -/
def ParseInt (tok : List Nat) : Except ScanError Int :=
  match tok with
  | [] => .error .errSyntax
  | s0 :: rest =>
    let neg : Bool := s0 = 45
    let s := if s0 = 43 ∨ s0 = 45 then rest else tok
    if s = [] then .error .errSyntax
    else
      match ParseUint s 0 with
      | none => .error .errSyntax
      | some un =>
        if neg = false ∧ un ≥ 2 ^ 63 then .error .errRange
        else if neg = true ∧ un > 2 ^ 63 then .error .errRange
        else .ok (if neg then - (un : Int) else (un : Int))

/-- Method `ss.scanInt` for the verb `d` and 64 bits: the value and the input
left. -/
def scanInt (input : List Nat) : Except ScanError (Int × List Nat) :=
  match SkipSpace input with
  | .error e => .error e
  | .ok [] => .error .EOF
  | .ok (r :: rest) =>
    let buf : List Nat := if r ∈ sign then [r] else []
    let input1 := if r ∈ sign then rest else r :: rest
    match input1 with
    | [] => .error .EOF
    | d :: rest1 =>
      if d ∈ decimalDigits then
        match ParseInt (buf ++ d :: (acceptDigits rest1).1) with
        | .error e => .error e
        | .ok i => .ok (i, (acceptDigits rest1).2)
      else .error .expectedInteger

/-- Method `ss.scanPercent`. -/
def scanPercent (input : List Nat) : Except ScanError (List Nat) :=
  match SkipSpace input with
  | .error e => .error e
  | .ok [] => .error .EOF
  | .ok (r :: rest) => if r = 37 then .ok rest else .error .missingLiteralPercent

/-- Method `ss.doScanf` with `nargs` operands of type `*int64`: the values
stored through the operands so far, in order, and the error. -/
def doScanf (format : List Char) (input : List Nat) (nargs : Nat) (stored : List Int) :
    List Int × Option ScanError :=
  match format with
  | [] => (stored, if stored.length < nargs then some .tooManyOperands else none)
  | fc :: frest =>
    match advance (fc :: frest) input with
    | .error e => (stored, some e)
    | .ok (matched, rest, input1) =>
      if matched = true ∧ rest.length < (fc :: frest).length then
        doScanf rest input1 nargs stored
      else if fc ≠ '%' then
        if matched = false then (stored, some .inputDoesNotMatchFormat)
        else (stored, if stored.length < nargs then some .tooManyOperands else none)
      else
        match frest with
        | [] => (stored, some .notModelled)
        | c :: frest1 =>
          if c = '%' then
            match SkipSpace input1 with
            | .error e => (stored, some e)
            | .ok input2 =>
              match scanPercent input2 with
              | .error e => (stored, some e)
              | .ok input3 => doScanf frest1 input3 nargs stored
          else if c = 'd' then
            match SkipSpace input1 with
            | .error e => (stored, some e)
            | .ok input2 =>
              if stored.length ≥ nargs then (stored, some .tooFewOperands)
              else
                match scanInt input2 with
                | .error e => (stored, some e)
                | .ok (v, input3) => doScanf frest1 input3 nargs (stored ++ [v])
          else (stored, some .notModelled)
termination_by format.length
decreasing_by
  all_goals simp_wf
  all_goals simp only [List.length_cons] at *
  all_goals omega

/-- Function `fmt.Fscanf` reading from a `bytes.Buffer` that holds `buf`, with
`nargs` operands of type `*int64`. -/
def Fscanf (buf : List Nat) (format : String) (nargs : Nat) : List Int × Option ScanError :=
  doScanf format.toList ((readRunes buf).take hugeWid) nargs []

/-! ## fmt: printing, as far as the templates are rendered with it -/

/-- Function `strconv.FormatUint` in base 10. -/
def formatBits (u : Nat) : List Char :=
  if u < 10 then [Nat.digitChar u] else formatBits (u / 10) ++ [Nat.digitChar (u % 10)]
decreasing_by omega

/-- Function `strconv.FormatInt` in base 10, which the verb `%d` prints. -/
def FormatInt (i : Int) : List Char :=
  if i < 0 then '-' :: formatBits i.natAbs else formatBits i.natAbs

/-- Function `fmt.Sprintf` for a format of literal text and verbs `%d`, each
with an operand. -/
def Sprintf : List Char → List Int → List Char
  | [], _ => []
  | '%' :: 'd' :: rest, x :: xs => FormatInt x ++ Sprintf rest xs
  | c :: rest, xs => c :: Sprintf rest xs

/-- The bytes of a text of ASCII characters. -/
def asciiBytes (text : List Char) : List Nat := text.map Char.toNat

/-- The bytes the verb `%d` prints for `i`. -/
def printed (i : Int) : List Nat := asciiBytes (FormatInt i)

/-- The values of type `int64`. -/
def isInt64 (i : Int) : Prop := -2 ^ 63 ≤ i ∧ i < 2 ^ 63

/-- The stub_status page rendered from a template: `fmt.Sprintf(template,
values...)` as bytes. -/
def render (template : String) (values : List Int) : List Nat :=
  asciiBytes (Sprintf template.toList values)

/-! ## client/nginx.go -/

/-- Constant `templateMetrics`. -/
def templateMetrics : String :=
  "Active connections: %d\nserver accepts handled requests\n%d %d %d\nReading: %d Writing: %d Waiting: %d\n"

/-- Constant `templateTengineMetrics`. -/
def templateTengineMetrics : String :=
  "Active connections: %d\nserver accepts handled requests request_time \n%d %d %d %d \nReading: %d Writing: %d Waiting: %d\n"

/-- Struct `StubConnections`; the fields are `int64`. -/
structure StubConnections where
  Active : Int
  Accepted : Int
  Handled : Int
  Reading : Int
  Writing : Int
  Waiting : Int
  deriving DecidableEq, Repr

/-- Struct `StubStats`. -/
structure StubStats where
  Connections : StubConnections
  Requests : Int
  RequestsTime : Int
  deriving DecidableEq, Repr

/-- The value of `var s StubStats`. -/
def StubStats.zero : StubStats := ⟨⟨0, 0, 0, 0, 0, 0⟩, 0, 0⟩

/-- Errors of the stub_status client. -/
inductive ClientError where
  | createRequest (cause : String)
  | get (cause : String)
  | status (code : Nat)
  | readBody (cause : String)
  | parseTemplateMetrics
  | parseBody (body : List Nat) (cause : ClientError)
  deriving DecidableEq, Repr

/-- The stores through the operands `&s.Connections.Active, ...` of the first
`Fscanf` call, in the order of the operands. -/
def operandsMetrics : List (Int → StubStats → StubStats) :=
  [fun v s => { s with Connections := { s.Connections with Active := v } },
   fun v s => { s with Connections := { s.Connections with Accepted := v } },
   fun v s => { s with Connections := { s.Connections with Handled := v } },
   fun v s => { s with Requests := v },
   fun v s => { s with Connections := { s.Connections with Reading := v } },
   fun v s => { s with Connections := { s.Connections with Writing := v } },
   fun v s => { s with Connections := { s.Connections with Waiting := v } }]

/-- The stores through the operands of the second `Fscanf` call. -/
def operandsTengineMetrics : List (Int → StubStats → StubStats) :=
  [fun v s => { s with Connections := { s.Connections with Active := v } },
   fun v s => { s with Connections := { s.Connections with Accepted := v } },
   fun v s => { s with Connections := { s.Connections with Handled := v } },
   fun v s => { s with Requests := v },
   fun v s => { s with RequestsTime := v },
   fun v s => { s with Connections := { s.Connections with Reading := v } },
   fun v s => { s with Connections := { s.Connections with Writing := v } },
   fun v s => { s with Connections := { s.Connections with Waiting := v } }]

/-- The values a scan has stored, written to `s` through the operands. -/
def store : List (Int → StubStats → StubStats) → List Int → StubStats → StubStats
  | f :: fs, v :: vs, s => store fs vs (f v s)
  | _, _, s => s

/-- Function `parseStubStats`; `r` is what reading the reader to its end
gives. -/
def parseStubStats (r : Except String (List Nat)) : Except ClientError StubStats :=
  match r with
  | .error e => .error (.readBody e)
  | .ok buf1 =>
    let buf2 := buf1
    let s := StubStats.zero
    let scan1 := Fscanf buf1 templateMetrics 7
    let s := store operandsMetrics scan1.1 s
    if scan1.2 = none then .ok s
    else
      let scan2 := Fscanf buf2 templateTengineMetrics 8
      let s := store operandsTengineMetrics scan2.1 s
      if scan2.2 = none then .ok s
      else .error .parseTemplateMetrics

/-- A body matches a template in the sense of the scan: `fmt.Fscanf` scans it
with that template and returns no error. A body that matches in this sense
need not be a rendering of the template (`isInstance`). -/
def matchesTemplate (body : List Nat) (template : String) (nargs : Nat) : Prop :=
  (Fscanf body template nargs).2 = none

/-- An HTTP response: the status code and what `io.ReadAll(resp.Body)` gives. -/
structure Response where
  StatusCode : Nat
  Body : Except String (List Nat)

/-- Type `prometheus.ValueType`. -/
inductive ValueType where
  | CounterValue
  | GaugeValue
  | UntypedValue
  deriving DecidableEq, Repr

/-- Type `prometheus.Desc`, for a descriptor without constant labels; `err`
is the error `NewDesc` recorded, `none` for nil. -/
structure Desc where
  fqName : String
  help : String
  variableLabels : List String
  err : Option String
  deriving DecidableEq, Repr

/-- Function `prometheus.BuildFQName`. -/
def BuildFQName (ns subsystem name : String) : String :=
  if name = "" then ""
  else if ns ≠ "" ∧ subsystem ≠ "" then ns ++ "_" ++ subsystem ++ "_" ++ name
  else if ns ≠ "" then ns ++ "_" ++ name
  else if subsystem ≠ "" then subsystem ++ "_" ++ name
  else name

/-- Whether a rune is an ASCII letter. -/
def isLetter (b : Char) : Bool :=
  (decide (97 ≤ b.toNat) && decide (b.toNat ≤ 122))
    || (decide (65 ≤ b.toNat) && decide (b.toNat ≤ 90))

/-- Whether a rune is an ASCII digit. -/
def isDigit (b : Char) : Bool := decide (48 ≤ b.toNat) && decide (b.toNat ≤ 57)

/-- Function `isValidLegacyRune` of prometheus/common/model: a letter, `_`,
`:`, or a digit that is not the first rune. -/
def isValidLegacyRune (b : Char) (i : Nat) : Bool :=
  isLetter b || b == '_' || b == ':' || (isDigit b && decide (i > 0))

/-- The loop `for i, b := range n` of `IsValidLegacyMetricName`; only whether
`i` is 0 matters. -/
def validLegacyRunes (i : Nat) : List Char → Bool
  | [] => true
  | b :: rest => isValidLegacyRune b i && validLegacyRunes (i + 1) rest

/-- Function `model.IsValidMetricName` with the legacy validation: the name
matches `[a-zA-Z_:][a-zA-Z0-9_:]*`. -/
def IsValidMetricName (n : String) : Bool :=
  if n.toList.length = 0 then false else validLegacyRunes 0 n.toList

/-- The loop of `LabelName.IsValid` with the legacy validation. -/
def validLabelRunes (i : Nat) : List Char → Bool
  | [] => true
  | b :: rest =>
    (isLetter b || b == '_' || (isDigit b && decide (i > 0))) && validLabelRunes (i + 1) rest

/-- Function `checkLabelName` of prometheus: the name matches
`[a-zA-Z_][a-zA-Z0-9_]*` and does not start with the reserved `__`. -/
def checkLabelName (l : String) : Bool :=
  (if l.toList.length = 0 then false else validLabelRunes 0 l.toList)
    && !("__".toList.isPrefixOf l.toList)

/-- The first variable label that `checkLabelName` refuses. -/
def firstBadLabel (variableLabels : List String) : Option String :=
  variableLabels.find? (fun l => !checkLabelName l)

/-- The error `prometheus.NewDesc` records for a descriptor without constant
labels: the metric name is checked first, then the label names in order,
then that no label name occurs twice. The texts are those of the library
for names that the verb `%q` prints unchanged between quotes. -/
def descErr (fqName : String) (variableLabels : List String) : Option String :=
  if IsValidMetricName fqName = false then
    some ("\"" ++ fqName ++ "\" is not a valid metric name")
  else
    match firstBadLabel variableLabels with
    | some l => some ("\"" ++ l ++ "\" is not a valid label name for metric \"" ++ fqName ++ "\"")
    | none =>
      if variableLabels.eraseDups.length ≠ variableLabels.length then
        some "duplicate label names"
      else none

/-- Function `prometheus.NewDesc` with `constLabels = nil`: the descriptor is
returned also when a check fails, with the error in `err`. Label values are
strings of Unicode characters, hence valid UTF-8. -/
def NewDesc (fqName help : String) (variableLabels : List String) : Desc :=
  ⟨fqName, help, variableLabels, descErr fqName variableLabels⟩

/-- Whether a namespace gives valid metric names: it is empty or itself a
valid metric name. -/
def validNamespace (ns : String) : Bool := ns == "" || IsValidMetricName ns

/-- A metric record as it is sent on the channel; values are `float64`. -/
structure Metric where
  desc : Desc
  valueType : ValueType
  value : Float
  labelValues : List String

/-- Function `prometheus.MustNewConstMetric`: it panics for a nil descriptor,
with the error of the descriptor when `NewDesc` recorded one, and when the
number of label values is not the number of variable labels. -/
def MustNewConstMetric (desc : Option Desc) (valueType : ValueType) (value : Float)
    (labelValues : List String) : GoResult Metric :=
  match desc with
  | none => .panic nilDeref
  | some d =>
    match d.err with
    | some err => .panic err
    | none =>
      if labelValues.length ≠ d.variableLabels.length then
        .panic "inconsistent label cardinality"
      else .ok ⟨d, valueType, value, labelValues⟩

/-- What a call has done on the channel `ch`: the records sent, in order, and
the panic that ended the call, if one did. -/
structure Sent where
  records : List Metric
  panic : Option String

/-- The statements `ch <- m` for a sequence of constructed metrics, up to the
first construction that panics. -/
def send : List (GoResult Metric) → Sent
  | [] => ⟨[], none⟩
  | .ok m :: rest => ⟨m :: (send rest).records, (send rest).panic⟩
  | .panic msg :: _ => ⟨[], some msg⟩

/-- The metrics of the constructions that returned. -/
def okRecords (attempts : List (GoResult Metric)) : List Metric :=
  attempts.filterMap GoResult.toOption

/-- Whether a construction returned. -/
def GoResult.isOk {α : Type} (r : GoResult α) : Bool := r.toOption.isSome

/-- Sequential composition: `b` runs after `a` unless `a` panicked. -/
def Sent.andThen (a b : Sent) : Sent :=
  match a.panic with
  | some msg => ⟨a.records, some msg⟩
  | none => ⟨a.records ++ b.records, b.panic⟩

/-- Index expression `m[key]` on a Go map given by its entries: the zero
value `nil` for a key that is absent. -/
def mapIndex {α : Type} (m : List (String × α)) (key : String) : Option α :=
  (m.find? (fun kv => kv.1 = key)).map (fun kv => kv.2)

/-- An HTTP response of the status page; both collectors accept the status
codes 200..299. -/
def fetchBody (get : Except String Response) : Except String (Except String (List Nat)) :=
  match get with
  | .error err => .error err
  | .ok resp =>
    if ¬ (resp.StatusCode ≥ 200 ∧ resp.StatusCode < 300) then
      .error ("HTTP status " ++ toString resp.StatusCode)
    else .ok resp.Body

/-- A cycle fails before a decoded document is at hand: the request fails,
the status is not 2xx, the body cannot be read, or `decode` returns an error
for the bytes of the body. -/
inductive CycleFails {α : Type} (get : Except String Response)
    (decode : List Nat → Except String α) : Prop where
  | request (err : String) (h : get = .error err) : CycleFails get decode
  | status (resp : Response) (h : get = .ok resp)
      (hs : ¬ (resp.StatusCode ≥ 200 ∧ resp.StatusCode < 300)) : CycleFails get decode
  | read (resp : Response) (err : String) (h : get = .ok resp) (hb : resp.Body = .error err) :
      CycleFails get decode
  | decode (resp : Response) (data : List Nat) (err : String) (h : get = .ok resp)
      (hb : resp.Body = .ok data) (hd : decode data = .error err) : CycleFails get decode

/-- A cycle reaches a decoded document: the request succeeds with a 2xx
status, the body is read, and `decode` returns the value `v` for its bytes. -/
inductive CycleDecodes {α : Type} (get : Except String Response)
    (decode : List Nat → Except String α) (v : α) : Prop where
  | intro (resp : Response) (data : List Nat) (h : get = .ok resp)
      (hs : resp.StatusCode ≥ 200 ∧ resp.StatusCode < 300) (hb : resp.Body = .ok data)
      (hd : decode data = .ok v) : CycleDecodes get decode v

/-! ## xmlquery: the node tree -/

/-- Type `xmlquery.NodeType`. -/
inductive NodeType where
  | DocumentNode
  | DeclarationNode
  | ElementNode
  | TextNode
  | CharDataNode
  | CommentNode
  | AttributeNode
  deriving DecidableEq, Repr

/-- A node of the tree `xmlquery.Parse` builds: its type, its namespace
`Prefix`, its `Data` (the local name of an element, the text of a text node)
and its children in document order. -/
inductive Node where
  | mk (type : NodeType) (Prefix : String) (data : String) (children : List Node)
  deriving Repr

/-- Field `Type`. -/
def Node.type : Node → NodeType
  | .mk t _ _ _ => t

/-- Field `Prefix`. -/
def Node.Prefix : Node → String
  | .mk _ p _ _ => p

/-- Field `Data`. -/
def Node.data : Node → String
  | .mk _ _ d _ => d

/-- The children, from `FirstChild` along `NextSibling`. -/
def Node.children : Node → List Node
  | .mk _ _ _ cs => cs

/-- The name test of a query step for a name without a prefix: an element
whose local name is `name` and whose prefix is empty. -/
def Node.isElement (name : String) (c : Node) : Bool :=
  decide (c.type = .ElementNode) && decide (c.data = name) && decide (c.Prefix = "")

/-- The first child element of that name. -/
def Node.child (n : Node) (name : String) : Option Node :=
  n.children.find? (Node.isElement name)

/-- A non-nil `*Node`: the node and the chain `Parent`, `Parent.Parent`, ... -/
structure NodeRef where
  node : Node
  ancestors : List Node

/-- Field `Parent`; `none` is nil. -/
def NodeRef.Parent (n : NodeRef) : Option NodeRef :=
  match n.ancestors with
  | [] => none
  | p :: ps => some ⟨p, ps⟩

mutual
/-- The text that `InnerText` writes for a node. -/
def innerText : Node → String
  | .mk .TextNode _ d _ => d
  | .mk .CharDataNode _ d _ => d
  | .mk .CommentNode _ _ _ => ""
  | .mk _ _ _ cs => innerTextList cs
/-- The text written for a list of siblings. -/
def innerTextList : List Node → String
  | [] => ""
  | c :: cs => innerText c ++ innerTextList cs
end

/-- Method `(*Node).InnerText`; the receiver may be nil. -/
def InnerText (n : Option NodeRef) : GoResult String :=
  match n with
  | none => .panic nilDeref
  | some n => .ok (innerText n.node)

/-- Method `(*Node).SelectElement`, the query `FindOne(n, name)`: the first
child element of that name, nil when there is none; the receiver may be
nil. -/
def SelectElement (n : Option NodeRef) (name : String) : GoResult (Option NodeRef) :=
  match n with
  | none => .panic nilDeref
  | some n =>
    .ok ((n.node.child name).map (fun c => ⟨c, n.node :: n.ancestors⟩))

mutual
/-- The nodes below a node, in document order, each with its ancestors. -/
def descendants (ancestors : List Node) : Node → List NodeRef
  | .mk t p d cs => descendantsList (.mk t p d cs :: ancestors) cs
/-- The nodes of a list of siblings and below them, in document order. -/
def descendantsList (ancestors : List Node) : List Node → List NodeRef
  | [] => []
  | c :: cs => ⟨c, ancestors⟩ :: (descendants ancestors c ++ descendantsList ancestors cs)
end

/-- Function `xmlquery.Find(top, "//" + name)`: the elements of that name
below `top`, in document order. -/
def Find (top : Node) (name : String) : List NodeRef :=
  (descendants [] top).filter (fun n => n.node.isElement name)

/-- Function `xmlquery.FindOne(top, "//" + name)`: the first such element, or
nil. -/
def FindOne (top : Node) (name : String) : Option NodeRef :=
  (Find top name).head?

/-! ## collector/rtmp.go -/

namespace RTMP

/-- Constant `namespace`. -/
def rtmpNamespace : String := "nginx_rtmp"

/-- Function `newServerMetric` with `constLabels = nil`. -/
def newServerMetric (metricName docString : String) (varLabels : List String) : Desc :=
  NewDesc (BuildFQName rtmpNamespace "server" metricName) docString varLabels

/-- Function `newStreamMetric` with `constLabels = nil`. -/
def newStreamMetric (metricName docString : String) (varLabels : List String) : Desc :=
  NewDesc (BuildFQName rtmpNamespace "stream" metricName) docString varLabels

/-- Variable `serverMetrics`. -/
def serverMetrics : List (String × Desc) :=
  [("bytesIn", newServerMetric "incoming_bytes_total" "Current total of incoming bytes" []),
   ("bytesOut", newServerMetric "outgoing_bytes_total" "Current total of outgoing bytes" []),
   ("bandwidthIn", newServerMetric "receive_bytes" "Current bandwidth in per second" []),
   ("bandwidthOut", newServerMetric "transmit_bytes" "Current bandwidth out per second" []),
   ("currentStreams", newServerMetric "current_streams" "Current number of active streams" []),
   ("uptime", newServerMetric "uptime_seconds_total" "Number of seconds NGINX-RTMP started" [])]

/-- Variable `streamMetrics`. -/
def streamMetrics : List (String × Desc) :=
  [("bytesIn", newStreamMetric "incoming_bytes_total" "Current total of incoming bytes" ["stream"]),
   ("bytesOut", newStreamMetric "outgoing_bytes_total" "Current total of outgoing bytes" ["stream"]),
   ("bandwidthIn", newStreamMetric "receive_bytes" "Current bandwidth in per second" ["stream"]),
   ("bandwidthOut", newStreamMetric "transmit_bytes" "Current bandwidth out per second" ["stream"]),
   ("uptime", newStreamMetric "uptime_seconds_total" "Number of seconds since the stream started"
      ["stream"])]

/-- Struct `RTMPExporter`: `streamNameNormalizer` stands for the method
`FindString` of the compiled pattern, `ParseFloat s` for
`strconv.ParseFloat(s, 64)` with `none` when it returns an error. -/
structure RTMPExporter where
  URI : String
  streamNameNormalizer : String → String
  ParseFloat : String → Option Float
  serverMetrics : List (String × Desc)
  streamMetrics : List (String × Desc)

/-- Struct `ServerInfo`. -/
structure ServerInfo where
  BytesIn : Float
  BytesOut : Float
  BandwidthIn : Float
  BandwidhOut : Float
  Uptime : Float

/-- Struct `StreamInfo`. -/
structure StreamInfo where
  Name : String
  BytesIn : Float
  BytesOut : Float
  BandwidthIn : Float
  BandwidhOut : Float
  Uptime : Float

/-- Method `NewServerInfo`. -/
def NewServerInfo (e : RTMPExporter) (bytesIn bytesOut bandwidthIn bandwidthOut uptime : String) :
    ServerInfo :=
  let bytesInNum : Float := match e.ParseFloat bytesIn with
    | some n => n
    | none => 0
  let bytesOutNum : Float := match e.ParseFloat bytesOut with
    | some n => n
    | none => 0
  let bandwidthInNum : Float := match e.ParseFloat bandwidthIn with
    | some n => n / 1048576
    | none => 0
  let bandwidthOutNum : Float := match e.ParseFloat bandwidthOut with
    | some n => n / 1048576
    | none => 0
  let uptimeNum : Float := match e.ParseFloat uptime with
    | some n => n
    | none => 0
  { BytesIn := bytesInNum, BytesOut := bytesOutNum, BandwidthIn := bandwidthInNum,
    BandwidhOut := bandwidthOutNum, Uptime := uptimeNum }

/-- Method `NewStreamInfo`. -/
def NewStreamInfo (e : RTMPExporter)
    (name bytesIn bytesOut bandwidthIn bandwidthOut uptime : String) : StreamInfo :=
  let bytesInNum : Float := match e.ParseFloat bytesIn with
    | some n => n
    | none => 0
  let bytesOutNum : Float := match e.ParseFloat bytesOut with
    | some n => n
    | none => 0
  let bandwidthInNum : Float := match e.ParseFloat bandwidthIn with
    | some n => n / 1048576
    | none => 0
  let bandwidthOutNum : Float := match e.ParseFloat bandwidthOut with
    | some n => n / 1048576
    | none => 0
  let uptimeNum : Float := match e.ParseFloat uptime with
    | some n => n / 1000
    | none => 0
  { Name := name, BytesIn := bytesInNum, BytesOut := bytesOutNum, BandwidthIn := bandwidthInNum,
    BandwidhOut := bandwidthOutNum, Uptime := uptimeNum }

/-- Method `NewRTMPExporter`. -/
def NewRTMPExporter (uri : String) (streamNameNormalizer : String → String)
    (ParseFloat : String → Option Float) : RTMPExporter :=
  { URI := uri, streamNameNormalizer := streamNameNormalizer, ParseFloat := ParseFloat,
    serverMetrics := serverMetrics, streamMetrics := streamMetrics }

/-- The closure `fetchStats` returns, for the response `client.Get(uri)` gave
in this cycle. -/
def fetchStats (get : Except String Response) : Except String (Except String (List Nat)) :=
  fetchBody get

/-- Method `parseServerStats`: the `ServerInfo` and the error returned. -/
def parseServerStats (e : RTMPExporter) (doc : Node) : GoResult (ServerInfo × Option String) := do
  let data := FindOne doc "rtmp"
  let bytesIn ← InnerText (← SelectElement data "bytes_in")
  let bytesOut ← InnerText (← SelectElement data "bytes_out")
  let receiveBytes ← InnerText (← SelectElement data "bw_in")
  let transmitBytes ← InnerText (← SelectElement data "bw_out")
  let uptime ← InnerText (← SelectElement data "uptime")
  pure (NewServerInfo e bytesIn bytesOut receiveBytes transmitBytes uptime, none)

/-- The body of the loop of `parseStreamsStats` for one stream node. -/
def parseStream (e : RTMPExporter) (streamNameNormalizer : String → String) (stream : NodeRef) :
    GoResult StreamInfo := do
  let name := streamNameNormalizer (← InnerText (← SelectElement (some stream) "name"))
  let app ←
    match stream.Parent with
    | none => pure ""
    | some parent =>
      match parent.Parent with
      | none => pure ""
      | some grandParent => do
        let appName ← SelectElement (some grandParent) "name"
        match appName with
        | none => pure ""
        | some _ => do
          let text ← InnerText appName
          pure (text ++ "-")
  let bytesIn ← InnerText (← SelectElement (some stream) "bytes_in")
  let bytesOut ← InnerText (← SelectElement (some stream) "bytes_out")
  let receiveBytes ← InnerText (← SelectElement (some stream) "bw_in")
  let transmitBytes ← InnerText (← SelectElement (some stream) "bw_out")
  let uptime ← InnerText (← SelectElement (some stream) "time")
  pure (NewStreamInfo e (app ++ name) bytesIn bytesOut receiveBytes transmitBytes uptime)

/-- The loop `for _, stream := range data` of `parseStreamsStats`. -/
def parseStreamsLoop (e : RTMPExporter) (streamNameNormalizer : String → String) :
    List NodeRef → List StreamInfo → GoResult (List StreamInfo)
  | [], streams => .ok streams
  | stream :: rest, streams =>
    match parseStream e streamNameNormalizer stream with
    | .panic msg => .panic msg
    | .ok info => parseStreamsLoop e streamNameNormalizer rest (streams ++ [info])

/-- Method `parseStreamsStats`: the slice and the error returned. -/
def parseStreamsStats (e : RTMPExporter) (doc : Node) (streamNameNormalizer : String → String) :
    GoResult (List StreamInfo × Option String) :=
  match parseStreamsLoop e streamNameNormalizer (Find doc "stream") [] with
  | .panic msg => .panic msg
  | .ok streams => .ok (streams, none)

/-- The five records of the loop over the streams in `scrape`. -/
def streamRecords (e : RTMPExporter) (stream : StreamInfo) : List (GoResult Metric) :=
  [MustNewConstMetric (mapIndex e.streamMetrics "bytesIn") .CounterValue stream.BytesIn [stream.Name],
   MustNewConstMetric (mapIndex e.streamMetrics "bytesOut") .CounterValue stream.BytesOut [stream.Name],
   MustNewConstMetric (mapIndex e.streamMetrics "bandwidthIn") .GaugeValue stream.BandwidthIn
     [stream.Name],
   MustNewConstMetric (mapIndex e.streamMetrics "bandwidthOut") .GaugeValue stream.BandwidhOut
     [stream.Name],
   MustNewConstMetric (mapIndex e.streamMetrics "uptime") .CounterValue stream.Uptime [stream.Name]]

/-- The call `xmlquery.Parse(data)`: the document is parsed from the bytes the
body yields, and a body that cannot be read gives an error. -/
def parseDocument (data : Except String (List Nat)) (Parse : List Nat → Except String Node) :
    Except String Node :=
  match data with
  | .error err => .error err
  | .ok bytes => Parse bytes

/-- Method `scrape`; `fetched` is what `e.fetch()` returned in this cycle and
`Parse` stands for `xmlquery.Parse` on the bytes of the body. -/
def scrape (e : RTMPExporter) (fetched : Except String (Except String (List Nat)))
    (Parse : List Nat → Except String Node) : Sent :=
  match fetched with
  | .error _ => ⟨[], none⟩
  | .ok data =>
    match parseDocument data Parse with
    | .error _ => ⟨[], none⟩
    | .ok doc =>
      match parseServerStats e doc with
      | .panic msg => ⟨[], some msg⟩
      | .ok (_, some _) => ⟨[], none⟩
      | .ok (server, none) =>
        (send
          [MustNewConstMetric (mapIndex e.serverMetrics "bytesIn") .CounterValue server.BytesIn [],
           MustNewConstMetric (mapIndex e.serverMetrics "bytesOut") .CounterValue server.BytesOut [],
           MustNewConstMetric (mapIndex e.serverMetrics "bandwidthIn") .GaugeValue
             server.BandwidthIn [],
           MustNewConstMetric (mapIndex e.serverMetrics "bandwidthOut") .GaugeValue
             server.BandwidhOut [],
           MustNewConstMetric (mapIndex e.serverMetrics "uptime") .CounterValue server.Uptime
             []]).andThen
          (match parseStreamsStats e doc e.streamNameNormalizer with
           | .panic msg => ⟨[], some msg⟩
           | .ok (_, some _) => ⟨[], none⟩
           | .ok (streams, none) =>
             (send (streams.flatMap (streamRecords e))).andThen
               (send [MustNewConstMetric (mapIndex e.serverMetrics "currentStreams") .GaugeValue
                  (Float.ofNat streams.length) []]))

/-- Method `Collect`, one call running alone. -/
def Collect (e : RTMPExporter) (fetched : Except String (Except String (List Nat)))
    (Parse : List Nat → Except String Node) : Sent :=
  scrape e fetched Parse

/-! ### The notions the properties of the RTMP collector are stated with -/

/-- Whether a node has a child element of that name. -/
def hasChild (n : NodeRef) (name : String) : Bool :=
  (n.node.child name).isSome

/-- The children `parseStreamsStats` reads from a stream node. -/
def streamFields : List String := ["name", "bytes_in", "bytes_out", "bw_in", "bw_out", "time"]

/-- The raw name of a stream: the text of the `name` child of the node. -/
def rawStreamName (stream : NodeRef) : String :=
  match stream.node.child "name" with
  | some c => innerText c
  | none => ""

/-- The name of the application: the text of the `name` child of the node two
levels above the stream node, if there is such a node and such a child. -/
def applicationName (stream : NodeRef) : Option String :=
  match stream.ancestors with
  | _ :: grandParent :: _ =>
    (grandParent.child "name").map innerText
  | _ => none

/-- The identity of a stream in the words of the specification:
`appName + "-" + normalizedName` with an application name, `normalizedName`
alone without one. -/
def streamIdentity (normalizer : String → String) (stream : NodeRef) : String :=
  match applicationName stream with
  | some appName => appName ++ "-" ++ normalizer (rawStreamName stream)
  | none => normalizer (rawStreamName stream)

/-- A numeric field computed from its own text alone: it is 0 when the text
does not parse as a float, and `scale n` when the text parses to `n`. -/
def fieldOf (e : RTMPExporter) (text : String) (scale : Float → Float) (field : Float) : Prop :=
  (e.ParseFloat text = none → field = 0) ∧ (∀ n, e.ParseFloat text = some n → field = scale n)

/-- An element with the given children. -/
def element (name : String) (children : List Node) : Node :=
  .mk .ElementNode "" name children

/-- An element that holds a text. -/
def textElement (name text : String) : Node :=
  .mk .ElementNode "" name [.mk .TextNode "" text []]

/-- A status document whose `rtmp` node has no `bw_out` child. -/
def docWithoutBwOut : Node :=
  .mk .DocumentNode "" ""
    [element "rtmp"
      [textElement "bytes_in" "10", textElement "bytes_out" "20", textElement "bw_in" "30",
       textElement "uptime" "40"]]

/-- A status document whose elements carry the namespace prefix `x`, as in
`<x:rtmp xmlns:x="..."><x:bytes_in>10</x:bytes_in></x:rtmp>`. -/
def docPrefixed : Node :=
  .mk .DocumentNode "" ""
    [.mk .ElementNode "x" "rtmp"
      [.mk .ElementNode "x" "bytes_in" [.mk .TextNode "" "10" []]]]

/-- A document without an `rtmp` node. -/
def docWithoutServer : Node :=
  .mk .DocumentNode "" "" [element "html" [textElement "body" "not found"]]

/-- The stream `cam1` with the six children read from a stream node. -/
def cam1 : Node :=
  element "stream"
    [textElement "name" "cam1", textElement "time" "5000", textElement "bw_in" "1048576",
     textElement "bytes_in" "7", textElement "bw_out" "0", textElement "bytes_out" "9"]

/-- A status document with the stream `cam1` two levels below the application
`live`, and the same stream directly below the root element. -/
def docLive : Node :=
  .mk .DocumentNode "" ""
    [element "rtmp"
      [textElement "bytes_in" "10", textElement "bytes_out" "20", textElement "bw_in" "30",
       textElement "bw_out" "40", textElement "uptime" "50",
       element "server" [element "application" [textElement "name" "live", element "live" [cam1]]],
       cam1]]

/-- An exporter for the examples: the pattern `.*` and a `ParseFloat` that
always fails. -/
def exampleExporter : RTMPExporter := NewRTMPExporter "http://localhost/stat" id (fun _ => none)

/-! ### A document with a stream node that lacks a child -/

/-- A stream node without the child `time`. -/
def cam2 : Node :=
  element "stream"
    [textElement "name" "cam2", textElement "bw_in" "1048576", textElement "bytes_in" "7",
     textElement "bw_out" "0", textElement "bytes_out" "9"]

/-- A status document with the stream `cam1` and, after it, the stream `cam2`
that has no child `time`. -/
def docWithoutTime : Node :=
  .mk .DocumentNode "" ""
    [element "rtmp"
      [textElement "bytes_in" "10", textElement "bytes_out" "20", textElement "bw_in" "30",
       textElement "bw_out" "40", textElement "uptime" "50",
       element "server" [element "application" [textElement "name" "live",
         element "live" [cam1, cam2]]]]]

/-- The five records of the server that `scrape` sends first. -/
def serverRecords (e : RTMPExporter) (server : ServerInfo) : List Metric :=
  okRecords
    [MustNewConstMetric (mapIndex e.serverMetrics "bytesIn") .CounterValue server.BytesIn [],
     MustNewConstMetric (mapIndex e.serverMetrics "bytesOut") .CounterValue server.BytesOut [],
     MustNewConstMetric (mapIndex e.serverMetrics "bandwidthIn") .GaugeValue
       server.BandwidthIn [],
     MustNewConstMetric (mapIndex e.serverMetrics "bandwidthOut") .GaugeValue
       server.BandwidhOut [],
     MustNewConstMetric (mapIndex e.serverMetrics "uptime") .CounterValue server.Uptime []]

end RTMP

/-! ## collector/vts.go -/

namespace VTS

/-- The anonymous struct of the field `Connections`; the fields are `uint64`. -/
structure Connections where
  Active : Nat
  Reading : Nat
  Writing : Nat
  Waiting : Nat
  Accepted : Nat
  Handled : Nat
  Requests : Nat

/-- The anonymous struct of the field `SharedZones`. -/
structure SharedZones where
  Name : String
  MaxSize : Nat
  UsedSize : Nat
  UsedNode : Nat

/-- The anonymous struct of the field `Server.Responses`. -/
structure ServerResponses where
  OneXx : Nat
  TwoXx : Nat
  ThreeXx : Nat
  FourXx : Nat
  FiveXx : Nat
  Miss : Nat
  Bypass : Nat
  Expired : Nat
  Stale : Nat
  Updating : Nat
  Revalidated : Nat
  Hit : Nat
  Scarce : Nat

/-- The anonymous struct of the field `Server.OverCounts`. -/
structure ServerOverCounts where
  MaxIntegerSize : Float
  RequestCounter : Nat
  InBytes : Nat
  OutBytes : Nat
  OneXx : Nat
  TwoXx : Nat
  ThreeXx : Nat
  FourXx : Nat
  FiveXx : Nat
  Miss : Nat
  Bypass : Nat
  Expired : Nat
  Stale : Nat
  Updating : Nat
  Revalidated : Nat
  Hit : Nat
  Scarce : Nat

/-- Struct `Server`. -/
structure Server where
  RequestCounter : Nat
  InBytes : Nat
  OutBytes : Nat
  RequestMsec : Nat
  Responses : ServerResponses
  OverCounts : ServerOverCounts

/-- The anonymous struct of the field `Upstream.Responses`. -/
structure UpstreamResponses where
  OneXx : Nat
  TwoXx : Nat
  ThreeXx : Nat
  FourXx : Nat
  FiveXx : Nat

/-- The anonymous struct of the field `Upstream.OverCounts`. -/
structure UpstreamOverCounts where
  MaxIntegerSize : Float
  RequestCounter : Nat
  InBytes : Nat
  OutBytes : Nat
  OneXx : Nat
  TwoXx : Nat
  ThreeXx : Nat
  FourXx : Nat
  FiveXx : Nat

/-- Struct `Upstream`. -/
structure Upstream where
  Server : String
  RequestCounter : Nat
  InBytes : Nat
  OutBytes : Nat
  Responses : UpstreamResponses
  ResponseMsec : Nat
  RequestMsec : Nat
  Weight : Nat
  MaxFails : Nat
  FailTimeout : Nat
  Backup : Bool
  Down : Bool
  OverCounts : UpstreamOverCounts

/-- The anonymous struct of the field `Cache.Responses`. -/
structure CacheResponses where
  Miss : Nat
  Bypass : Nat
  Expired : Nat
  Stale : Nat
  Updating : Nat
  Revalidated : Nat
  Hit : Nat
  Scarce : Nat

/-- The anonymous struct of the field `Cache.OverCounts`. -/
structure CacheOverCounts where
  MaxIntegerSize : Float
  InBytes : Nat
  OutBytes : Nat
  Miss : Nat
  Bypass : Nat
  Expired : Nat
  Stale : Nat
  Updating : Nat
  Revalidated : Nat
  Hit : Nat
  Scarce : Nat

/-- Struct `Cache`. -/
structure Cache where
  MaxSize : Nat
  UsedSize : Nat
  InBytes : Nat
  OutBytes : Nat
  Responses : CacheResponses
  OverCounts : CacheOverCounts

/-- Struct `NginxVts`. `LoadMsec` and `NowMsec` are `int64`. A field of map
type lists the entries of the map in the order in which the `range`
statement of the cycle at hand visits them. -/
structure NginxVts where
  HostName : String
  NginxVersion : String
  LoadMsec : Int
  NowMsec : Int
  Connections : Connections
  SharedZones : SharedZones
  ServerZones : List (String × Server)
  UpstreamZones : List (String × List Upstream)
  FilterZones : List (String × List (String × Upstream))
  CacheZones : List (String × Cache)

/-- Struct `VtsExporter`; `upMetric` is the descriptor of the gauge. -/
structure VtsExporter where
  URI : String
  NAMESPACE : String
  TIMEOUT : Nat
  INSECURE : Bool
  upMetric : Desc
  infoMetric : Desc
  serverMetrics : List (String × Desc)
  upstreamMetrics : List (String × Desc)
  filterMetrics : List (String × Desc)
  cacheMetrics : List (String × Desc)

/-- Modelled from the spec: the constant `nginxUp` is declared in a file of
the package that is not at hand; the liveness gauge is set to "up", the
value 1. -/
def nginxUp : Nat := 1

/-- Modelled from the spec: the constant `nginxDown` is declared in a file of
the package that is not at hand; the liveness gauge is set to "down", the
value 0. -/
def nginxDown : Nat := 0

/-- Method `newServerMetric`. -/
def newServerMetric (e : VtsExporter) (metricName docString : String) (labels : List String) :
    Desc :=
  NewDesc (BuildFQName e.NAMESPACE "server" metricName) docString labels

/-- Method `newUpstreamMetric`. -/
def newUpstreamMetric (e : VtsExporter) (metricName docString : String) (labels : List String) :
    Desc :=
  NewDesc (BuildFQName e.NAMESPACE "upstream" metricName) docString labels

/-- Method `newFilterMetric`. -/
def newFilterMetric (e : VtsExporter) (metricName docString : String) (labels : List String) :
    Desc :=
  NewDesc (BuildFQName e.NAMESPACE "filter" metricName) docString labels

/-- Method `newCacheMetric`. -/
def newCacheMetric (e : VtsExporter) (metricName docString : String) (labels : List String) :
    Desc :=
  NewDesc (BuildFQName e.NAMESPACE "cache" metricName) docString labels

/-- Method `NewVTSExporter` on the receiver `e`; `newUpMetric` stands for the
function of that name, declared in a file of the package that is not at
hand, applied to the namespace. -/
def NewVTSExporter (e : VtsExporter) (newUpMetric : String → Desc) (uri ns : String)
    (insecure : Bool) (timeout : Nat) : VtsExporter :=
  { URI := uri
    NAMESPACE := ns
    INSECURE := insecure
    TIMEOUT := timeout
    upMetric := newUpMetric ns
    infoMetric := newServerMetric e "uptime" "nginx info" ["hostName", "nginxVersion"]
    serverMetrics :=
      [("connections", newServerMetric e "connections" "nginx connections" ["status"]),
       ("requests", newServerMetric e "requests" "requests counter" ["host", "code"]),
       ("bytes", newServerMetric e "bytes" "request/response bytes" ["host", "direction"]),
       ("cache", newServerMetric e "cache" "cache counter" ["host", "status"]),
       ("requestMsec", newServerMetric e "requestMsec"
          "average of request processing times in milliseconds" ["host"]),
       ("sharedzones", newServerMetric e "sharedzones" "vts module shared memory metrics"
          ["name", "memstat"])]
    upstreamMetrics :=
      [("requests", newUpstreamMetric e "requests" "requests counter"
          ["upstream", "code", "backend"]),
       ("bytes", newUpstreamMetric e "bytes" "request/response bytes"
          ["upstream", "direction", "backend"]),
       ("responseMsec", newUpstreamMetric e "responseMsec"
          "average of only upstream/backend response processing times in milliseconds"
          ["upstream", "backend"]),
       ("requestMsec", newUpstreamMetric e "requestMsec"
          "average of request processing times in milliseconds" ["upstream", "backend"])]
    filterMetrics :=
      [("requests", newFilterMetric e "requests" "requests counter"
          ["filter", "filterName", "code"]),
       ("bytes", newFilterMetric e "bytes" "request/response bytes"
          ["filter", "filterName", "direction"]),
       ("responseMsec", newFilterMetric e "responseMsec"
          "average of only upstream/backend response processing times in milliseconds"
          ["filter", "filterName"]),
       ("requestMsec", newFilterMetric e "requestMsec"
          "average of request processing times in milliseconds" ["filter", "filterName"])]
    cacheMetrics :=
      [("requests", newCacheMetric e "requests" "cache requests counter" ["zone", "status"]),
       ("bytes", newCacheMetric e "bytes" "cache request/response bytes" ["zone", "direction"])] }

/-- Conversion `float64(x)` of a `uint64`. -/
def float64 (x : Nat) : Float := Float.ofNat x

/-- The value of an `int64` expression: the result wraps around. -/
def wrapInt64 (x : Int) : Int := (x + 2 ^ 63) % 2 ^ 64 - 2 ^ 63

/-- The record `ch <- e.upMetric` sends after `e.upMetric.Set(v)`. -/
def upRecord (e : VtsExporter) (v : Nat) : Metric :=
  ⟨e.upMetric, .GaugeValue, float64 v, []⟩

/-- Section `// info` of `Collect`. -/
def infoRecords (e : VtsExporter) (nginxVtx : NginxVts) : List (GoResult Metric) :=
  let uptime := Int.tdiv (wrapInt64 (nginxVtx.NowMsec - nginxVtx.LoadMsec)) 1000
  [MustNewConstMetric (some e.infoMetric) .GaugeValue (Float.ofInt uptime)
     [nginxVtx.HostName, nginxVtx.NginxVersion]]

/-- Section `// connections` of `Collect`. -/
def connectionsRecords (e : VtsExporter) (nginxVtx : NginxVts) : List (GoResult Metric) :=
  [MustNewConstMetric (mapIndex e.serverMetrics "connections") .GaugeValue
     (float64 nginxVtx.Connections.Active) ["active"],
   MustNewConstMetric (mapIndex e.serverMetrics "connections") .GaugeValue
     (float64 nginxVtx.Connections.Reading) ["reading"],
   MustNewConstMetric (mapIndex e.serverMetrics "connections") .GaugeValue
     (float64 nginxVtx.Connections.Waiting) ["waiting"],
   MustNewConstMetric (mapIndex e.serverMetrics "connections") .GaugeValue
     (float64 nginxVtx.Connections.Writing) ["writing"],
   MustNewConstMetric (mapIndex e.serverMetrics "connections") .GaugeValue
     (float64 nginxVtx.Connections.Accepted) ["accepted"],
   MustNewConstMetric (mapIndex e.serverMetrics "connections") .GaugeValue
     (float64 nginxVtx.Connections.Handled) ["handled"],
   MustNewConstMetric (mapIndex e.serverMetrics "connections") .GaugeValue
     (float64 nginxVtx.Connections.Requests) ["requests"]]

/-- Section `// sharedzones` of `Collect`. -/
def sharedZonesRecords (e : VtsExporter) (nginxVtx : NginxVts) : List (GoResult Metric) :=
  [MustNewConstMetric (mapIndex e.serverMetrics "sharedzones") .GaugeValue
     (float64 nginxVtx.SharedZones.MaxSize) [nginxVtx.SharedZones.Name, "maxsize"],
   MustNewConstMetric (mapIndex e.serverMetrics "sharedzones") .GaugeValue
     (float64 nginxVtx.SharedZones.UsedSize) [nginxVtx.SharedZones.Name, "usedsize"],
   MustNewConstMetric (mapIndex e.serverMetrics "sharedzones") .GaugeValue
     (float64 nginxVtx.SharedZones.UsedNode) [nginxVtx.SharedZones.Name, "usednode"]]

/-- The body of the loop `// ServerZones` of `Collect`. -/
def serverZoneRecords (e : VtsExporter) (host : String) (s : Server) : List (GoResult Metric) :=
  [MustNewConstMetric (mapIndex e.serverMetrics "requests") .CounterValue
     (float64 s.RequestCounter) [host, "total"],
   MustNewConstMetric (mapIndex e.serverMetrics "requests") .CounterValue
     (float64 s.Responses.OneXx) [host, "1xx"],
   MustNewConstMetric (mapIndex e.serverMetrics "requests") .CounterValue
     (float64 s.Responses.TwoXx) [host, "2xx"],
   MustNewConstMetric (mapIndex e.serverMetrics "requests") .CounterValue
     (float64 s.Responses.ThreeXx) [host, "3xx"],
   MustNewConstMetric (mapIndex e.serverMetrics "requests") .CounterValue
     (float64 s.Responses.FourXx) [host, "4xx"],
   MustNewConstMetric (mapIndex e.serverMetrics "requests") .CounterValue
     (float64 s.Responses.FiveXx) [host, "5xx"],
   MustNewConstMetric (mapIndex e.serverMetrics "cache") .CounterValue
     (float64 s.Responses.Bypass) [host, "bypass"],
   MustNewConstMetric (mapIndex e.serverMetrics "cache") .CounterValue
     (float64 s.Responses.Expired) [host, "expired"],
   MustNewConstMetric (mapIndex e.serverMetrics "cache") .CounterValue
     (float64 s.Responses.Hit) [host, "hit"],
   MustNewConstMetric (mapIndex e.serverMetrics "cache") .CounterValue
     (float64 s.Responses.Miss) [host, "miss"],
   MustNewConstMetric (mapIndex e.serverMetrics "cache") .CounterValue
     (float64 s.Responses.Revalidated) [host, "revalidated"],
   MustNewConstMetric (mapIndex e.serverMetrics "cache") .CounterValue
     (float64 s.Responses.Scarce) [host, "scarce"],
   MustNewConstMetric (mapIndex e.serverMetrics "cache") .CounterValue
     (float64 s.Responses.Stale) [host, "stale"],
   MustNewConstMetric (mapIndex e.serverMetrics "cache") .CounterValue
     (float64 s.Responses.Updating) [host, "updating"],
   MustNewConstMetric (mapIndex e.serverMetrics "bytes") .CounterValue
     (float64 s.InBytes) [host, "in"],
   MustNewConstMetric (mapIndex e.serverMetrics "bytes") .CounterValue
     (float64 s.OutBytes) [host, "out"],
   MustNewConstMetric (mapIndex e.serverMetrics "requestMsec") .GaugeValue
     (float64 s.RequestMsec) [host]]

/-- The body of the inner loop `// UpstreamZones` of `Collect`. -/
def upstreamRecords (e : VtsExporter) (name : String) (s : Upstream) : List (GoResult Metric) :=
  [MustNewConstMetric (mapIndex e.upstreamMetrics "responseMsec") .GaugeValue
     (float64 s.ResponseMsec) [name, s.Server],
   MustNewConstMetric (mapIndex e.upstreamMetrics "requestMsec") .GaugeValue
     (float64 s.RequestMsec) [name, s.Server],
   MustNewConstMetric (mapIndex e.upstreamMetrics "requests") .CounterValue
     (float64 s.RequestCounter) [name, "total", s.Server],
   MustNewConstMetric (mapIndex e.upstreamMetrics "requests") .CounterValue
     (float64 s.Responses.OneXx) [name, "1xx", s.Server],
   MustNewConstMetric (mapIndex e.upstreamMetrics "requests") .CounterValue
     (float64 s.Responses.TwoXx) [name, "2xx", s.Server],
   MustNewConstMetric (mapIndex e.upstreamMetrics "requests") .CounterValue
     (float64 s.Responses.ThreeXx) [name, "3xx", s.Server],
   MustNewConstMetric (mapIndex e.upstreamMetrics "requests") .CounterValue
     (float64 s.Responses.FourXx) [name, "4xx", s.Server],
   MustNewConstMetric (mapIndex e.upstreamMetrics "requests") .CounterValue
     (float64 s.Responses.FiveXx) [name, "5xx", s.Server],
   MustNewConstMetric (mapIndex e.upstreamMetrics "bytes") .CounterValue
     (float64 s.InBytes) [name, "in", s.Server],
   MustNewConstMetric (mapIndex e.upstreamMetrics "bytes") .CounterValue
     (float64 s.OutBytes) [name, "out", s.Server]]

/-- The body of the inner loop `// FilterZones` of `Collect`. -/
def filterRecords (e : VtsExporter) (filter name : String) (stat : Upstream) :
    List (GoResult Metric) :=
  [MustNewConstMetric (mapIndex e.filterMetrics "responseMsec") .GaugeValue
     (float64 stat.ResponseMsec) [filter, name],
   MustNewConstMetric (mapIndex e.filterMetrics "requestMsec") .GaugeValue
     (float64 stat.RequestMsec) [filter, name],
   MustNewConstMetric (mapIndex e.filterMetrics "requests") .CounterValue
     (float64 stat.RequestCounter) [filter, name, "total"],
   MustNewConstMetric (mapIndex e.filterMetrics "requests") .CounterValue
     (float64 stat.Responses.OneXx) [filter, name, "1xx"],
   MustNewConstMetric (mapIndex e.filterMetrics "requests") .CounterValue
     (float64 stat.Responses.TwoXx) [filter, name, "2xx"],
   MustNewConstMetric (mapIndex e.filterMetrics "requests") .CounterValue
     (float64 stat.Responses.ThreeXx) [filter, name, "3xx"],
   MustNewConstMetric (mapIndex e.filterMetrics "requests") .CounterValue
     (float64 stat.Responses.FourXx) [filter, name, "4xx"],
   MustNewConstMetric (mapIndex e.filterMetrics "requests") .CounterValue
     (float64 stat.Responses.FiveXx) [filter, name, "5xx"],
   MustNewConstMetric (mapIndex e.filterMetrics "bytes") .CounterValue
     (float64 stat.InBytes) [filter, name, "in"],
   MustNewConstMetric (mapIndex e.filterMetrics "bytes") .CounterValue
     (float64 stat.OutBytes) [filter, name, "out"]]

/-- The body of the loop `// CacheZones` of `Collect`. -/
def cacheZoneRecords (e : VtsExporter) (zone : String) (s : Cache) : List (GoResult Metric) :=
  [MustNewConstMetric (mapIndex e.cacheMetrics "requests") .CounterValue
     (float64 s.Responses.Bypass) [zone, "bypass"],
   MustNewConstMetric (mapIndex e.cacheMetrics "requests") .CounterValue
     (float64 s.Responses.Expired) [zone, "expired"],
   MustNewConstMetric (mapIndex e.cacheMetrics "requests") .CounterValue
     (float64 s.Responses.Hit) [zone, "hit"],
   MustNewConstMetric (mapIndex e.cacheMetrics "requests") .CounterValue
     (float64 s.Responses.Miss) [zone, "miss"],
   MustNewConstMetric (mapIndex e.cacheMetrics "requests") .CounterValue
     (float64 s.Responses.Revalidated) [zone, "revalidated"],
   MustNewConstMetric (mapIndex e.cacheMetrics "requests") .CounterValue
     (float64 s.Responses.Scarce) [zone, "scarce"],
   MustNewConstMetric (mapIndex e.cacheMetrics "requests") .CounterValue
     (float64 s.Responses.Stale) [zone, "stale"],
   MustNewConstMetric (mapIndex e.cacheMetrics "requests") .CounterValue
     (float64 s.Responses.Updating) [zone, "updating"],
   MustNewConstMetric (mapIndex e.cacheMetrics "bytes") .CounterValue
     (float64 s.InBytes) [zone, "in"],
   MustNewConstMetric (mapIndex e.cacheMetrics "bytes") .CounterValue
     (float64 s.OutBytes) [zone, "out"]]

/-- The constant metrics `Collect` constructs after the gauge, in the order
of the statements. -/
def translate (e : VtsExporter) (nginxVtx : NginxVts) : List (GoResult Metric) :=
  infoRecords e nginxVtx
    ++ connectionsRecords e nginxVtx
    ++ sharedZonesRecords e nginxVtx
    ++ nginxVtx.ServerZones.flatMap (fun hs => serverZoneRecords e hs.1 hs.2)
    ++ nginxVtx.UpstreamZones.flatMap
        (fun nl => nl.2.flatMap (fun s => upstreamRecords e nl.1 s))
    ++ nginxVtx.FilterZones.flatMap
        (fun fv => fv.2.flatMap (fun ns => filterRecords e fv.1 ns.1 ns.2))
    ++ nginxVtx.CacheZones.flatMap (fun zs => cacheZoneRecords e zs.1 zs.2)

/-- The closure `fetchHTTP` returns, for the response
`http.DefaultClient.Get(uri)` gave in this cycle. -/
def fetchHTTP (get : Except String Response) : Except String (Except String (List Nat)) :=
  fetchBody get

/-- Method `Collect`; `fetched` is what the call of the closure of `fetchHTTP`
returned in this cycle, a body being what `ioutil.ReadAll` reads from it, and
`Unmarshal data` is the error and the decoded value of
`json.Unmarshal(data, &nginxVtx)`. -/
def Collect (e : VtsExporter) (fetched : Except String (Except String (List Nat)))
    (Unmarshal : List Nat → Except String NginxVts) : Sent :=
  match fetched with
  | .error _ => ⟨[upRecord e nginxDown], none⟩
  | .ok body =>
    match body with
    | .error _ => ⟨[upRecord e nginxDown], none⟩
    | .ok data =>
      match Unmarshal data with
      | .error _ => ⟨[upRecord e nginxDown], none⟩
      | .ok nginxVtx =>
        (Sent.mk [upRecord e nginxUp] none).andThen (send (translate e nginxVtx))

/-! ### The notions the properties of the VTS collector are stated with -/

/-- The seven connection fields: the name of each and its decoded value. -/
def connectionFields (c : Connections) : List (String × Nat) :=
  [("active", c.Active), ("reading", c.Reading), ("writing", c.Writing), ("waiting", c.Waiting),
   ("accepted", c.Accepted), ("handled", c.Handled), ("requests", c.Requests)]

/-- A record of the connections metric of `e` whose status label has the
given value. -/
def isConnectionsRecord (e : VtsExporter) (status : String) (m : Metric) : Bool :=
  decide ((mapIndex e.serverMetrics "connections").map Desc.fqName = some m.desc.fqName)
    && decide (m.labelValues = [status])

/-- A receiver for `NewVTSExporter` with the namespace `nginx`. -/
def exampleReceiver : VtsExporter :=
  { URI := "", NAMESPACE := "nginx", TIMEOUT := 0, INSECURE := false,
    upMetric := NewDesc "" "" [], infoMetric := NewDesc "" "" [], serverMetrics := [],
    upstreamMetrics := [], filterMetrics := [], cacheMetrics := [] }

/-- A descriptor for the gauge `up` of a namespace. -/
def exampleUpMetric (ns : String) : Desc :=
  NewDesc (BuildFQName ns "" "up") "Status of the last metric scrape" []

/-- An exporter for the examples. -/
def exampleExporter : VtsExporter :=
  NewVTSExporter exampleReceiver exampleUpMetric "http://localhost/status/format/json" "nginx"
    false 5

/-- A snapshot without zones, with 42 active connections. -/
def exampleSnapshot : NginxVts :=
  { HostName := "web1", NginxVersion := "1.25.3", LoadMsec := 1000, NowMsec := 61000,
    Connections := { Active := 42, Reading := 1, Writing := 2, Waiting := 39, Accepted := 100,
                     Handled := 100, Requests := 250 },
    SharedZones := { Name := "vts", MaxSize := 1048575, UsedSize := 3510, UsedNode := 1 },
    ServerZones := [], UpstreamZones := [], FilterZones := [], CacheZones := [] }

/-! ### The records expected of the translation

The name, kind, value and label values of every record the specification
expects for a snapshot, written out combination by combination: the
translation embedded above is compared with these tables. -/

/-- What the sink sees of a record: its name, its kind, its value and its
label values. -/
def view (m : Metric) : String × ValueType × Float × List String :=
  (m.desc.fqName, m.valueType, m.value, m.labelValues)

/-- A metric name in a namespace: `<namespace>_<rest>`, and `<rest>` alone
for the empty namespace. -/
def qualified (ns rest : String) : String := if ns = "" then rest else ns ++ "_" ++ rest

/-- The info record: the uptime in seconds, labelled with the host name and
the version. -/
def expectedInfo (ns : String) (v : NginxVts) : List (String × ValueType × Float × List String) :=
  [(qualified ns "server_uptime", .GaugeValue,
    Float.ofInt (Int.tdiv (wrapInt64 (v.NowMsec - v.LoadMsec)) 1000),
    [v.HostName, v.NginxVersion])]

/-- The seven connection gauges. -/
def expectedConnections (ns : String) (c : Connections) :
    List (String × ValueType × Float × List String) :=
  [(qualified ns "server_connections", .GaugeValue, Float.ofNat c.Active, ["active"]),
   (qualified ns "server_connections", .GaugeValue, Float.ofNat c.Reading, ["reading"]),
   (qualified ns "server_connections", .GaugeValue, Float.ofNat c.Waiting, ["waiting"]),
   (qualified ns "server_connections", .GaugeValue, Float.ofNat c.Writing, ["writing"]),
   (qualified ns "server_connections", .GaugeValue, Float.ofNat c.Accepted, ["accepted"]),
   (qualified ns "server_connections", .GaugeValue, Float.ofNat c.Handled, ["handled"]),
   (qualified ns "server_connections", .GaugeValue, Float.ofNat c.Requests, ["requests"])]

/-- The usage triple of the shared memory zone. -/
def expectedSharedZones (ns : String) (z : SharedZones) :
    List (String × ValueType × Float × List String) :=
  [(qualified ns "server_sharedzones", .GaugeValue, Float.ofNat z.MaxSize, [z.Name, "maxsize"]),
   (qualified ns "server_sharedzones", .GaugeValue, Float.ofNat z.UsedSize, [z.Name, "usedsize"]),
   (qualified ns "server_sharedzones", .GaugeValue, Float.ofNat z.UsedNode, [z.Name, "usednode"])]

/-- The 17 records of a server zone: the request counter and the five
response classes, the eight cache outcomes, the bytes in and out, and the
average request time. -/
def expectedServerZone (ns host : String) (s : Server) :
    List (String × ValueType × Float × List String) :=
  [(qualified ns "server_requests", .CounterValue, Float.ofNat s.RequestCounter, [host, "total"]),
   (qualified ns "server_requests", .CounterValue, Float.ofNat s.Responses.OneXx, [host, "1xx"]),
   (qualified ns "server_requests", .CounterValue, Float.ofNat s.Responses.TwoXx, [host, "2xx"]),
   (qualified ns "server_requests", .CounterValue, Float.ofNat s.Responses.ThreeXx, [host, "3xx"]),
   (qualified ns "server_requests", .CounterValue, Float.ofNat s.Responses.FourXx, [host, "4xx"]),
   (qualified ns "server_requests", .CounterValue, Float.ofNat s.Responses.FiveXx, [host, "5xx"]),
   (qualified ns "server_cache", .CounterValue, Float.ofNat s.Responses.Bypass, [host, "bypass"]),
   (qualified ns "server_cache", .CounterValue, Float.ofNat s.Responses.Expired,
     [host, "expired"]),
   (qualified ns "server_cache", .CounterValue, Float.ofNat s.Responses.Hit, [host, "hit"]),
   (qualified ns "server_cache", .CounterValue, Float.ofNat s.Responses.Miss, [host, "miss"]),
   (qualified ns "server_cache", .CounterValue, Float.ofNat s.Responses.Revalidated,
     [host, "revalidated"]),
   (qualified ns "server_cache", .CounterValue, Float.ofNat s.Responses.Scarce, [host, "scarce"]),
   (qualified ns "server_cache", .CounterValue, Float.ofNat s.Responses.Stale, [host, "stale"]),
   (qualified ns "server_cache", .CounterValue, Float.ofNat s.Responses.Updating,
     [host, "updating"]),
   (qualified ns "server_bytes", .CounterValue, Float.ofNat s.InBytes, [host, "in"]),
   (qualified ns "server_bytes", .CounterValue, Float.ofNat s.OutBytes, [host, "out"]),
   (qualified ns "server_requestMsec", .GaugeValue, Float.ofNat s.RequestMsec, [host])]

/-- The 10 records of a backend of an upstream zone: the average response
and request times, the request counter and the five response classes, and
the bytes in and out. -/
def expectedUpstream (ns name : String) (s : Upstream) :
    List (String × ValueType × Float × List String) :=
  [(qualified ns "upstream_responseMsec", .GaugeValue, Float.ofNat s.ResponseMsec,
     [name, s.Server]),
   (qualified ns "upstream_requestMsec", .GaugeValue, Float.ofNat s.RequestMsec,
     [name, s.Server]),
   (qualified ns "upstream_requests", .CounterValue, Float.ofNat s.RequestCounter,
     [name, "total", s.Server]),
   (qualified ns "upstream_requests", .CounterValue, Float.ofNat s.Responses.OneXx,
     [name, "1xx", s.Server]),
   (qualified ns "upstream_requests", .CounterValue, Float.ofNat s.Responses.TwoXx,
     [name, "2xx", s.Server]),
   (qualified ns "upstream_requests", .CounterValue, Float.ofNat s.Responses.ThreeXx,
     [name, "3xx", s.Server]),
   (qualified ns "upstream_requests", .CounterValue, Float.ofNat s.Responses.FourXx,
     [name, "4xx", s.Server]),
   (qualified ns "upstream_requests", .CounterValue, Float.ofNat s.Responses.FiveXx,
     [name, "5xx", s.Server]),
   (qualified ns "upstream_bytes", .CounterValue, Float.ofNat s.InBytes, [name, "in", s.Server]),
   (qualified ns "upstream_bytes", .CounterValue, Float.ofNat s.OutBytes,
     [name, "out", s.Server])]

/-- The 10 records of an entry of a filter zone. -/
def expectedFilter (ns filter name : String) (s : Upstream) :
    List (String × ValueType × Float × List String) :=
  [(qualified ns "filter_responseMsec", .GaugeValue, Float.ofNat s.ResponseMsec, [filter, name]),
   (qualified ns "filter_requestMsec", .GaugeValue, Float.ofNat s.RequestMsec, [filter, name]),
   (qualified ns "filter_requests", .CounterValue, Float.ofNat s.RequestCounter,
     [filter, name, "total"]),
   (qualified ns "filter_requests", .CounterValue, Float.ofNat s.Responses.OneXx,
     [filter, name, "1xx"]),
   (qualified ns "filter_requests", .CounterValue, Float.ofNat s.Responses.TwoXx,
     [filter, name, "2xx"]),
   (qualified ns "filter_requests", .CounterValue, Float.ofNat s.Responses.ThreeXx,
     [filter, name, "3xx"]),
   (qualified ns "filter_requests", .CounterValue, Float.ofNat s.Responses.FourXx,
     [filter, name, "4xx"]),
   (qualified ns "filter_requests", .CounterValue, Float.ofNat s.Responses.FiveXx,
     [filter, name, "5xx"]),
   (qualified ns "filter_bytes", .CounterValue, Float.ofNat s.InBytes, [filter, name, "in"]),
   (qualified ns "filter_bytes", .CounterValue, Float.ofNat s.OutBytes, [filter, name, "out"])]

/-- The 10 records of a cache zone: the eight cache outcomes and the bytes in
and out. -/
def expectedCacheZone (ns zone : String) (s : Cache) :
    List (String × ValueType × Float × List String) :=
  [(qualified ns "cache_requests", .CounterValue, Float.ofNat s.Responses.Bypass,
     [zone, "bypass"]),
   (qualified ns "cache_requests", .CounterValue, Float.ofNat s.Responses.Expired,
     [zone, "expired"]),
   (qualified ns "cache_requests", .CounterValue, Float.ofNat s.Responses.Hit, [zone, "hit"]),
   (qualified ns "cache_requests", .CounterValue, Float.ofNat s.Responses.Miss, [zone, "miss"]),
   (qualified ns "cache_requests", .CounterValue, Float.ofNat s.Responses.Revalidated,
     [zone, "revalidated"]),
   (qualified ns "cache_requests", .CounterValue, Float.ofNat s.Responses.Scarce,
     [zone, "scarce"]),
   (qualified ns "cache_requests", .CounterValue, Float.ofNat s.Responses.Stale,
     [zone, "stale"]),
   (qualified ns "cache_requests", .CounterValue, Float.ofNat s.Responses.Updating,
     [zone, "updating"]),
   (qualified ns "cache_bytes", .CounterValue, Float.ofNat s.InBytes, [zone, "in"]),
   (qualified ns "cache_bytes", .CounterValue, Float.ofNat s.OutBytes, [zone, "out"])]

/-- All the records expected after the gauge, group by group. -/
def expectedRecords (ns : String) (v : NginxVts) :
    List (String × ValueType × Float × List String) :=
  expectedInfo ns v
    ++ expectedConnections ns v.Connections
    ++ expectedSharedZones ns v.SharedZones
    ++ v.ServerZones.flatMap (fun hs => expectedServerZone ns hs.1 hs.2)
    ++ v.UpstreamZones.flatMap (fun nl => nl.2.flatMap (fun s => expectedUpstream ns nl.1 s))
    ++ v.FilterZones.flatMap
        (fun fv => fv.2.flatMap (fun fs => expectedFilter ns fv.1 fs.1 fs.2))
    ++ v.CacheZones.flatMap (fun zs => expectedCacheZone ns zs.1 zs.2)

/-- A receiver for `NewVTSExporter` with the namespace `bad-ns`, which is no
valid metric name. -/
def badReceiver : VtsExporter :=
  { URI := "", NAMESPACE := "bad-ns", TIMEOUT := 0, INSECURE := false,
    upMetric := NewDesc "" "" [], infoMetric := NewDesc "" "" [], serverMetrics := [],
    upstreamMetrics := [], filterMetrics := [], cacheMetrics := [] }

/-- The exporter `NewVTSExporter` returns for the receiver `badReceiver`. -/
def badExporter : VtsExporter :=
  NewVTSExporter badReceiver exampleUpMetric "http://localhost/status/format/json" "nginx"
    false 5

/-! ### The notions the further properties of the VTS collector are stated with -/

/-- An upstream or filter entry with its pool-configuration fields (weight,
maxFails, failTimeout, backup, down) put to fixed values. -/
def erasePool (s : Upstream) : Upstream :=
  { s with Weight := 0, MaxFails := 0, FailTimeout := 0, Backup := false, Down := false }

/-- A snapshot with the pool-configuration fields of all its upstream and
filter entries put to fixed values. -/
def erasePools (v : NginxVts) : NginxVts :=
  { v with
    UpstreamZones := v.UpstreamZones.map (fun nl => (nl.1, nl.2.map erasePool))
    FilterZones :=
      v.FilterZones.map (fun fv => (fv.1, fv.2.map (fun ns => (ns.1, erasePool ns.2)))) }

/-- Two snapshots differ at most in pool-configuration fields of upstream and
filter entries. -/
def differOnlyInPools (v1 v2 : NginxVts) : Prop := erasePools v1 = erasePools v2

/-- An upstream entry with a weight. -/
def exampleBackend (weight : Nat) (down : Bool) : Upstream :=
  { Server := "10.0.0.1:80", RequestCounter := 12, InBytes := 3400, OutBytes := 5600,
    Responses := { OneXx := 0, TwoXx := 10, ThreeXx := 1, FourXx := 1, FiveXx := 0 },
    ResponseMsec := 7, RequestMsec := 8, Weight := weight, MaxFails := 1, FailTimeout := 10,
    Backup := false, Down := down,
    OverCounts := { MaxIntegerSize := 0, RequestCounter := 0, InBytes := 0, OutBytes := 0,
                    OneXx := 0, TwoXx := 0, ThreeXx := 0, FourXx := 0, FiveXx := 0 } }

/-- The snapshot `exampleSnapshot` with one upstream zone and one filter zone
that hold the entry `exampleBackend weight down`. -/
def snapshotWithBackend (weight : Nat) (down : Bool) : NginxVts :=
  { exampleSnapshot with
    UpstreamZones := [("backend", [exampleBackend weight down])]
    FilterZones := [("country", [("DE", exampleBackend weight down)])] }

/-- The identity of a record: the fully-qualified name and the label values. -/
def recordKey (m : Metric) : String × List String := (m.desc.fqName, m.labelValues)

/-- All numeric fields of a server zone are zero. -/
def Server.isZero (s : Server) : Prop :=
  s.RequestCounter = 0 ∧ s.InBytes = 0 ∧ s.OutBytes = 0 ∧ s.RequestMsec = 0 ∧
  s.Responses = ⟨0, 0, 0, 0, 0, 0, 0, 0, 0, 0, 0, 0, 0⟩ ∧
  s.OverCounts = ⟨0, 0, 0, 0, 0, 0, 0, 0, 0, 0, 0, 0, 0, 0, 0, 0, 0⟩

/-- All numeric fields of an upstream or filter entry are zero. -/
def Upstream.isZero (s : Upstream) : Prop :=
  s.RequestCounter = 0 ∧ s.InBytes = 0 ∧ s.OutBytes = 0 ∧ s.Responses = ⟨0, 0, 0, 0, 0⟩ ∧
  s.ResponseMsec = 0 ∧ s.RequestMsec = 0 ∧ s.Weight = 0 ∧ s.MaxFails = 0 ∧ s.FailTimeout = 0 ∧
  s.OverCounts = ⟨0, 0, 0, 0, 0, 0, 0, 0, 0⟩

/-- All numeric fields of a cache zone are zero. -/
def Cache.isZero (s : Cache) : Prop :=
  s.MaxSize = 0 ∧ s.UsedSize = 0 ∧ s.InBytes = 0 ∧ s.OutBytes = 0 ∧
  s.Responses = ⟨0, 0, 0, 0, 0, 0, 0, 0⟩ ∧ s.OverCounts = ⟨0, 0, 0, 0, 0, 0, 0, 0, 0, 0, 0⟩

/-- All numeric fields of a snapshot are zero. -/
def NginxVts.isZero (v : NginxVts) : Prop :=
  v.LoadMsec = 0 ∧ v.NowMsec = 0 ∧ v.Connections = ⟨0, 0, 0, 0, 0, 0, 0⟩ ∧
  v.SharedZones.MaxSize = 0 ∧ v.SharedZones.UsedSize = 0 ∧ v.SharedZones.UsedNode = 0 ∧
  (∀ hs ∈ v.ServerZones, hs.2.isZero) ∧
  (∀ nl ∈ v.UpstreamZones, ∀ s ∈ nl.2, s.isZero) ∧
  (∀ fv ∈ v.FilterZones, ∀ fs ∈ fv.2, fs.2.isZero) ∧
  (∀ zs ∈ v.CacheZones, zs.2.isZero)

/-- The number of backend entries of the upstream zones. -/
def upstreamEntries (v : NginxVts) : Nat := (v.UpstreamZones.map (fun nl => nl.2.length)).sum

/-- The number of entries of the filter zones. -/
def filterEntries (v : NginxVts) : Nat := (v.FilterZones.map (fun fv => fv.2.length)).sum

/-- An upstream or filter entry whose numeric fields are zero. -/
def zeroBackend (server : String) : Upstream :=
  { Server := server, RequestCounter := 0, InBytes := 0, OutBytes := 0,
    Responses := ⟨0, 0, 0, 0, 0⟩, ResponseMsec := 0, RequestMsec := 0, Weight := 0,
    MaxFails := 0, FailTimeout := 0, Backup := false, Down := false,
    OverCounts := ⟨0, 0, 0, 0, 0, 0, 0, 0, 0⟩ }

/-- A snapshot whose numeric fields are zero, with two server zones, an
upstream zone with two backends, a filter zone with one entry and a cache
zone. -/
def zeroSnapshot : NginxVts :=
  { HostName := "web1", NginxVersion := "1.25.3", LoadMsec := 0, NowMsec := 0,
    Connections := ⟨0, 0, 0, 0, 0, 0, 0⟩,
    SharedZones := { Name := "vts", MaxSize := 0, UsedSize := 0, UsedNode := 0 },
    ServerZones :=
      [("example.org", ⟨0, 0, 0, 0, ⟨0, 0, 0, 0, 0, 0, 0, 0, 0, 0, 0, 0, 0⟩,
          ⟨0, 0, 0, 0, 0, 0, 0, 0, 0, 0, 0, 0, 0, 0, 0, 0, 0⟩⟩),
       ("*", ⟨0, 0, 0, 0, ⟨0, 0, 0, 0, 0, 0, 0, 0, 0, 0, 0, 0, 0⟩,
          ⟨0, 0, 0, 0, 0, 0, 0, 0, 0, 0, 0, 0, 0, 0, 0, 0, 0⟩⟩)],
    UpstreamZones := [("backend", [zeroBackend "10.0.0.1:80", zeroBackend "10.0.0.2:80"])],
    FilterZones := [("country", [("DE", zeroBackend "")])],
    CacheZones :=
      [("one", ⟨0, 0, 0, 0, ⟨0, 0, 0, 0, 0, 0, 0, 0⟩, ⟨0, 0, 0, 0, 0, 0, 0, 0, 0, 0, 0⟩⟩)] }

/-- Two orders in which `range` may visit the entries of one map. -/
def sameMap {α : Type} (a b : List (String × α)) : Prop := List.Perm a b

/-- Two orders in which nested `range` statements may visit the entries of
one map of maps. -/
def sameNestedMap {α : Type} (a b : List (String × List (String × α))) : Prop :=
  ∃ c, List.Perm a c ∧ List.Forall₂ (fun x y => x.1 = y.1 ∧ List.Perm x.2 y.2) c b

/-- One decoded snapshot as two runs of the translation visit it: the fields
are the same and the maps hold the same entries. -/
structure sameSnapshot (v1 v2 : NginxVts) : Prop where
  hostName : v1.HostName = v2.HostName
  nginxVersion : v1.NginxVersion = v2.NginxVersion
  loadMsec : v1.LoadMsec = v2.LoadMsec
  nowMsec : v1.NowMsec = v2.NowMsec
  connections : v1.Connections = v2.Connections
  sharedZones : v1.SharedZones = v2.SharedZones
  serverZones : sameMap v1.ServerZones v2.ServerZones
  upstreamZones : sameMap v1.UpstreamZones v2.UpstreamZones
  filterZones : sameNestedMap v1.FilterZones v2.FilterZones
  cacheZones : sameMap v1.CacheZones v2.CacheZones

/-- No zone map of the snapshot holds more than one entry. -/
def singleEntryMaps (v : NginxVts) : Prop :=
  v.ServerZones.length ≤ 1 ∧ v.UpstreamZones.length ≤ 1 ∧ v.FilterZones.length ≤ 1 ∧
  (∀ fv ∈ v.FilterZones, fv.2.length ≤ 1) ∧ v.CacheZones.length ≤ 1

/-- A server zone with a request counter. -/
def exampleServer (requests : Nat) : Server :=
  ⟨requests, 0, 0, 0, ⟨0, 0, 0, 0, 0, 0, 0, 0, 0, 0, 0, 0, 0⟩,
    ⟨0, 0, 0, 0, 0, 0, 0, 0, 0, 0, 0, 0, 0, 0, 0, 0, 0⟩⟩

/-- The snapshot `exampleSnapshot` with the server zones `a.example` and
`b.example`, visited in this order. -/
def snapshotAB : NginxVts :=
  { exampleSnapshot with
    ServerZones := [("a.example", exampleServer 1), ("b.example", exampleServer 2)] }

/-- The same snapshot with the server zones visited in the other order. -/
def snapshotBA : NginxVts :=
  { exampleSnapshot with
    ServerZones := [("b.example", exampleServer 2), ("a.example", exampleServer 1)] }

end VTS

/-! ## The descriptors of the two exporters -/

/-- The rows of the descriptor table of `NewVTSExporter`: subsystem, name and
label names. -/
def vtsDescriptorTable : List (String × String × List String) :=
  [("server", "uptime", ["hostName", "nginxVersion"]),
   ("server", "connections", ["status"]),
   ("server", "requests", ["host", "code"]),
   ("server", "bytes", ["host", "direction"]),
   ("server", "cache", ["host", "status"]),
   ("server", "requestMsec", ["host"]),
   ("server", "sharedzones", ["name", "memstat"]),
   ("upstream", "requests", ["upstream", "code", "backend"]),
   ("upstream", "bytes", ["upstream", "direction", "backend"]),
   ("upstream", "responseMsec", ["upstream", "backend"]),
   ("upstream", "requestMsec", ["upstream", "backend"]),
   ("filter", "requests", ["filter", "filterName", "code"]),
   ("filter", "bytes", ["filter", "filterName", "direction"]),
   ("filter", "responseMsec", ["filter", "filterName"]),
   ("filter", "requestMsec", ["filter", "filterName"]),
   ("cache", "requests", ["zone", "status"]),
   ("cache", "bytes", ["zone", "direction"])]

/-- The steps of a call of `Collect` at which overlapping calls interleave:
the two operations on `e.mutex` and the four parts of a cycle. -/
inductive Step where
  | lock
  | fetch
  | parse
  | translate
  | emit
  | unlock
  deriving DecidableEq, Repr

/-- Whether a step is a part of the cycle. -/
def Step.inCycle : Step → Bool
  | .fetch => true
  | .parse => true
  | .translate => true
  | .emit => true
  | .lock => false
  | .unlock => false

/-- Method `RTMPExporter.Collect`: `e.mutex.Lock()`, then `e.scrape(ch)`, the
cycle, and at the return the deferred `e.mutex.Unlock()`. -/
def RTMP.CollectSteps : List Step := [.lock, .fetch, .parse, .translate, .emit, .unlock]

/-- Method `VtsExporter.Collect`: the cycle alone; the struct `VtsExporter`
has no mutex and the method takes no lock. -/
def VTS.CollectSteps : List Step := [.fetch, .parse, .translate, .emit]

/-- The calls of `Collect` on one exporter: whether `e.mutex` is locked, and
for each call the position of the step it does next. -/
structure Calls where
  locked : Bool
  next : List Nat
  deriving DecidableEq, Repr

/-- The calls before any of them has done a step. -/
def Calls.start (n : Nat) : Calls := ⟨false, List.replicate n 0⟩

/-- The position of the deferred statements: where a call goes on when it
returns early from the cycle, on an error or on a panic. -/
def returnAt (steps : List Step) : Nat :=
  steps.length - (steps.reverse.takeWhile (fun s => !s.inCycle)).length

/-- One step of the call `i`; `returns` says that the step ends the cycle
early. A call at `Lock` while the mutex is locked is blocked: it does not
move. -/
def stepCall (steps : List Step) (s : Calls) (i : Nat) (returns : Bool) : Calls :=
  match s.next[i]? with
  | none => s
  | some pc =>
    match steps[pc]? with
    | none => s
    | some .lock => if s.locked then s else ⟨true, s.next.set i (pc + 1)⟩
    | some .unlock => ⟨false, s.next.set i (pc + 1)⟩
    | some _ => ⟨s.locked, s.next.set i (if returns then returnAt steps else pc + 1)⟩

/-- The calls after a schedule: the scheduler picks, one after the other, the
call that does a step. -/
def runSchedule (steps : List Step) (n : Nat) (schedule : List (Nat × Bool)) : Calls :=
  schedule.foldl (fun s ev => stepCall steps s ev.1 ev.2) (Calls.start n)

/-- Whether the cycle of a call is running: the call has done a part of the
cycle and has a part of it left to do. -/
def cycleRunning (steps : List Step) (pc : Nat) : Bool :=
  (steps.take pc).any Step.inCycle && (steps.drop pc).any Step.inCycle

/-- The number of calls whose cycle is running. -/
def cyclesRunning (steps : List Step) (s : Calls) : Nat :=
  s.next.countP (cycleRunning steps)

/-- Whether a call of `RTMPExporter.Collect` at this position holds the
mutex. -/
def RTMP.holdsMutex (pc : Nat) : Bool := decide (1 ≤ pc) && decide (pc ≤ 5)

end NginxExporter

/-! # Properties

## Decimal digits: printing and scanning -/

namespace NginxExporter

theorem digitChar_toNat (d : Nat) (h : d < 10) : (Nat.digitChar d).toNat = 48 + d := by
  interval_cases d <;> rfl

theorem mem_decimalDigits (r : Nat) : r ∈ decimalDigits ↔ 48 ≤ r ∧ r ≤ 57 := by
  constructor
  · intro h
    simp [decimalDigits] at h
    omega
  · rintro ⟨h1, h2⟩
    interval_cases r <;> decide

theorem isSpace_of_printable (r : Nat) (h1 : 33 ≤ r) (h2 : r ≤ 126) : isSpace r = false := by
  simp [isSpace, isSpaceLoop, space]
  omega

/-- The runes of the decimal digits of `u`. -/
theorem formatBits_digits (u : Nat) : ∀ r ∈ asciiBytes (formatBits u), 48 ≤ r ∧ r ≤ 57 := by
  induction u using Nat.strong_induction_on with
  | _ u ih =>
    intro r hr
    rw [formatBits] at hr
    split at hr
    · simp [asciiBytes] at hr
      rw [hr, digitChar_toNat u (by omega)]
      omega
    · simp only [asciiBytes, List.map_append, List.mem_append, List.map_cons, List.map_nil,
        List.mem_singleton] at hr
      rcases hr with hr | hr
      · exact ih (u / 10) (by omega) r hr
      · rw [hr, digitChar_toNat _ (Nat.mod_lt _ (by decide))]
        have := Nat.mod_lt u (show 0 < 10 by decide)
        omega

theorem formatBits_ne_nil (u : Nat) : asciiBytes (formatBits u) ≠ [] := by
  rw [formatBits]
  split <;> simp [asciiBytes]

theorem ParseUint_append (a b : List Nat) (n : Nat) :
    ParseUint (a ++ b) n = (ParseUint a n).bind (ParseUint b) := by
  induction a generalizing n with
  | nil => simp [ParseUint]
  | cons c a ih =>
    simp only [List.cons_append, ParseUint]
    split
    · exact ih _
    · rfl

theorem ParseUint_formatBits (u : Nat) : ParseUint (asciiBytes (formatBits u)) 0 = some u := by
  induction u using Nat.strong_induction_on with
  | _ u ih =>
    rw [formatBits]
    split
    · rename_i h
      simp [asciiBytes, ParseUint, digitChar_toNat u h]
      omega
    · rename_i h
      have hm := Nat.mod_lt u (show 0 < 10 by decide)
      simp only [asciiBytes, List.map_append, List.map_cons, List.map_nil] at ih ⊢
      rw [ParseUint_append, ih (u / 10) (by omega)]
      simp [ParseUint, digitChar_toNat _ hm]
      omega

theorem acceptDigits_append (ds rest : List Nat) (hds : ∀ r ∈ ds, 48 ≤ r ∧ r ≤ 57)
    (hrest : ∀ r, rest.head? = some r → ¬ (48 ≤ r ∧ r ≤ 57)) :
    acceptDigits (ds ++ rest) = (ds, rest) := by
  induction ds with
  | nil =>
    cases rest with
    | nil => rfl
    | cons r rest =>
      have := hrest r rfl
      simp [acceptDigits, mem_decimalDigits, this]
  | cons d ds ih =>
    have hd := hds d (List.mem_cons_self _ _)
    have := ih (fun r hr => hds r (List.mem_cons_of_mem _ hr))
    simp [acceptDigits, mem_decimalDigits, hd, this]

theorem SkipSpace_of_printable (r : Nat) (rest : List Nat) (h1 : 33 ≤ r) (h2 : r ≤ 126) :
    SkipSpace (r :: rest) = .ok (r :: rest) := by
  have h3 : r ≠ 13 := by omega
  have h4 : r ≠ 10 := by omega
  simp [SkipSpace, h3, h4, isSpace_of_printable r h1 h2]

theorem skipBlanks_of_printable (r : Nat) (rest : List Nat) (h1 : 33 ≤ r) (h2 : r ≤ 126) :
    skipBlanks (r :: rest) = r :: rest := by
  simp [skipBlanks, isSpace_of_printable r h1 h2]

theorem printed_head (i : Int) : ∃ r tl, printed i = r :: tl ∧ 33 ≤ r ∧ r ≤ 126 := by
  unfold printed FormatInt
  split
  · exact ⟨45, _, rfl, by omega, by omega⟩
  · cases h : asciiBytes (formatBits i.natAbs) with
    | nil => exact absurd h (formatBits_ne_nil _)
    | cons r tl =>
      have := formatBits_digits i.natAbs r (by rw [h]; exact List.mem_cons_self _ _)
      exact ⟨r, tl, rfl, by omega, by omega⟩

theorem SkipSpace_printed (i : Int) (rest : List Nat) :
    SkipSpace (printed i ++ rest) = .ok (printed i ++ rest) := by
  obtain ⟨r, tl, h, h1, h2⟩ := printed_head i
  rw [h]
  exact SkipSpace_of_printable r _ h1 h2

theorem skipBlanks_printed (i : Int) (rest : List Nat) :
    skipBlanks (printed i ++ rest) = printed i ++ rest := by
  obtain ⟨r, tl, h, h1, h2⟩ := printed_head i
  rw [h]
  exact skipBlanks_of_printable r _ h1 h2

theorem scanInt_printed (i : Int) (rest : List Nat) (hi : isInt64 i)
    (hrest : ∀ r, rest.head? = some r → ¬ (48 ≤ r ∧ r ≤ 57)) :
    scanInt (printed i ++ rest) = .ok (i, rest) := by
  obtain ⟨hlo, hhi⟩ := hi
  unfold scanInt
  rw [SkipSpace_printed]
  cases h : asciiBytes (formatBits i.natAbs) with
  | nil => exact absurd h (formatBits_ne_nil _)
  | cons d ds =>
    have hall := formatBits_digits i.natAbs
    rw [h] at hall
    have hd := hall d (List.mem_cons_self _ _)
    have hds : ∀ r ∈ ds, 48 ≤ r ∧ r ≤ 57 := fun r hr => hall r (List.mem_cons_of_mem _ hr)
    have hp := ParseUint_formatBits i.natAbs
    rw [h] at hp
    have hacc := acceptDigits_append ds rest hds hrest
    have hd43 : d ≠ 43 := by omega
    have hd45 : d ≠ 45 := by omega
    have hdmem : d ∈ decimalDigits := (mem_decimalDigits d).2 hd
    have hdsign : d ∉ sign := by simp [sign, hd43, hd45]
    by_cases hneg : i < 0
    · have hpr : printed i = 45 :: d :: ds := by
        simp [printed, FormatInt, hneg, asciiBytes] at h ⊢
        exact h
      have h45 : (45 : Nat) ∈ sign := by decide
      simp only [hpr, List.cons_append, h45, if_true, hdmem, hacc, ParseInt]
      have habs : |i| = -i := abs_of_neg hneg
      simp [hp, habs]
      rw [if_neg (by omega)]
    · have hpr : printed i = d :: ds := by
        simp [printed, FormatInt, hneg, asciiBytes] at h ⊢
        exact h
      simp only [hpr, List.cons_append, hdsign, if_false, hdmem, if_true, hacc, List.nil_append,
        ParseInt]
      have habs : |i| = i := abs_of_nonneg (by omega)
      simp [hd43, hd45, hp, habs]
      rw [if_neg (by omega)]

theorem printed_lt (i : Int) : ∀ b ∈ printed i, b < 128 := by
  intro b hb
  unfold printed FormatInt at hb
  split at hb
  · simp only [asciiBytes, List.map_cons, List.mem_cons] at hb
    rcases hb with hb | hb
    · rw [hb]; decide
    · have := formatBits_digits i.natAbs b hb
      omega
  · have := formatBits_digits i.natAbs b hb
    omega

theorem formatBits_length (k : Nat) : ∀ u, u < 10 ^ (k + 1) → (formatBits u).length ≤ k + 1 := by
  induction k with
  | zero =>
    intro u hu
    rw [formatBits]
    simp at hu
    simp [hu]
  | succ k ih =>
    intro u hu
    rw [formatBits]
    split
    · simp
    · have : u / 10 < 10 ^ (k + 1) := by
        rw [Nat.div_lt_iff_lt_mul (by decide)]
        rw [pow_succ] at hu
        exact hu
      have := ih (u / 10) this
      simp
      omega

theorem printed_length (i : Int) (hi : isInt64 i) : (printed i).length ≤ 20 := by
  obtain ⟨hlo, hhi⟩ := hi
  have hn : i.natAbs < 10 ^ (18 + 1) := by
    have : (10 : Nat) ^ (18 + 1) = 10000000000000000000 := by norm_num
    rw [this]
    omega
  have := formatBits_length 18 i.natAbs hn
  unfold printed FormatInt
  split <;> simp [asciiBytes] <;> omega

theorem readRunes_of_ascii (l : List Nat) (h : ∀ b ∈ l, b < 128) : readRunes l = l := by
  induction l with
  | nil => simp [readRunes]
  | cons c rest ih =>
    have hc := h c (List.mem_cons_self _ _)
    rw [readRunes, if_pos hc, ih (fun b hb => h b (List.mem_cons_of_mem _ hb))]

theorem render_ascii (format : List Char) (values : List Int)
    (hf : ∀ c ∈ format, c.toNat < 128) : ∀ b ∈ asciiBytes (Sprintf format values), b < 128 := by
  induction format, values using Sprintf.induct with
  | case1 x => simp [Sprintf, asciiBytes]
  | case2 rest x xs ih =>
    intro b hb
    rw [Sprintf] at hb
    simp only [asciiBytes, List.map_append, List.mem_append] at hb
    rcases hb with hb | hb
    · exact printed_lt x b hb
    · exact ih (fun c hc => hf c (List.mem_cons_of_mem _ (List.mem_cons_of_mem _ hc))) b hb
  | case3 c rest xs hne ih =>
    intro b hb
    rw [Sprintf.eq_3 _ _ _ hne] at hb
    simp only [asciiBytes, List.map_cons, List.mem_cons] at hb
    rcases hb with hb | hb
    · rw [hb]; exact hf c (List.mem_cons_self _ _)
    · exact ih (fun c hc => hf c (List.mem_cons_of_mem _ hc)) b hb

theorem render_length (format : List Char) (values : List Int)
    (hv : ∀ v ∈ values, isInt64 v) :
    (asciiBytes (Sprintf format values)).length ≤ format.length + 20 * values.length := by
  induction format, values using Sprintf.induct with
  | case1 x => simp [Sprintf, asciiBytes]
  | case2 rest x xs ih =>
    rw [Sprintf]
    have h1 := printed_length x (hv x (List.mem_cons_self _ _))
    have h2 := ih (fun v hv1 => hv v (List.mem_cons_of_mem _ hv1))
    simp only [asciiBytes, printed, List.map_append, List.length_append, List.length_map,
      List.length_cons] at h1 h2 ⊢
    omega
  | case3 c rest xs hne ih =>
    rw [Sprintf.eq_3 _ _ _ hne]
    have h2 := ih hv
    simp only [asciiBytes, List.length_map, List.length_cons] at h2 ⊢
    omega

theorem Fscanf_render (template format : String) (values : List Int) (nargs : Nat)
    (hf : ∀ c ∈ template.toList, c.toNat < 128) (hv : ∀ v ∈ values, isInt64 v)
    (hlen : template.toList.length + 20 * values.length ≤ hugeWid) :
    Fscanf (render template values) format nargs
      = doScanf format.toList (render template values) nargs [] := by
  unfold Fscanf render
  rw [readRunes_of_ascii _ (render_ascii _ _ hf), List.take_of_length_le]
  exact le_trans (render_length _ _ hv) hlen

theorem templateMetrics_ascii : ∀ c ∈ templateMetrics.toList, c.toNat < 128 := by
  decide

theorem templateTengineMetrics_ascii : ∀ c ∈ templateTengineMetrics.toList, c.toNat < 128 := by
  decide

end NginxExporter

/-! ## The stub_status templates -/

namespace NginxExporter

theorem asciiBytes_append (a b : List Char) :
    asciiBytes (a ++ b) = asciiBytes a ++ asciiBytes b := by
  simp [asciiBytes]

theorem asciiBytes_cons (a : Char) (b : List Char) :
    asciiBytes (a :: b) = a.toNat :: asciiBytes b := by
  simp [asciiBytes]

theorem asciiBytes_FormatInt (i : Int) : asciiBytes (FormatInt i) = printed i := rfl

set_option maxHeartbeats 4000000 in
set_option maxRecDepth 10000 in
theorem doScanf_templateMetrics (a1 a2 a3 a4 a5 a6 a7 : Int) (h1 : isInt64 a1) (h2 : isInt64 a2)
    (h3 : isInt64 a3) (h4 : isInt64 a4) (h5 : isInt64 a5) (h6 : isInt64 a6) (h7 : isInt64 a7) :
    doScanf templateMetrics.toList (render templateMetrics [a1, a2, a3, a4, a5, a6, a7]) 7 []
      = ([a1, a2, a3, a4, a5, a6, a7], none) := by
  simp only [render, templateMetrics, String.toList, Sprintf, asciiBytes_append, asciiBytes_cons,
    asciiBytes_FormatInt]
  simp [asciiBytes, doScanf, advance, spaceRun, matchNewlines, matchNewline, matchTrailingSpace,
    skipBlanks, SkipSpace, skipBlanks_printed, SkipSpace_printed, scanInt_printed, isSpace,
    isSpaceLoop, space, h1, h2, h3, h4, h5, h6, h7]

set_option maxHeartbeats 4000000 in
set_option maxRecDepth 10000 in
theorem doScanf_templateTengineMetrics (a1 a2 a3 a4 a5 a6 a7 a8 : Int) (h1 : isInt64 a1)
    (h2 : isInt64 a2) (h3 : isInt64 a3) (h4 : isInt64 a4) (h5 : isInt64 a5) (h6 : isInt64 a6)
    (h7 : isInt64 a7) (h8 : isInt64 a8) :
    doScanf templateTengineMetrics.toList
        (render templateTengineMetrics [a1, a2, a3, a4, a5, a6, a7, a8]) 8 []
      = ([a1, a2, a3, a4, a5, a6, a7, a8], none) := by
  simp only [render, templateTengineMetrics, String.toList, Sprintf, asciiBytes_append,
    asciiBytes_cons, asciiBytes_FormatInt]
  simp [asciiBytes, doScanf, advance, spaceRun, matchNewlines, matchNewline, matchTrailingSpace,
    skipBlanks, SkipSpace, skipBlanks_printed, SkipSpace_printed, scanInt_printed, isSpace,
    isSpaceLoop, space, h1, h2, h3, h4, h5, h6, h7, h8]

set_option maxHeartbeats 4000000 in
set_option maxRecDepth 10000 in
theorem doScanf_templateMetrics_tengine (a1 a2 a3 a4 a5 a6 a7 a8 : Int) (h1 : isInt64 a1) :
    doScanf templateMetrics.toList
        (render templateTengineMetrics [a1, a2, a3, a4, a5, a6, a7, a8]) 7 []
      = ([a1], some .newlineInFormatDoesNotMatchInput) := by
  simp only [render, templateMetrics, templateTengineMetrics, String.toList, Sprintf,
    asciiBytes_append, asciiBytes_cons, asciiBytes_FormatInt]
  simp [asciiBytes, doScanf, advance, spaceRun, matchNewlines, matchNewline, matchTrailingSpace,
    skipBlanks, SkipSpace, skipBlanks_printed, SkipSpace_printed, scanInt_printed, isSpace,
    isSpaceLoop, space, h1]

end NginxExporter

namespace NginxExporter

/-- C1: for every seven `int64` values rendered into the standard stub_status
template, `parseStubStats` succeeds and returns exactly those values in the
matching fields, `RequestsTime` staying 0. -/
theorem parseStubStats_templateMetrics_roundtrip
    (active accepted handled requests reading writing waiting : Int)
    (hv : ∀ v ∈ [active, accepted, handled, requests, reading, writing, waiting], isInt64 v) :
    parseStubStats
        (.ok (render templateMetrics [active, accepted, handled, requests, reading, writing, waiting]))
      = .ok { Connections := { Active := active, Accepted := accepted, Handled := handled,
                               Reading := reading, Writing := writing, Waiting := waiting },
              Requests := requests, RequestsTime := 0 } := by
  have hscan := Fscanf_render templateMetrics templateMetrics _ 7 templateMetrics_ascii hv
    (by simp [templateMetrics, hugeWid])
  simp only [List.mem_cons, List.mem_singleton, List.not_mem_nil, or_false, forall_eq_or_imp,
    forall_eq] at hv
  obtain ⟨h1, h2, h3, h4, h5, h6, h7⟩ := hv
  rw [doScanf_templateMetrics _ _ _ _ _ _ _ h1 h2 h3 h4 h5 h6 h7] at hscan
  simp [parseStubStats, hscan, store, operandsMetrics, StubStats.zero]

/-- Witness for C1: the values 1457, 6717066, 6717066, 65844359, 1, 8, 1441. -/
theorem parseStubStats_templateMetrics_roundtrip_witness :
    (∀ v ∈ [(1457 : Int), 6717066, 6717066, 65844359, 1, 8, 1441], isInt64 v) ∧
    parseStubStats (.ok (render templateMetrics [1457, 6717066, 6717066, 65844359, 1, 8, 1441]))
      = .ok { Connections := { Active := 1457, Accepted := 6717066, Handled := 6717066,
                               Reading := 1, Writing := 8, Waiting := 1441 },
              Requests := 65844359, RequestsTime := 0 } :=
  ⟨by simp [isInt64],
   parseStubStats_templateMetrics_roundtrip 1457 6717066 6717066 65844359 1 8 1441
     (by simp [isInt64])⟩

/-- C2: for every eight `int64` values rendered into the Tengine template,
the scan with the standard template fails, the scan with the Tengine
template succeeds, and `parseStubStats` returns exactly those eight values,
`RequestsTime` included; nothing the first scan stored is left. -/
theorem parseStubStats_templateTengineMetrics_roundtrip
    (active accepted handled requests requestTime reading writing waiting : Int)
    (hv : ∀ v ∈ [active, accepted, handled, requests, requestTime, reading, writing, waiting],
      isInt64 v) :
    ¬ matchesTemplate
        (render templateTengineMetrics
          [active, accepted, handled, requests, requestTime, reading, writing, waiting])
        templateMetrics 7 ∧
    matchesTemplate
        (render templateTengineMetrics
          [active, accepted, handled, requests, requestTime, reading, writing, waiting])
        templateTengineMetrics 8 ∧
    parseStubStats
        (.ok (render templateTengineMetrics
          [active, accepted, handled, requests, requestTime, reading, writing, waiting]))
      = .ok { Connections := { Active := active, Accepted := accepted, Handled := handled,
                               Reading := reading, Writing := writing, Waiting := waiting },
              Requests := requests, RequestsTime := requestTime } := by
  have hscan1 := Fscanf_render templateTengineMetrics templateMetrics _ 7
    templateTengineMetrics_ascii hv (by simp [templateTengineMetrics, hugeWid])
  have hscan2 := Fscanf_render templateTengineMetrics templateTengineMetrics _ 8
    templateTengineMetrics_ascii hv (by simp [templateTengineMetrics, hugeWid])
  simp only [List.mem_cons, List.mem_singleton, List.not_mem_nil, or_false, forall_eq_or_imp,
    forall_eq] at hv
  obtain ⟨h1, h2, h3, h4, h5, h6, h7, h8⟩ := hv
  rw [doScanf_templateMetrics_tengine _ _ _ _ _ _ _ _ h1] at hscan1
  rw [doScanf_templateTengineMetrics _ _ _ _ _ _ _ _ h1 h2 h3 h4 h5 h6 h7 h8] at hscan2
  refine ⟨?_, ?_, ?_⟩
  · simp [matchesTemplate, hscan1]
  · simp [matchesTemplate, hscan2]
  · simp [parseStubStats, hscan1, hscan2, store, operandsMetrics, operandsTengineMetrics,
      StubStats.zero]

/-- Witness for C2: the values 1, 2, 3, 4, 5, 6, 7, 8. -/
theorem parseStubStats_templateTengineMetrics_roundtrip_witness :
    (∀ v ∈ [(1 : Int), 2, 3, 4, 5, 6, 7, 8], isInt64 v) ∧
    (¬ matchesTemplate (render templateTengineMetrics [1, 2, 3, 4, 5, 6, 7, 8])
        templateMetrics 7 ∧
     matchesTemplate (render templateTengineMetrics [1, 2, 3, 4, 5, 6, 7, 8])
        templateTengineMetrics 8 ∧
     parseStubStats (.ok (render templateTengineMetrics [1, 2, 3, 4, 5, 6, 7, 8]))
      = .ok { Connections := { Active := 1, Accepted := 2, Handled := 3,
                               Reading := 6, Writing := 7, Waiting := 8 },
              Requests := 4, RequestsTime := 5 }) :=
  ⟨by simp [isInt64],
   parseStubStats_templateTengineMetrics_roundtrip 1 2 3 4 5 6 7 8 (by simp [isInt64])⟩

end NginxExporter

/-! ## Bodies that `parseStubStats` rejects, and bodies it accepts -/

namespace NginxExporter

end NginxExporter
/-! ## The RTMP collector -/

namespace NginxExporter

namespace RTMP

/-- C4, on the code: when the `rtmp` node has no `bw_out` child,
`parseServerStats` panics with a nil pointer dereference; it returns no
`ServerInfo`. -/
theorem parseServerStats_missing_bw_out_panics (e : RTMPExporter) (doc : Node) (data : NodeRef)
    (hdata : FindOne doc "rtmp" = some data)
    (hmissing : hasChild data "bw_out" = false) :
    parseServerStats e doc = .panic nilDeref := by
  have hnone : data.node.child "bw_out" = none := by
    simpa [hasChild] using hmissing
  cases h1 : data.node.child "bytes_in" <;>
  cases h2 : data.node.child "bytes_out" <;>
  cases h3 : data.node.child "bw_in" <;>
  simp [parseServerStats, hdata, bind, GoResult.bind, SelectElement, InnerText, h1, h2, h3, hnone]

/-- Witness for C4: the document `docWithoutBwOut`, whose `rtmp` node has the
children `bytes_in`, `bytes_out`, `bw_in` and `uptime`. -/
theorem parseServerStats_missing_bw_out_panics_witness :
    (FindOne docWithoutBwOut "rtmp"
        = some ⟨element "rtmp"
            [textElement "bytes_in" "10", textElement "bytes_out" "20",
             textElement "bw_in" "30", textElement "uptime" "40"], [docWithoutBwOut]⟩ ∧
     hasChild ⟨element "rtmp"
            [textElement "bytes_in" "10", textElement "bytes_out" "20",
             textElement "bw_in" "30", textElement "uptime" "40"], [docWithoutBwOut]⟩ "bw_out"
        = false) ∧
    parseServerStats exampleExporter docWithoutBwOut = .panic nilDeref :=
  ⟨⟨by rfl, by rfl⟩,
   parseServerStats_missing_bw_out_panics exampleExporter docWithoutBwOut _ (by rfl) (by rfl)⟩

/-- C5, on the code: when the document has no `rtmp` node, `parseServerStats`
panics with a nil pointer dereference; it returns neither an error nor a
`ServerInfo`, and `scrape` ends with that panic. -/
theorem parseServerStats_no_server_node_panics (e : RTMPExporter) (doc : Node)
    (hnone : FindOne doc "rtmp" = none) :
    parseServerStats e doc = .panic nilDeref ∧
    ∀ bytes, (scrape e (.ok (.ok bytes)) (fun _ => .ok doc)).panic = some nilDeref := by
  have h : parseServerStats e doc = .panic nilDeref := by
    simp [parseServerStats, hnone, bind, GoResult.bind, SelectElement]
  exact ⟨h, fun bytes => by simp [scrape, parseDocument, h]⟩

/-- Witness for C5: the document `docWithoutServer`. -/
theorem parseServerStats_no_server_node_panics_witness :
    FindOne docWithoutServer "rtmp" = none ∧
    (parseServerStats exampleExporter docWithoutServer = .panic nilDeref ∧
     ∀ bytes, (scrape exampleExporter (.ok (.ok bytes)) (fun _ => .ok docWithoutServer)).panic
       = some nilDeref) :=
  ⟨by rfl, parseServerStats_no_server_node_panics exampleExporter docWithoutServer (by rfl)⟩

end RTMP

end NginxExporter

namespace NginxExporter

namespace RTMP

theorem NewStreamInfo_Name (e : RTMPExporter) (name a b c d t : String) :
    (NewStreamInfo e name a b c d t).Name = name := rfl

theorem child_of_hasChild (n : NodeRef) (name : String) (h : hasChild n name = true) :
    ∃ c, n.node.child name = some c := by
  simpa [hasChild, Option.isSome_iff_exists] using h

/-- One stream node with the six children: the loop body returns the
`StreamInfo` built from the identity of the node and the texts of the
children. -/
theorem parseStream_eq (e : RTMPExporter) (normalizer : String → String) (stream : NodeRef)
    (c1 c2 c3 c4 c5 c6 : Node) (h1 : stream.node.child "name" = some c1)
    (h2 : stream.node.child "bytes_in" = some c2) (h3 : stream.node.child "bytes_out" = some c3)
    (h4 : stream.node.child "bw_in" = some c4) (h5 : stream.node.child "bw_out" = some c5)
    (h6 : stream.node.child "time" = some c6) :
    parseStream e normalizer stream
      = .ok (NewStreamInfo e (streamIdentity normalizer stream) (innerText c2) (innerText c3)
          (innerText c4) (innerText c5) (innerText c6)) := by
  obtain ⟨node, ancestors⟩ := stream
  simp only at h1 h2 h3 h4 h5 h6
  match ancestors with
  | [] =>
    simp [parseStream, NodeRef.Parent, bind, GoResult.bind, SelectElement, InnerText, h1,
      h2, h3, h4, h5, h6, pure, streamIdentity, applicationName, rawStreamName]
  | [p] =>
    simp [parseStream, NodeRef.Parent, bind, GoResult.bind, SelectElement, InnerText, h1,
      h2, h3, h4, h5, h6, pure, streamIdentity, applicationName, rawStreamName]
  | p :: g :: rest =>
    cases hg : g.child "name" with
    | none =>
      simp [parseStream, NodeRef.Parent, bind, GoResult.bind, SelectElement, InnerText, h1,
        h2, h3, h4, h5, h6, hg, pure, streamIdentity, applicationName, rawStreamName]
    | some a =>
      simp [parseStream, NodeRef.Parent, bind, GoResult.bind, SelectElement, InnerText, h1,
        h2, h3, h4, h5, h6, hg, pure, streamIdentity, applicationName, rawStreamName]

theorem parseStream_identity (e : RTMPExporter) (normalizer : String → String) (stream : NodeRef)
    (hwf : ∀ f ∈ streamFields, hasChild stream f = true) :
    ∃ info, parseStream e normalizer stream = .ok info ∧
      info.Name = streamIdentity normalizer stream := by
  obtain ⟨c1, h1⟩ := child_of_hasChild stream "name" (hwf _ (by decide))
  obtain ⟨c2, h2⟩ := child_of_hasChild stream "bytes_in" (hwf _ (by decide))
  obtain ⟨c3, h3⟩ := child_of_hasChild stream "bytes_out" (hwf _ (by decide))
  obtain ⟨c4, h4⟩ := child_of_hasChild stream "bw_in" (hwf _ (by decide))
  obtain ⟨c5, h5⟩ := child_of_hasChild stream "bw_out" (hwf _ (by decide))
  obtain ⟨c6, h6⟩ := child_of_hasChild stream "time" (hwf _ (by decide))
  exact ⟨_, parseStream_eq e normalizer stream c1 c2 c3 c4 c5 c6 h1 h2 h3 h4 h5 h6, rfl⟩

theorem parseStreamsLoop_identity (e : RTMPExporter) (normalizer : String → String) :
    ∀ (data : List NodeRef) (streams : List StreamInfo),
      (∀ stream ∈ data, ∀ f ∈ streamFields, hasChild stream f = true) →
      ∃ infos, parseStreamsLoop e normalizer data streams = .ok (streams ++ infos) ∧
        infos.map (fun info => info.Name) = data.map (streamIdentity normalizer) := by
  intro data
  induction data with
  | nil =>
    intro streams _
    exact ⟨[], by simp [parseStreamsLoop], rfl⟩
  | cons stream rest ih =>
    intro streams hwf
    obtain ⟨info, hinfo, hname⟩ :=
      parseStream_identity e normalizer stream (hwf stream (List.mem_cons_self _ _))
    obtain ⟨infos, hloop, hnames⟩ :=
      ih (streams ++ [info]) (fun s hs => hwf s (List.mem_cons_of_mem _ hs))
    refine ⟨info :: infos, ?_, ?_⟩
    · simp only [parseStreamsLoop, hinfo, hloop]
      simp
    · simp [hname, hnames]

/-- In a document whose stream nodes have the children `parseStreamsStats`
reads, `parseStreamsStats` returns one `StreamInfo` per stream node, and the
name of each is the identity of its node. -/
theorem parseStreamsStats_identity (e : RTMPExporter) (doc : Node)
    (normalizer : String → String)
    (hwf : ∀ stream ∈ Find doc "stream", ∀ f ∈ streamFields, hasChild stream f = true) :
    ∃ streams, parseStreamsStats e doc normalizer = .ok (streams, none) ∧
      streams.map (fun info => info.Name) = (Find doc "stream").map (streamIdentity normalizer) := by
  obtain ⟨infos, hloop, hnames⟩ := parseStreamsLoop_identity e normalizer (Find doc "stream") [] hwf
  refine ⟨infos, ?_, hnames⟩
  simp only [parseStreamsStats, hloop]
  simp

end RTMP

end NginxExporter

namespace NginxExporter

namespace RTMP

/-- C9: `NewServerInfo` and `NewStreamInfo` return for all input strings, and
each numeric field is computed from its own text alone: 0 when the text does
not parse as a float; when it parses to `n`, `n` for the byte counters and
the server uptime, `n / 1048576` for the two bandwidth fields and `n / 1000`
for the stream uptime. `NewStreamInfo` returns the name unchanged. -/
theorem NewServerInfo_NewStreamInfo_fields (e : RTMPExporter)
    (name bytesIn bytesOut bandwidthIn bandwidthOut uptime : String) :
    (fieldOf e bytesIn (fun n => n)
        (NewServerInfo e bytesIn bytesOut bandwidthIn bandwidthOut uptime).BytesIn ∧
     fieldOf e bytesOut (fun n => n)
        (NewServerInfo e bytesIn bytesOut bandwidthIn bandwidthOut uptime).BytesOut ∧
     fieldOf e bandwidthIn (fun n => n / 1048576)
        (NewServerInfo e bytesIn bytesOut bandwidthIn bandwidthOut uptime).BandwidthIn ∧
     fieldOf e bandwidthOut (fun n => n / 1048576)
        (NewServerInfo e bytesIn bytesOut bandwidthIn bandwidthOut uptime).BandwidhOut ∧
     fieldOf e uptime (fun n => n)
        (NewServerInfo e bytesIn bytesOut bandwidthIn bandwidthOut uptime).Uptime) ∧
    (fieldOf e bytesIn (fun n => n)
        (NewStreamInfo e name bytesIn bytesOut bandwidthIn bandwidthOut uptime).BytesIn ∧
     fieldOf e bytesOut (fun n => n)
        (NewStreamInfo e name bytesIn bytesOut bandwidthIn bandwidthOut uptime).BytesOut ∧
     fieldOf e bandwidthIn (fun n => n / 1048576)
        (NewStreamInfo e name bytesIn bytesOut bandwidthIn bandwidthOut uptime).BandwidthIn ∧
     fieldOf e bandwidthOut (fun n => n / 1048576)
        (NewStreamInfo e name bytesIn bytesOut bandwidthIn bandwidthOut uptime).BandwidhOut ∧
     fieldOf e uptime (fun n => n / 1000)
        (NewStreamInfo e name bytesIn bytesOut bandwidthIn bandwidthOut uptime).Uptime ∧
     (NewStreamInfo e name bytesIn bytesOut bandwidthIn bandwidthOut uptime).Name = name) := by
  refine ⟨⟨⟨?_, ?_⟩, ⟨?_, ?_⟩, ⟨?_, ?_⟩, ⟨?_, ?_⟩, ⟨?_, ?_⟩⟩,
    ⟨⟨?_, ?_⟩, ⟨?_, ?_⟩, ⟨?_, ?_⟩, ⟨?_, ?_⟩, ⟨?_, ?_⟩, rfl⟩⟩ <;>
  intros <;> simp [NewServerInfo, NewStreamInfo, *]

/-- C7, as the code has it: when the fetch fails (a non-2xx status included),
the body cannot be read or the document fails to parse, `Collect` sends no
record at all and does not panic. -/
theorem Collect_failure_sends_nothing (e : RTMPExporter) (get : Except String Response)
    (Parse : List Nat → Except String Node) (hfail : CycleFails get Parse) :
    (Collect e (fetchStats get) Parse).records = [] ∧
    (Collect e (fetchStats get) Parse).panic = none := by
  rcases hfail with ⟨err, h⟩ | ⟨resp, h, hs⟩ | ⟨resp, err, h, hb⟩ | ⟨resp, bytes, err, h, hb, hp⟩
  · simp [Collect, scrape, fetchStats, fetchBody, h]
  · simp only [Collect, scrape, fetchStats, fetchBody, h, if_pos hs]
    simp
  · by_cases hs : resp.StatusCode ≥ 200 ∧ resp.StatusCode < 300
    · simp [Collect, scrape, fetchStats, fetchBody, h, hs, hb, parseDocument]
    · simp only [Collect, scrape, fetchStats, fetchBody, h, if_pos hs]
      simp
  · by_cases hs : resp.StatusCode ≥ 200 ∧ resp.StatusCode < 300
    · simp [Collect, scrape, fetchStats, fetchBody, h, hs, hb, hp, parseDocument]
    · simp only [Collect, scrape, fetchStats, fetchBody, h, if_pos hs]
      simp

/-- Witness for C7 as amended: the status page answers with status 503. -/
theorem Collect_failure_sends_nothing_witness :
    CycleFails (.ok ⟨503, .ok []⟩) (fun _ => (.ok docLive : Except String Node)) ∧
    ((Collect exampleExporter (fetchStats (.ok ⟨503, .ok []⟩)) (fun _ => .ok docLive)).records = [] ∧
     (Collect exampleExporter (fetchStats (.ok ⟨503, .ok []⟩)) (fun _ => .ok docLive)).panic
       = none) :=
  ⟨.status ⟨503, .ok []⟩ rfl (by decide),
   Collect_failure_sends_nothing exampleExporter (.ok ⟨503, .ok []⟩) (fun _ => .ok docLive)
     (.status ⟨503, .ok []⟩ rfl (by decide))⟩

/-- C7, counterexample: the status page answers with status 503; `Collect`
sends no record, so it does not send a single liveness gauge. -/
theorem Collect_failure_no_liveness_gauge :
    CycleFails (.ok ⟨503, .ok []⟩) (fun _ => (.ok docLive : Except String Node)) ∧
    ¬ ∃ m, (Collect exampleExporter (fetchStats (.ok ⟨503, .ok []⟩))
        (fun _ => .ok docLive)).records = [m] :=
  ⟨.status ⟨503, .ok []⟩ rfl (by decide), by simp [Collect, scrape, fetchStats, fetchBody]⟩

end RTMP

namespace VTS

/-- C6: when the fetch fails (a non-2xx status included), the body cannot be
read or the JSON fails to decode, `Collect` sends exactly one record, the
liveness gauge set to `nginxDown`, which is 0, and does not panic. -/
theorem Collect_failure_sends_down (e : VtsExporter) (get : Except String Response)
    (Unmarshal : List Nat → Except String NginxVts) (hfail : CycleFails get Unmarshal) :
    (Collect e (fetchHTTP get) Unmarshal).records
      = [⟨e.upMetric, .GaugeValue, float64 nginxDown, []⟩] ∧
    float64 nginxDown = Float.ofNat 0 ∧
    (Collect e (fetchHTTP get) Unmarshal).panic = none := by
  have hc : Collect e (fetchHTTP get) Unmarshal = ⟨[upRecord e nginxDown], none⟩ := by
    rcases hfail with ⟨err, h⟩ | ⟨resp, h, hs⟩ | ⟨resp, err, h, hb⟩ | ⟨resp, data, err, h, hb, hp⟩
    · simp [Collect, fetchHTTP, fetchBody, h]
    · simp only [Collect, fetchHTTP, fetchBody, h, if_pos hs]
    · by_cases hs : resp.StatusCode ≥ 200 ∧ resp.StatusCode < 300
      · simp [Collect, fetchHTTP, fetchBody, h, hs, hb]
      · simp only [Collect, fetchHTTP, fetchBody, h, if_pos hs]
    · by_cases hs : resp.StatusCode ≥ 200 ∧ resp.StatusCode < 300
      · simp [Collect, fetchHTTP, fetchBody, h, hs, hb, hp]
      · simp only [Collect, fetchHTTP, fetchBody, h, if_pos hs]
  rw [hc]
  exact ⟨rfl, rfl, rfl⟩

/-- Witness for C6: the status page answers with status 503. -/
theorem Collect_failure_sends_down_witness :
    CycleFails (.ok ⟨503, .ok []⟩) (fun _ => (.ok exampleSnapshot : Except String NginxVts)) ∧
    ((Collect exampleExporter (fetchHTTP (.ok ⟨503, .ok []⟩))
        (fun _ => .ok exampleSnapshot)).records
      = [⟨exampleExporter.upMetric, .GaugeValue, float64 nginxDown, []⟩] ∧
     float64 nginxDown = Float.ofNat 0 ∧
     (Collect exampleExporter (fetchHTTP (.ok ⟨503, .ok []⟩))
        (fun _ => .ok exampleSnapshot)).panic = none) :=
  ⟨.status ⟨503, .ok []⟩ rfl (by decide),
   Collect_failure_sends_down exampleExporter (.ok ⟨503, .ok []⟩) (fun _ => .ok exampleSnapshot)
     (.status ⟨503, .ok []⟩ rfl (by decide))⟩

end VTS

end NginxExporter

/-! ## The VTS collector -/

namespace NginxExporter

theorem send_of_isOk (l : List (GoResult Metric)) (h : l.all GoResult.isOk = true) :
    send l = ⟨okRecords l, none⟩ := by
  induction l with
  | nil => rfl
  | cons a rest ih =>
    simp only [List.all_cons, Bool.and_eq_true] at h
    cases a with
    | ok m => simp [send, okRecords, GoResult.toOption, ih h.2]
    | panic msg => simp [GoResult.isOk, GoResult.toOption] at h

theorem okRecords_append (a b : List (GoResult Metric)) :
    okRecords (a ++ b) = okRecords a ++ okRecords b := by
  simp [okRecords]

theorem okRecords_flatMap {α : Type} (l : List α) (f : α → List (GoResult Metric)) :
    okRecords (l.flatMap f) = l.flatMap (fun x => okRecords (f x)) := by
  simp [okRecords, List.filterMap_flatMap]

theorem BuildFQName_connections_ne_requestMsec (ns : String) :
    BuildFQName ns "server" "connections" ≠ BuildFQName ns "server" "requestMsec" := by
  intro h
  by_cases hns : ns = ""
  · subst hns
    revert h
    decide
  · have h1 : ns ++ "_" ++ "server" ++ "_" ++ "connections"
        = ns ++ "_" ++ "server" ++ "_" ++ "requestMsec" := by
      simpa [BuildFQName, hns] using h
    have h2 := congrArg String.data h1
    simp only [String.data_append, List.append_cancel_left_eq] at h2
    revert h2
    decide

theorem string_append_left_cancel (a b c : String) (h : a ++ b = a ++ c) : b = c := by
  have h2 := congrArg String.data h
  simp only [String.data_append, List.append_cancel_left_eq] at h2
  exact String.ext h2

/-- The part of a fully-qualified name the namespace contributes. -/
theorem BuildFQName_eq_append (ns subsystem name : String) (hs : subsystem ≠ "")
    (hn : name ≠ "") :
    BuildFQName ns subsystem name
      = (if ns = "" then "" else ns ++ "_") ++ (subsystem ++ "_" ++ name) := by
  by_cases h : ns = ""
  · subst h
    simp only [BuildFQName, hn, hs, if_false, if_true, ne_eq, not_true_eq_false, false_and,
      not_false_eq_true]
    apply String.ext
    simp
  · simp only [BuildFQName, hn, hs, h, if_false, ne_eq, not_false_eq_true, and_self, if_true]
    apply String.ext
    simp

theorem validLegacyRunes_succ (i : Nat) (l : List Char) :
    validLegacyRunes (i + 1) l = l.all (fun b => isValidLegacyRune b 1) := by
  induction l generalizing i with
  | nil => rfl
  | cons b rest ih =>
    simp only [validLegacyRunes, List.all_cons, ih]
    simp [isValidLegacyRune]

theorem validLegacyRunes_append (a b : List Char) (ha : a ≠ []) :
    validLegacyRunes 0 (a ++ b)
      = (validLegacyRunes 0 a && b.all (fun c => isValidLegacyRune c 1)) := by
  cases a with
  | nil => exact absurd rfl ha
  | cons c rest =>
    simp [validLegacyRunes, validLegacyRunes_succ, List.all_append, Bool.and_assoc]

/-- A name built for a namespace is valid exactly when the namespace is empty
or itself a valid metric name, the rest of the name being valid. -/
theorem IsValidMetricName_BuildFQName (ns subsystem name : String) (hs : subsystem ≠ "")
    (hn : name ≠ "")
    (hrest : ("_" ++ (subsystem ++ "_" ++ name)).toList.all (fun c => isValidLegacyRune c 1) = true)
    (h0 : IsValidMetricName (subsystem ++ "_" ++ name) = true) :
    IsValidMetricName (BuildFQName ns subsystem name) = validNamespace ns := by
  rw [BuildFQName_eq_append ns subsystem name hs hn]
  by_cases h : ns = ""
  · subst h
    have : ("" : String) ++ (subsystem ++ "_" ++ name) = subsystem ++ "_" ++ name := by
      apply String.ext
      simp
    simp only [if_true, this, h0, validNamespace]
    rfl
  · have hne : ns.toList ≠ [] := by
      intro hnil
      exact h (String.ext hnil)
    have hlen : ns.toList.length ≠ 0 := fun hz => hne (List.length_eq_zero.mp hz)
    have hdata : (ns ++ "_" ++ (subsystem ++ "_" ++ name)).toList
        = ns.toList ++ ("_" ++ (subsystem ++ "_" ++ name)).toList := by
      simp [String.toList, String.data_append]
    have hlen2 : (ns ++ "_" ++ (subsystem ++ "_" ++ name)).toList.length ≠ 0 := by
      rw [hdata, List.length_append]
      omega
    simp only [h, if_false, IsValidMetricName, hlen2, hlen, hdata,
      validLegacyRunes_append _ _ hne, hrest, Bool.and_true, validNamespace]
    simp [h]

/-- The error of a descriptor named for a namespace, with valid label
names: none exactly when the namespace is valid. -/
theorem descErr_BuildFQName (ns subsystem name : String) (labels : List String)
    (hs : subsystem ≠ "") (hn : name ≠ "")
    (hrest : ("_" ++ (subsystem ++ "_" ++ name)).toList.all (fun c => isValidLegacyRune c 1) = true)
    (h0 : IsValidMetricName (subsystem ++ "_" ++ name) = true)
    (hl : firstBadLabel labels = none) (hd : labels.eraseDups.length = labels.length) :
    descErr (BuildFQName ns subsystem name) labels
      = if validNamespace ns = true then none
        else some ("\"" ++ BuildFQName ns subsystem name ++ "\" is not a valid metric name") := by
  unfold descErr
  rw [IsValidMetricName_BuildFQName ns subsystem name hs hn hrest h0, hl]
  cases validNamespace ns <;> simp [hd]

/-- The rows of the descriptor table of `NewVTSExporter` are valid but for
the namespace. -/
theorem vtsDescriptorTable_valid :
    ∀ r ∈ vtsDescriptorTable,
      r.1 ≠ "" ∧ r.2.1 ≠ "" ∧
      ("_" ++ (r.1 ++ "_" ++ r.2.1)).toList.all (fun c => isValidLegacyRune c 1) = true ∧
      IsValidMetricName (r.1 ++ "_" ++ r.2.1) = true ∧
      firstBadLabel r.2.2 = none ∧ r.2.2.eraseDups.length = r.2.2.length := by
  decide

theorem descErr_vts (ns subsystem name : String) (labels : List String)
    (h : (subsystem, name, labels) ∈ vtsDescriptorTable) :
    descErr (BuildFQName ns subsystem name) labels
      = if validNamespace ns = true then none
        else some ("\"" ++ BuildFQName ns subsystem name ++ "\" is not a valid metric name") := by
  obtain ⟨h1, h2, h3, h4, h5, h6⟩ := vtsDescriptorTable_valid _ h
  exact descErr_BuildFQName ns subsystem name labels h1 h2 h3 h4 h5 h6

namespace VTS

theorem infoRecords_isOk (e0 : VtsExporter) (up : String → Desc) (uri ns : String) (i : Bool)
    (t : Nat) (hns : validNamespace e0.NAMESPACE = true) (v : NginxVts) :
    (infoRecords (NewVTSExporter e0 up uri ns i t) v).all GoResult.isOk = true := by
  simp [infoRecords, NewVTSExporter, newServerMetric, NewDesc, MustNewConstMetric, descErr_vts, vtsDescriptorTable, hns, GoResult.isOk,
    GoResult.toOption]

theorem connectionsRecords_isOk (e0 : VtsExporter) (up : String → Desc) (uri ns : String)
    (i : Bool) (t : Nat) (hns : validNamespace e0.NAMESPACE = true) (v : NginxVts) :
    (connectionsRecords (NewVTSExporter e0 up uri ns i t) v).all GoResult.isOk = true := by
  simp [connectionsRecords, NewVTSExporter, newServerMetric, NewDesc, MustNewConstMetric, descErr_vts, vtsDescriptorTable, hns,
    GoResult.isOk, GoResult.toOption, mapIndex]

theorem sharedZonesRecords_isOk (e0 : VtsExporter) (up : String → Desc) (uri ns : String)
    (i : Bool) (t : Nat) (hns : validNamespace e0.NAMESPACE = true) (v : NginxVts) :
    (sharedZonesRecords (NewVTSExporter e0 up uri ns i t) v).all GoResult.isOk = true := by
  simp [sharedZonesRecords, NewVTSExporter, newServerMetric, NewDesc, MustNewConstMetric, descErr_vts, vtsDescriptorTable, hns,
    GoResult.isOk, GoResult.toOption, mapIndex]

theorem serverZoneRecords_isOk (e0 : VtsExporter) (up : String → Desc) (uri ns : String)
    (i : Bool) (t : Nat) (hns : validNamespace e0.NAMESPACE = true) (host : String) (s : Server) :
    (serverZoneRecords (NewVTSExporter e0 up uri ns i t) host s).all GoResult.isOk = true := by
  simp [serverZoneRecords, NewVTSExporter, newServerMetric, NewDesc, MustNewConstMetric, descErr_vts, vtsDescriptorTable, hns,
    GoResult.isOk, GoResult.toOption, mapIndex]

theorem upstreamRecords_isOk (e0 : VtsExporter) (up : String → Desc) (uri ns : String)
    (i : Bool) (t : Nat) (hns : validNamespace e0.NAMESPACE = true) (name : String) (s : Upstream) :
    (upstreamRecords (NewVTSExporter e0 up uri ns i t) name s).all GoResult.isOk = true := by
  simp [upstreamRecords, NewVTSExporter, newUpstreamMetric, NewDesc, MustNewConstMetric, descErr_vts, vtsDescriptorTable, hns,
    GoResult.isOk, GoResult.toOption, mapIndex]

theorem filterRecords_isOk (e0 : VtsExporter) (up : String → Desc) (uri ns : String)
    (i : Bool) (t : Nat) (hns : validNamespace e0.NAMESPACE = true) (filter name : String) (s : Upstream) :
    (filterRecords (NewVTSExporter e0 up uri ns i t) filter name s).all GoResult.isOk = true := by
  simp [filterRecords, NewVTSExporter, newFilterMetric, NewDesc, MustNewConstMetric, descErr_vts, vtsDescriptorTable, hns,
    GoResult.isOk, GoResult.toOption, mapIndex]

theorem cacheZoneRecords_isOk (e0 : VtsExporter) (up : String → Desc) (uri ns : String)
    (i : Bool) (t : Nat) (hns : validNamespace e0.NAMESPACE = true) (zone : String) (s : Cache) :
    (cacheZoneRecords (NewVTSExporter e0 up uri ns i t) zone s).all GoResult.isOk = true := by
  simp [cacheZoneRecords, NewVTSExporter, newCacheMetric, NewDesc, MustNewConstMetric, descErr_vts, vtsDescriptorTable, hns,
    GoResult.isOk, GoResult.toOption, mapIndex]

theorem translate_isOk (e0 : VtsExporter) (up : String → Desc) (uri ns : String)
    (i : Bool) (t : Nat) (hns : validNamespace e0.NAMESPACE = true) (v : NginxVts) :
    (translate (NewVTSExporter e0 up uri ns i t) v).all GoResult.isOk = true := by
  simp only [translate, List.all_append, List.all_flatMap, infoRecords_isOk e0 up uri ns i t hns,
    connectionsRecords_isOk e0 up uri ns i t hns, sharedZonesRecords_isOk e0 up uri ns i t hns, serverZoneRecords_isOk e0 up uri ns i t hns,
    upstreamRecords_isOk e0 up uri ns i t hns, filterRecords_isOk e0 up uri ns i t hns, cacheZoneRecords_isOk e0 up uri ns i t hns]
  simp

/-- A cycle that decodes a snapshot sends the gauge with the value 1 and then
the translated records, none of the constructions panicking. -/
theorem Collect_of_decodes (e0 : VtsExporter) (up : String → Desc) (uri ns : String)
    (i : Bool) (t : Nat) (hns : validNamespace e0.NAMESPACE = true) (get : Except String Response)
    (Unmarshal : List Nat → Except String NginxVts) (v : NginxVts)
    (h : CycleDecodes get Unmarshal v) :
    Collect (NewVTSExporter e0 up uri ns i t) (fetchHTTP get) Unmarshal
      = ⟨upRecord (NewVTSExporter e0 up uri ns i t) nginxUp
          :: okRecords (translate (NewVTSExporter e0 up uri ns i t) v), none⟩ := by
  obtain ⟨resp, data, hg, hs, hb, hd⟩ := h
  simp [Collect, fetchHTTP, fetchBody, hg, hs, hb, hd, Sent.andThen,
    send_of_isOk _ (translate_isOk e0 up uri ns i t hns v)]

end VTS

end NginxExporter

namespace NginxExporter

theorem flatMap_eq_nil_of_forall {α β : Type} (l : List α) (f : α → List β)
    (h : ∀ a, f a = []) : l.flatMap f = [] := by
  induction l with
  | nil => rfl
  | cons a rest ih => simp [List.flatMap_cons, h a, ih]

namespace VTS

theorem serverZoneRecords_not_connections (e0 : VtsExporter) (up : String → Desc)
    (uri ns : String) (i : Bool) (t : Nat) (hns : validNamespace e0.NAMESPACE = true) (host : String) (s : Server) (status : String) :
    (okRecords (serverZoneRecords (NewVTSExporter e0 up uri ns i t) host s)).filter
      (isConnectionsRecord (NewVTSExporter e0 up uri ns i t) status) = [] := by
  simp [serverZoneRecords, NewVTSExporter, newServerMetric, NewDesc, MustNewConstMetric, descErr_vts, vtsDescriptorTable, hns,
    okRecords, GoResult.toOption, mapIndex, isConnectionsRecord,
    BuildFQName_connections_ne_requestMsec]

theorem upstreamRecords_not_connections (e0 : VtsExporter) (up : String → Desc)
    (uri ns : String) (i : Bool) (t : Nat) (hns : validNamespace e0.NAMESPACE = true) (name : String) (s : Upstream) (status : String) :
    (okRecords (upstreamRecords (NewVTSExporter e0 up uri ns i t) name s)).filter
      (isConnectionsRecord (NewVTSExporter e0 up uri ns i t) status) = [] := by
  simp [upstreamRecords, NewVTSExporter, newUpstreamMetric, NewDesc, MustNewConstMetric, descErr_vts, vtsDescriptorTable, hns,
    okRecords, GoResult.toOption, mapIndex, isConnectionsRecord]

theorem filterRecords_not_connections (e0 : VtsExporter) (up : String → Desc)
    (uri ns : String) (i : Bool) (t : Nat) (hns : validNamespace e0.NAMESPACE = true) (filter name : String) (s : Upstream)
    (status : String) :
    (okRecords (filterRecords (NewVTSExporter e0 up uri ns i t) filter name s)).filter
      (isConnectionsRecord (NewVTSExporter e0 up uri ns i t) status) = [] := by
  simp [filterRecords, NewVTSExporter, newFilterMetric, NewDesc, MustNewConstMetric, descErr_vts, vtsDescriptorTable, hns,
    okRecords, GoResult.toOption, mapIndex, isConnectionsRecord]

theorem cacheZoneRecords_not_connections (e0 : VtsExporter) (up : String → Desc)
    (uri ns : String) (i : Bool) (t : Nat) (hns : validNamespace e0.NAMESPACE = true) (zone : String) (s : Cache) (status : String) :
    (okRecords (cacheZoneRecords (NewVTSExporter e0 up uri ns i t) zone s)).filter
      (isConnectionsRecord (NewVTSExporter e0 up uri ns i t) status) = [] := by
  simp [cacheZoneRecords, NewVTSExporter, newCacheMetric, NewDesc, MustNewConstMetric, descErr_vts, vtsDescriptorTable, hns,
    okRecords, GoResult.toOption, mapIndex, isConnectionsRecord]

/-- The records of the connections metric with a given status label among
all the records of a cycle are those among the seven of the section
`// connections`. -/
theorem filter_connections (e0 : VtsExporter) (up : String → Desc) (uri ns : String)
    (i : Bool) (t : Nat) (hns : validNamespace e0.NAMESPACE = true) (v : NginxVts) (status : String) :
    (upRecord (NewVTSExporter e0 up uri ns i t) nginxUp
        :: okRecords (translate (NewVTSExporter e0 up uri ns i t) v)).filter
      (isConnectionsRecord (NewVTSExporter e0 up uri ns i t) status)
      = (okRecords (connectionsRecords (NewVTSExporter e0 up uri ns i t) v)).filter
          (isConnectionsRecord (NewVTSExporter e0 up uri ns i t) status) := by
  have hup : isConnectionsRecord (NewVTSExporter e0 up uri ns i t) status
      (upRecord (NewVTSExporter e0 up uri ns i t) nginxUp) = false := by
    simp [isConnectionsRecord, upRecord]
  have hinfo : (okRecords (infoRecords (NewVTSExporter e0 up uri ns i t) v)).filter
      (isConnectionsRecord (NewVTSExporter e0 up uri ns i t) status) = [] := by
    simp [infoRecords, NewVTSExporter, newServerMetric, NewDesc, MustNewConstMetric, descErr_vts, vtsDescriptorTable, hns,
      okRecords, GoResult.toOption, mapIndex, isConnectionsRecord]
  have hshared : (okRecords (sharedZonesRecords (NewVTSExporter e0 up uri ns i t) v)).filter
      (isConnectionsRecord (NewVTSExporter e0 up uri ns i t) status) = [] := by
    simp [sharedZonesRecords, NewVTSExporter, newServerMetric, NewDesc, MustNewConstMetric, descErr_vts, vtsDescriptorTable, hns,
      okRecords, GoResult.toOption, mapIndex, isConnectionsRecord]
  rw [List.filter_cons, hup]
  simp only [translate, okRecords_append, okRecords_flatMap, List.filter_append,
    List.filter_flatMap, hinfo, hshared, serverZoneRecords_not_connections e0 up uri ns i t hns,
    upstreamRecords_not_connections e0 up uri ns i t hns, filterRecords_not_connections e0 up uri ns i t hns,
    cacheZoneRecords_not_connections e0 up uri ns i t hns]
  simp [flatMap_eq_nil_of_forall]

/-- A name of the descriptor table of `NewVTSExporter`, written out. -/
theorem BuildFQName_vts (ns subsystem name rest : String)
    (h : (subsystem, name, rest) ∈
      [("server", "uptime", "server_uptime"), ("server", "connections", "server_connections"),
       ("server", "requests", "server_requests"), ("server", "bytes", "server_bytes"),
       ("server", "cache", "server_cache"), ("server", "requestMsec", "server_requestMsec"),
       ("server", "sharedzones", "server_sharedzones"),
       ("upstream", "requests", "upstream_requests"), ("upstream", "bytes", "upstream_bytes"),
       ("upstream", "responseMsec", "upstream_responseMsec"),
       ("upstream", "requestMsec", "upstream_requestMsec"),
       ("filter", "requests", "filter_requests"), ("filter", "bytes", "filter_bytes"),
       ("filter", "responseMsec", "filter_responseMsec"),
       ("filter", "requestMsec", "filter_requestMsec"),
       ("cache", "requests", "cache_requests"), ("cache", "bytes", "cache_bytes")]) :
    BuildFQName ns subsystem name = qualified ns rest := by
  have hall : ∀ r ∈
      [("server", "uptime", "server_uptime"), ("server", "connections", "server_connections"),
       ("server", "requests", "server_requests"), ("server", "bytes", "server_bytes"),
       ("server", "cache", "server_cache"), ("server", "requestMsec", "server_requestMsec"),
       ("server", "sharedzones", "server_sharedzones"),
       ("upstream", "requests", "upstream_requests"), ("upstream", "bytes", "upstream_bytes"),
       ("upstream", "responseMsec", "upstream_responseMsec"),
       ("upstream", "requestMsec", "upstream_requestMsec"),
       ("filter", "requests", "filter_requests"), ("filter", "bytes", "filter_bytes"),
       ("filter", "responseMsec", "filter_responseMsec"),
       ("filter", "requestMsec", "filter_requestMsec"),
       ("cache", "requests", "cache_requests"), ("cache", "bytes", "cache_bytes")],
      r.1 ≠ "" ∧ r.2.1 ≠ "" ∧ r.1 ++ "_" ++ r.2.1 = r.2.2 := by
    decide
  obtain ⟨h1, h2, h3⟩ := hall _ h
  simp only at h1 h2 h3
  rw [BuildFQName_eq_append ns subsystem name h1 h2, h3]
  unfold qualified
  by_cases hns : ns = ""
  · subst hns
    simp only [if_true]
    apply String.ext
    simp
  · simp only [hns, if_false]

/-- C10, as the code has it: in a cycle of an exporter with a valid
namespace that decodes a snapshot, `Collect` does not panic and, for each of
the seven connection fields, sends exactly one record of the connections
metric whose status label is the name of the field: a gauge named
`<namespace>_server_connections` whose value is the decoded value of the
field converted to `float64`. -/
theorem Collect_connections (e0 : VtsExporter) (up : String → Desc) (uri ns : String)
    (i : Bool) (t : Nat) (get : Except String Response)
    (Unmarshal : List Nat → Except String NginxVts) (v : NginxVts)
    (hns : validNamespace e0.NAMESPACE = true)
    (h : CycleDecodes get Unmarshal v) :
    (Collect (NewVTSExporter e0 up uri ns i t) (fetchHTTP get) Unmarshal).panic = none ∧
    (∀ field ∈ connectionFields v.Connections,
      (Collect (NewVTSExporter e0 up uri ns i t) (fetchHTTP get) Unmarshal).records.filter
          (isConnectionsRecord (NewVTSExporter e0 up uri ns i t) field.1)
        = [⟨newServerMetric e0 "connections" "nginx connections" ["status"], .GaugeValue,
            Float.ofNat field.2, [field.1]⟩] ∧
      ((Collect (NewVTSExporter e0 up uri ns i t) (fetchHTTP get) Unmarshal).records.filter
          (isConnectionsRecord (NewVTSExporter e0 up uri ns i t) field.1)).map view
        = [(qualified e0.NAMESPACE "server_connections", .GaugeValue, Float.ofNat field.2,
            [field.1])]) ∧
    connectionFields v.Connections
      = [("active", v.Connections.Active), ("reading", v.Connections.Reading),
         ("writing", v.Connections.Writing), ("waiting", v.Connections.Waiting),
         ("accepted", v.Connections.Accepted), ("handled", v.Connections.Handled),
         ("requests", v.Connections.Requests)] := by
  rw [Collect_of_decodes e0 up uri ns i t hns get Unmarshal v h]
  refine ⟨rfl, ?_, rfl⟩
  intro field hfield
  have hrec : (upRecord (NewVTSExporter e0 up uri ns i t) nginxUp
        :: okRecords (translate (NewVTSExporter e0 up uri ns i t) v)).filter
      (isConnectionsRecord (NewVTSExporter e0 up uri ns i t) field.1)
        = [⟨newServerMetric e0 "connections" "nginx connections" ["status"], .GaugeValue,
            Float.ofNat field.2, [field.1]⟩] := by
    simp only [filter_connections e0 up uri ns i t hns]
    simp only [connectionFields, List.mem_cons, List.mem_singleton, List.not_mem_nil,
      or_false] at hfield
    rcases hfield with rfl | rfl | rfl | rfl | rfl | rfl | rfl <;>
    simp [connectionsRecords, NewVTSExporter, newServerMetric, NewDesc, MustNewConstMetric,
      descErr_vts, vtsDescriptorTable, hns, okRecords, GoResult.toOption, mapIndex,
      isConnectionsRecord, float64]
  refine ⟨hrec, ?_⟩
  rw [hrec]
  simp only [List.map_cons, List.map_nil, view, newServerMetric, NewDesc]
  rw [BuildFQName_vts e0.NAMESPACE "server" "connections" "server_connections" (by decide)]

/-- Witness for C10 as amended: the snapshot `exampleSnapshot` with 42 active
connections, for the namespace `nginx`: the record of the field `active` is
the gauge `nginx_server_connections` with the label value `active` and the
value 42. -/
theorem Collect_connections_witness :
    validNamespace exampleReceiver.NAMESPACE = true ∧
    CycleDecodes (.ok ⟨200, .ok []⟩) (fun _ => (.ok exampleSnapshot : Except String NginxVts))
      exampleSnapshot ∧
    ("active", 42) ∈ connectionFields exampleSnapshot.Connections ∧
    ((Collect exampleExporter (fetchHTTP (.ok ⟨200, .ok []⟩))
        (fun _ => .ok exampleSnapshot)).records.filter
          (isConnectionsRecord exampleExporter "active")).map view
      = [("nginx_server_connections", .GaugeValue, Float.ofNat 42, ["active"])] :=
  ⟨by decide, ⟨⟨200, .ok []⟩, [], rfl, by decide, rfl, rfl⟩, by decide,
   ((Collect_connections exampleReceiver exampleUpMetric "http://localhost/status/format/json"
     "nginx" false 5 (.ok ⟨200, .ok []⟩) (fun _ => .ok exampleSnapshot) exampleSnapshot
     (by decide) ⟨⟨200, .ok []⟩, [], rfl, by decide, rfl, rfl⟩).2.1 ("active", 42)
     (by decide)).2⟩

end VTS

end NginxExporter

/-! ## The records of a cycle, as the sink sees them -/

namespace NginxExporter

namespace VTS

/-- The names of the descriptor table of `NewVTSExporter`, written out. -/
theorem BuildFQName_vts_names (ns : String) :
    BuildFQName ns "server" "uptime" = qualified ns "server_uptime" ∧
    BuildFQName ns "server" "connections" = qualified ns "server_connections" ∧
    BuildFQName ns "server" "requests" = qualified ns "server_requests" ∧
    BuildFQName ns "server" "bytes" = qualified ns "server_bytes" ∧
    BuildFQName ns "server" "cache" = qualified ns "server_cache" ∧
    BuildFQName ns "server" "requestMsec" = qualified ns "server_requestMsec" ∧
    BuildFQName ns "server" "sharedzones" = qualified ns "server_sharedzones" ∧
    BuildFQName ns "upstream" "requests" = qualified ns "upstream_requests" ∧
    BuildFQName ns "upstream" "bytes" = qualified ns "upstream_bytes" ∧
    BuildFQName ns "upstream" "responseMsec" = qualified ns "upstream_responseMsec" ∧
    BuildFQName ns "upstream" "requestMsec" = qualified ns "upstream_requestMsec" ∧
    BuildFQName ns "filter" "requests" = qualified ns "filter_requests" ∧
    BuildFQName ns "filter" "bytes" = qualified ns "filter_bytes" ∧
    BuildFQName ns "filter" "responseMsec" = qualified ns "filter_responseMsec" ∧
    BuildFQName ns "filter" "requestMsec" = qualified ns "filter_requestMsec" ∧
    BuildFQName ns "cache" "requests" = qualified ns "cache_requests" ∧
    BuildFQName ns "cache" "bytes" = qualified ns "cache_bytes" :=
  ⟨BuildFQName_vts ns "server" "uptime" "server_uptime" (by decide),
    BuildFQName_vts ns "server" "connections" "server_connections" (by decide),
    BuildFQName_vts ns "server" "requests" "server_requests" (by decide),
    BuildFQName_vts ns "server" "bytes" "server_bytes" (by decide),
    BuildFQName_vts ns "server" "cache" "server_cache" (by decide),
    BuildFQName_vts ns "server" "requestMsec" "server_requestMsec" (by decide),
    BuildFQName_vts ns "server" "sharedzones" "server_sharedzones" (by decide),
    BuildFQName_vts ns "upstream" "requests" "upstream_requests" (by decide),
    BuildFQName_vts ns "upstream" "bytes" "upstream_bytes" (by decide),
    BuildFQName_vts ns "upstream" "responseMsec" "upstream_responseMsec" (by decide),
    BuildFQName_vts ns "upstream" "requestMsec" "upstream_requestMsec" (by decide),
    BuildFQName_vts ns "filter" "requests" "filter_requests" (by decide),
    BuildFQName_vts ns "filter" "bytes" "filter_bytes" (by decide),
    BuildFQName_vts ns "filter" "responseMsec" "filter_responseMsec" (by decide),
    BuildFQName_vts ns "filter" "requestMsec" "filter_requestMsec" (by decide),
    BuildFQName_vts ns "cache" "requests" "cache_requests" (by decide),
    BuildFQName_vts ns "cache" "bytes" "cache_bytes" (by decide)⟩

theorem qualified_inj (ns a b : String) (h : qualified ns a = qualified ns b) : a = b := by
  unfold qualified at h
  by_cases hns : ns = ""
  · simpa [hns] using h
  · simp only [hns, if_false] at h
    exact string_append_left_cancel _ _ _ h

theorem infoRecords_view (e0 : VtsExporter) (up : String → Desc) (uri ns : String) (i : Bool)
    (t : Nat) (hns : validNamespace e0.NAMESPACE = true) (v : NginxVts) :
    (okRecords (infoRecords (NewVTSExporter e0 up uri ns i t) v)).map view
      = expectedInfo e0.NAMESPACE v := by
  simp [infoRecords, NewVTSExporter, newServerMetric, NewDesc, MustNewConstMetric, descErr_vts,
    vtsDescriptorTable, hns, okRecords, GoResult.toOption, view, expectedInfo]
  simp [BuildFQName_vts_names e0.NAMESPACE]

theorem connectionsRecords_view (e0 : VtsExporter) (up : String → Desc) (uri ns : String)
    (i : Bool) (t : Nat) (hns : validNamespace e0.NAMESPACE = true) (v : NginxVts) :
    (okRecords (connectionsRecords (NewVTSExporter e0 up uri ns i t) v)).map view
      = expectedConnections e0.NAMESPACE v.Connections := by
  simp [connectionsRecords, NewVTSExporter, newServerMetric, NewDesc, MustNewConstMetric,
    descErr_vts, vtsDescriptorTable, hns, okRecords, GoResult.toOption, mapIndex, view,
    expectedConnections, float64]
  simp [BuildFQName_vts_names e0.NAMESPACE]

theorem sharedZonesRecords_view (e0 : VtsExporter) (up : String → Desc) (uri ns : String)
    (i : Bool) (t : Nat) (hns : validNamespace e0.NAMESPACE = true) (v : NginxVts) :
    (okRecords (sharedZonesRecords (NewVTSExporter e0 up uri ns i t) v)).map view
      = expectedSharedZones e0.NAMESPACE v.SharedZones := by
  simp [sharedZonesRecords, NewVTSExporter, newServerMetric, NewDesc, MustNewConstMetric,
    descErr_vts, vtsDescriptorTable, hns, okRecords, GoResult.toOption, mapIndex, view,
    expectedSharedZones, float64]
  simp [BuildFQName_vts_names e0.NAMESPACE]

theorem serverZoneRecords_view (e0 : VtsExporter) (up : String → Desc) (uri ns : String)
    (i : Bool) (t : Nat) (hns : validNamespace e0.NAMESPACE = true) (host : String)
    (s : Server) :
    (okRecords (serverZoneRecords (NewVTSExporter e0 up uri ns i t) host s)).map view
      = expectedServerZone e0.NAMESPACE host s := by
  simp [serverZoneRecords, NewVTSExporter, newServerMetric, NewDesc, MustNewConstMetric,
    descErr_vts, vtsDescriptorTable, hns, okRecords, GoResult.toOption, mapIndex, view,
    expectedServerZone, float64]
  simp [BuildFQName_vts_names e0.NAMESPACE]

theorem upstreamRecords_view (e0 : VtsExporter) (up : String → Desc) (uri ns : String)
    (i : Bool) (t : Nat) (hns : validNamespace e0.NAMESPACE = true) (name : String)
    (s : Upstream) :
    (okRecords (upstreamRecords (NewVTSExporter e0 up uri ns i t) name s)).map view
      = expectedUpstream e0.NAMESPACE name s := by
  simp [upstreamRecords, NewVTSExporter, newUpstreamMetric, NewDesc, MustNewConstMetric,
    descErr_vts, vtsDescriptorTable, hns, okRecords, GoResult.toOption, mapIndex, view,
    expectedUpstream, float64]
  simp [BuildFQName_vts_names e0.NAMESPACE]

theorem filterRecords_view (e0 : VtsExporter) (up : String → Desc) (uri ns : String)
    (i : Bool) (t : Nat) (hns : validNamespace e0.NAMESPACE = true) (filter name : String)
    (s : Upstream) :
    (okRecords (filterRecords (NewVTSExporter e0 up uri ns i t) filter name s)).map view
      = expectedFilter e0.NAMESPACE filter name s := by
  simp [filterRecords, NewVTSExporter, newFilterMetric, NewDesc, MustNewConstMetric,
    descErr_vts, vtsDescriptorTable, hns, okRecords, GoResult.toOption, mapIndex, view,
    expectedFilter, float64]
  simp [BuildFQName_vts_names e0.NAMESPACE]

theorem cacheZoneRecords_view (e0 : VtsExporter) (up : String → Desc) (uri ns : String)
    (i : Bool) (t : Nat) (hns : validNamespace e0.NAMESPACE = true) (zone : String)
    (s : Cache) :
    (okRecords (cacheZoneRecords (NewVTSExporter e0 up uri ns i t) zone s)).map view
      = expectedCacheZone e0.NAMESPACE zone s := by
  simp [cacheZoneRecords, NewVTSExporter, newCacheMetric, NewDesc, MustNewConstMetric,
    descErr_vts, vtsDescriptorTable, hns, okRecords, GoResult.toOption, mapIndex, view,
    expectedCacheZone, float64]
  simp [BuildFQName_vts_names e0.NAMESPACE]

/-- The translated records of an exporter with a valid namespace are, name by
name, value by value and label by label, the expected records. -/
theorem translate_view (e0 : VtsExporter) (up : String → Desc) (uri ns : String)
    (i : Bool) (t : Nat) (hns : validNamespace e0.NAMESPACE = true) (v : NginxVts) :
    (okRecords (translate (NewVTSExporter e0 up uri ns i t) v)).map view
      = expectedRecords e0.NAMESPACE v := by
  simp only [translate, expectedRecords, okRecords_append, okRecords_flatMap, List.map_append,
    List.map_flatMap, infoRecords_view e0 up uri ns i t hns,
    connectionsRecords_view e0 up uri ns i t hns, sharedZonesRecords_view e0 up uri ns i t hns,
    serverZoneRecords_view e0 up uri ns i t hns, upstreamRecords_view e0 up uri ns i t hns,
    filterRecords_view e0 up uri ns i t hns, cacheZoneRecords_view e0 up uri ns i t hns]

/-- With a namespace that is no valid metric name, the construction of the
info record panics with the error of its descriptor: a cycle that decodes a
snapshot sends the gauge and ends with that panic. -/
theorem Collect_invalid_namespace (e0 : VtsExporter) (up : String → Desc) (uri ns : String)
    (i : Bool) (t : Nat) (hns : validNamespace e0.NAMESPACE = false)
    (get : Except String Response) (Unmarshal : List Nat → Except String NginxVts)
    (v : NginxVts) (h : CycleDecodes get Unmarshal v) :
    Collect (NewVTSExporter e0 up uri ns i t) (fetchHTTP get) Unmarshal
      = ⟨[upRecord (NewVTSExporter e0 up uri ns i t) nginxUp],
          some ("\"" ++ BuildFQName e0.NAMESPACE "server" "uptime"
            ++ "\" is not a valid metric name")⟩ := by
  obtain ⟨resp, data, hg, hs, hb, hd⟩ := h
  simp [Collect, fetchHTTP, fetchBody, hg, hs, hb, hd, Sent.andThen, translate, infoRecords,
    send, NewVTSExporter, newServerMetric, NewDesc, MustNewConstMetric, descErr_vts,
    vtsDescriptorTable, hns]

/-- C10, counterexample: the receiver `badReceiver` has the namespace
`bad-ns`; the cycle decodes the snapshot `exampleSnapshot` with 42 active
connections, yet `Collect` sends no record of the connections metric: the
construction of the info record panics before. -/
theorem Collect_connections_bad_namespace :
    validNamespace badReceiver.NAMESPACE = false ∧
    CycleDecodes (.ok ⟨200, .ok []⟩) (fun _ => (.ok exampleSnapshot : Except String NginxVts))
      exampleSnapshot ∧
    ("active", 42) ∈ connectionFields exampleSnapshot.Connections ∧
    (Collect badExporter (fetchHTTP (.ok ⟨200, .ok []⟩))
        (fun _ => .ok exampleSnapshot)).records.filter
          (isConnectionsRecord badExporter "active") = [] ∧
    (Collect badExporter (fetchHTTP (.ok ⟨200, .ok []⟩))
        (fun _ => .ok exampleSnapshot)).records.map view
      = [("nginx_up", .GaugeValue, Float.ofNat 1, [])] ∧
    (Collect badExporter (fetchHTTP (.ok ⟨200, .ok []⟩)) (fun _ => .ok exampleSnapshot)).panic
      = some "\"bad-ns_server_uptime\" is not a valid metric name" := by
  have hd : CycleDecodes (.ok ⟨200, .ok []⟩)
      (fun _ => (.ok exampleSnapshot : Except String NginxVts)) exampleSnapshot :=
    ⟨⟨200, .ok []⟩, [], rfl, by decide, rfl, rfl⟩
  have hc := Collect_invalid_namespace badReceiver exampleUpMetric
    "http://localhost/status/format/json" "nginx" false 5 (by decide) _ _ _ hd
  refine ⟨by decide, hd, by decide, ?_, ?_, ?_⟩
  · unfold badExporter
    rw [hc]
    simp [isConnectionsRecord, upRecord]
  · unfold badExporter
    rw [hc]
    simp [view, upRecord, NewVTSExporter, exampleUpMetric, NewDesc, float64, nginxUp]
    decide
  · unfold badExporter
    rw [hc]
    decide

end VTS

end NginxExporter

/-! ## The order of the groups of a cycle of the VTS collector -/

namespace NginxExporter

namespace VTS

/-- The records of a cycle that decodes a snapshot, group by group. -/
theorem Collect_records_of_decodes (e0 : VtsExporter) (up : String → Desc) (uri ns : String)
    (i : Bool) (t : Nat) (hns : validNamespace e0.NAMESPACE = true) (get : Except String Response)
    (Unmarshal : List Nat → Except String NginxVts) (v : NginxVts)
    (h : CycleDecodes get Unmarshal v) :
    (Collect (NewVTSExporter e0 up uri ns i t) (fetchHTTP get) Unmarshal).records
      = upRecord (NewVTSExporter e0 up uri ns i t) nginxUp
        :: (okRecords (infoRecords (NewVTSExporter e0 up uri ns i t) v)
          ++ okRecords (connectionsRecords (NewVTSExporter e0 up uri ns i t) v)
          ++ okRecords (sharedZonesRecords (NewVTSExporter e0 up uri ns i t) v)
          ++ v.ServerZones.flatMap
              (fun hs => okRecords (serverZoneRecords (NewVTSExporter e0 up uri ns i t) hs.1 hs.2))
          ++ v.UpstreamZones.flatMap
              (fun nl => nl.2.flatMap
                (fun s => okRecords (upstreamRecords (NewVTSExporter e0 up uri ns i t) nl.1 s)))
          ++ v.FilterZones.flatMap
              (fun fv => fv.2.flatMap
                (fun fs => okRecords
                  (filterRecords (NewVTSExporter e0 up uri ns i t) fv.1 fs.1 fs.2)))
          ++ v.CacheZones.flatMap
              (fun zs => okRecords
                (cacheZoneRecords (NewVTSExporter e0 up uri ns i t) zs.1 zs.2))) := by
  rw [Collect_of_decodes e0 up uri ns i t hns get Unmarshal v h]
  simp only [translate, okRecords_append, okRecords_flatMap]

/-- The records of a cycle of an exporter with a valid namespace that decodes
a snapshot, as the sink sees them: the gauge with the value 1, then the
expected records; and no panic. -/
theorem Collect_view (e0 : VtsExporter) (up : String → Desc) (uri ns : String)
    (i : Bool) (t : Nat) (hns : validNamespace e0.NAMESPACE = true)
    (get : Except String Response) (Unmarshal : List Nat → Except String NginxVts)
    (v : NginxVts) (h : CycleDecodes get Unmarshal v) :
    (Collect (NewVTSExporter e0 up uri ns i t) (fetchHTTP get) Unmarshal).panic = none ∧
    (Collect (NewVTSExporter e0 up uri ns i t) (fetchHTTP get) Unmarshal).records.map view
      = ((up ns).fqName, .GaugeValue, Float.ofNat 1, []) :: expectedRecords e0.NAMESPACE v := by
  rw [Collect_of_decodes e0 up uri ns i t hns get Unmarshal v h]
  refine ⟨rfl, ?_⟩
  simp only [List.map_cons, translate_view e0 up uri ns i t hns]
  rfl

/-- C11, as the code has it: in a cycle of an exporter with a valid namespace
that decodes a snapshot, `Collect` does not panic, sets the gauge to
`nginxUp` (1), sends it, and then sends the translated records in this order
of groups: the info record, the seven connection gauges, the three
shared-zone records, the 17 records of each server zone, the 10 of each
backend of each upstream zone, the 10 of each entry of each filter zone and
the 10 of each cache zone, each record with the name, kind, value and label
values expected of it. -/
theorem Collect_group_order (e0 : VtsExporter) (up : String → Desc) (uri ns : String)
    (i : Bool) (t : Nat) (get : Except String Response)
    (Unmarshal : List Nat → Except String NginxVts) (v : NginxVts)
    (hns : validNamespace e0.NAMESPACE = true)
    (h : CycleDecodes get Unmarshal v) :
    (Collect (NewVTSExporter e0 up uri ns i t) (fetchHTTP get) Unmarshal).panic = none ∧
    (Collect (NewVTSExporter e0 up uri ns i t) (fetchHTTP get) Unmarshal).records.head?
      = some ⟨up ns, .GaugeValue, Float.ofNat 1, []⟩ ∧
    (Collect (NewVTSExporter e0 up uri ns i t) (fetchHTTP get) Unmarshal).records.map view
      = ((up ns).fqName, .GaugeValue, Float.ofNat 1, [])
        :: (expectedInfo e0.NAMESPACE v
          ++ expectedConnections e0.NAMESPACE v.Connections
          ++ expectedSharedZones e0.NAMESPACE v.SharedZones
          ++ v.ServerZones.flatMap (fun hs => expectedServerZone e0.NAMESPACE hs.1 hs.2)
          ++ v.UpstreamZones.flatMap
              (fun nl => nl.2.flatMap (fun s => expectedUpstream e0.NAMESPACE nl.1 s))
          ++ v.FilterZones.flatMap
              (fun fv => fv.2.flatMap (fun fs => expectedFilter e0.NAMESPACE fv.1 fs.1 fs.2))
          ++ v.CacheZones.flatMap (fun zs => expectedCacheZone e0.NAMESPACE zs.1 zs.2)) ∧
    (expectedInfo e0.NAMESPACE v).map (fun r => (r.1, r.2.2.2))
      = [(qualified e0.NAMESPACE "server_uptime", [v.HostName, v.NginxVersion])] ∧
    (expectedConnections e0.NAMESPACE v.Connections).map (fun r => (r.1, r.2.2.2))
      = [(qualified e0.NAMESPACE "server_connections", ["active"]),
         (qualified e0.NAMESPACE "server_connections", ["reading"]),
         (qualified e0.NAMESPACE "server_connections", ["waiting"]),
         (qualified e0.NAMESPACE "server_connections", ["writing"]),
         (qualified e0.NAMESPACE "server_connections", ["accepted"]),
         (qualified e0.NAMESPACE "server_connections", ["handled"]),
         (qualified e0.NAMESPACE "server_connections", ["requests"])] ∧
    (expectedSharedZones e0.NAMESPACE v.SharedZones).map (fun r => (r.1, r.2.2.2))
      = [(qualified e0.NAMESPACE "server_sharedzones", [v.SharedZones.Name, "maxsize"]),
         (qualified e0.NAMESPACE "server_sharedzones", [v.SharedZones.Name, "usedsize"]),
         (qualified e0.NAMESPACE "server_sharedzones", [v.SharedZones.Name, "usednode"])] ∧
    (∀ host s, (expectedServerZone e0.NAMESPACE host s).length = 17 ∧
      ∀ r ∈ expectedServerZone e0.NAMESPACE host s, r.2.2.2.head? = some host) ∧
    (∀ name s, (expectedUpstream e0.NAMESPACE name s).length = 10 ∧
      ∀ r ∈ expectedUpstream e0.NAMESPACE name s, r.2.2.2.head? = some name) ∧
    (∀ filter name s, (expectedFilter e0.NAMESPACE filter name s).length = 10 ∧
      ∀ r ∈ expectedFilter e0.NAMESPACE filter name s, r.2.2.2.head? = some filter) ∧
    (∀ zone s, (expectedCacheZone e0.NAMESPACE zone s).length = 10 ∧
      ∀ r ∈ expectedCacheZone e0.NAMESPACE zone s, r.2.2.2.head? = some zone) := by
  refine ⟨(Collect_view e0 up uri ns i t hns get Unmarshal v h).1, ?_,
    (Collect_view e0 up uri ns i t hns get Unmarshal v h).2, rfl, rfl, rfl, ?_, ?_, ?_, ?_⟩
  · rw [Collect_of_decodes e0 up uri ns i t hns get Unmarshal v h]
    rfl
  · intro host s
    exact ⟨rfl, by simp [expectedServerZone]⟩
  · intro name s
    exact ⟨rfl, by simp [expectedUpstream]⟩
  · intro filter name s
    exact ⟨rfl, by simp [expectedFilter]⟩
  · intro zone s
    exact ⟨rfl, by simp [expectedCacheZone]⟩

/-- Witness for C11 as amended: the snapshot `snapshotWithBackend 1 false`
for the namespace `nginx`; the cycle does not panic and sends the gauge
first. -/
theorem Collect_group_order_witness :
    validNamespace exampleReceiver.NAMESPACE = true ∧
    CycleDecodes (.ok ⟨200, .ok []⟩)
      (fun _ => (.ok (snapshotWithBackend 1 false) : Except String NginxVts))
      (snapshotWithBackend 1 false) ∧
    (Collect exampleExporter (fetchHTTP (.ok ⟨200, .ok []⟩))
        (fun _ => .ok (snapshotWithBackend 1 false))).panic = none ∧
    (Collect exampleExporter (fetchHTTP (.ok ⟨200, .ok []⟩))
        (fun _ => .ok (snapshotWithBackend 1 false))).records.head?
      = some ⟨exampleUpMetric "nginx", .GaugeValue, Float.ofNat 1, []⟩ :=
  ⟨by decide, ⟨⟨200, .ok []⟩, [], rfl, by decide, rfl, rfl⟩,
   (Collect_group_order exampleReceiver exampleUpMetric "http://localhost/status/format/json"
     "nginx" false 5 (.ok ⟨200, .ok []⟩) (fun _ => .ok (snapshotWithBackend 1 false))
     (snapshotWithBackend 1 false) (by decide) ⟨⟨200, .ok []⟩, [], rfl, by decide, rfl, rfl⟩).1,
   (Collect_group_order exampleReceiver exampleUpMetric "http://localhost/status/format/json"
     "nginx" false 5 (.ok ⟨200, .ok []⟩) (fun _ => .ok (snapshotWithBackend 1 false))
     (snapshotWithBackend 1 false) (by decide)
     ⟨⟨200, .ok []⟩, [], rfl, by decide, rfl, rfl⟩).2.1⟩

/-- C11, counterexample: for the snapshot `exampleSnapshot` the record that
follows the gauge is the info record `nginx_server_uptime`; the seven
connection gauges come after it, not before it. -/
theorem Collect_info_before_connections :
    CycleDecodes (.ok ⟨200, .ok []⟩) (fun _ => (.ok exampleSnapshot : Except String NginxVts))
      exampleSnapshot ∧
    (Collect exampleExporter (fetchHTTP (.ok ⟨200, .ok []⟩))
        (fun _ => .ok exampleSnapshot)).records.map (fun m => (m.desc.fqName, m.labelValues))
      = [("nginx_up", []), ("nginx_server_uptime", ["web1", "1.25.3"]),
         ("nginx_server_connections", ["active"]), ("nginx_server_connections", ["reading"]),
         ("nginx_server_connections", ["waiting"]), ("nginx_server_connections", ["writing"]),
         ("nginx_server_connections", ["accepted"]), ("nginx_server_connections", ["handled"]),
         ("nginx_server_connections", ["requests"]),
         ("nginx_server_sharedzones", ["vts", "maxsize"]),
         ("nginx_server_sharedzones", ["vts", "usedsize"]),
         ("nginx_server_sharedzones", ["vts", "usednode"])] :=
  ⟨⟨⟨200, .ok []⟩, [], rfl, by decide, rfl, rfl⟩, by decide⟩

end VTS

end NginxExporter

/-! ## Names, lengths and keys of the records of the VTS collector -/

namespace NginxExporter

theorem BuildFQName_name_inj (ns subsystem n1 n2 : String) (hs : subsystem ≠ "")
    (h1 : n1 ≠ "") (h2 : n2 ≠ "")
    (h : BuildFQName ns subsystem n1 = BuildFQName ns subsystem n2) : n1 = n2 := by
  rw [BuildFQName_eq_append ns subsystem n1 hs h1, BuildFQName_eq_append ns subsystem n2 hs h2]
    at h
  have h3 := string_append_left_cancel _ _ _ h
  exact string_append_left_cancel _ _ _ h3

theorem length_flatMap_of_const {α β : Type} (l : List α) (f : α → List β) (k : Nat)
    (h : ∀ a, (f a).length = k) : (l.flatMap f).length = k * l.length := by
  induction l with
  | nil => simp
  | cons a rest ih =>
    simp only [List.flatMap_cons, List.length_append, h a, ih, List.length_cons]
    ring

theorem length_flatMap_flatMap_of_const {α β γ : Type} (l : List α) (g : α → List β)
    (f : α → β → List γ) (k : Nat) (h : ∀ a b, (f a b).length = k) :
    (l.flatMap (fun a => (g a).flatMap (f a))).length = k * (l.map (fun a => (g a).length)).sum := by
  induction l with
  | nil => simp
  | cons a rest ih =>
    simp only [List.flatMap_cons, List.length_append, ih, List.map_cons, List.sum_cons,
      length_flatMap_of_const (g a) (f a) k (h a)]
    ring

end NginxExporter

namespace NginxExporter

namespace VTS

theorem uptime_zero : Float.ofInt (Int.tdiv (wrapInt64 (0 - 0)) 1000) = Float.ofNat 0 := by
  have h : Int.tdiv (wrapInt64 (0 - 0)) 1000 = 0 := by decide
  rw [h]
  rfl

theorem upstream_msec_names (ns : String) :
    BuildFQName ns "upstream" "responseMsec" ≠ BuildFQName ns "upstream" "requestMsec" :=
  fun h => absurd (BuildFQName_name_inj ns "upstream" _ _ (by decide) (by decide) (by decide) h)
    (by decide)

theorem filter_msec_names (ns : String) :
    BuildFQName ns "filter" "responseMsec" ≠ BuildFQName ns "filter" "requestMsec" :=
  fun h => absurd (BuildFQName_name_inj ns "filter" _ _ (by decide) (by decide) (by decide) h)
    (by decide)

/-- The blocks of records: their sizes and the distinctness of the records
within each. -/
theorem blocks_exact (e0 : VtsExporter) (up : String → Desc) (uri ns : String) (i : Bool)
    (t : Nat) (hns : validNamespace e0.NAMESPACE = true) (v : NginxVts) :
    ((okRecords (infoRecords (NewVTSExporter e0 up uri ns i t) v)).length = 1 ∧
     (okRecords (connectionsRecords (NewVTSExporter e0 up uri ns i t) v)).length = 7 ∧
     (okRecords (sharedZonesRecords (NewVTSExporter e0 up uri ns i t) v)).length = 3 ∧
     (∀ host s,
       (okRecords (serverZoneRecords (NewVTSExporter e0 up uri ns i t) host s)).length = 17) ∧
     (∀ name s,
       (okRecords (upstreamRecords (NewVTSExporter e0 up uri ns i t) name s)).length = 10) ∧
     (∀ filter name s,
       (okRecords (filterRecords (NewVTSExporter e0 up uri ns i t) filter name s)).length = 10) ∧
     (∀ zone s,
       (okRecords (cacheZoneRecords (NewVTSExporter e0 up uri ns i t) zone s)).length = 10)) ∧
    (((okRecords (connectionsRecords (NewVTSExporter e0 up uri ns i t) v)).map recordKey).Nodup ∧
     ((okRecords (sharedZonesRecords (NewVTSExporter e0 up uri ns i t) v)).map recordKey).Nodup ∧
     (∀ host s,
       ((okRecords (serverZoneRecords (NewVTSExporter e0 up uri ns i t) host s)).map
         recordKey).Nodup) ∧
     (∀ name s,
       ((okRecords (upstreamRecords (NewVTSExporter e0 up uri ns i t) name s)).map
         recordKey).Nodup) ∧
     (∀ filter name s,
       ((okRecords (filterRecords (NewVTSExporter e0 up uri ns i t) filter name s)).map
         recordKey).Nodup) ∧
     (∀ zone s,
       ((okRecords (cacheZoneRecords (NewVTSExporter e0 up uri ns i t) zone s)).map
         recordKey).Nodup)) := by
  refine ⟨⟨?_, ?_, ?_, ?_, ?_, ?_, ?_⟩, ⟨?_, ?_, ?_, ?_, ?_, ?_⟩⟩
  · simp [infoRecords, NewVTSExporter, newServerMetric, NewDesc, MustNewConstMetric, descErr_vts, vtsDescriptorTable, hns, okRecords,
      GoResult.toOption]
  · simp [connectionsRecords, NewVTSExporter, newServerMetric, NewDesc, MustNewConstMetric, descErr_vts, vtsDescriptorTable, hns,
      okRecords, GoResult.toOption, mapIndex]
  · simp [sharedZonesRecords, NewVTSExporter, newServerMetric, NewDesc, MustNewConstMetric, descErr_vts, vtsDescriptorTable, hns,
      okRecords, GoResult.toOption, mapIndex]
  · intro host s
    simp [serverZoneRecords, NewVTSExporter, newServerMetric, NewDesc, MustNewConstMetric, descErr_vts, vtsDescriptorTable, hns,
      okRecords, GoResult.toOption, mapIndex]
  · intro name s
    simp [upstreamRecords, NewVTSExporter, newUpstreamMetric, NewDesc, MustNewConstMetric, descErr_vts, vtsDescriptorTable, hns,
      okRecords, GoResult.toOption, mapIndex]
  · intro filter name s
    simp [filterRecords, NewVTSExporter, newFilterMetric, NewDesc, MustNewConstMetric, descErr_vts, vtsDescriptorTable, hns,
      okRecords, GoResult.toOption, mapIndex]
  · intro zone s
    simp [cacheZoneRecords, NewVTSExporter, newCacheMetric, NewDesc, MustNewConstMetric, descErr_vts, vtsDescriptorTable, hns,
      okRecords, GoResult.toOption, mapIndex]
  · simp [connectionsRecords, NewVTSExporter, newServerMetric, NewDesc, MustNewConstMetric, descErr_vts, vtsDescriptorTable, hns,
      okRecords, GoResult.toOption, mapIndex, recordKey]
  · simp [sharedZonesRecords, NewVTSExporter, newServerMetric, NewDesc, MustNewConstMetric, descErr_vts, vtsDescriptorTable, hns,
      okRecords, GoResult.toOption, mapIndex, recordKey]
  · intro host s
    simp [serverZoneRecords, NewVTSExporter, newServerMetric, NewDesc, MustNewConstMetric, descErr_vts, vtsDescriptorTable, hns,
      okRecords, GoResult.toOption, mapIndex, recordKey]
  · intro name s
    simp [upstreamRecords, NewVTSExporter, newUpstreamMetric, NewDesc, MustNewConstMetric, descErr_vts, vtsDescriptorTable, hns,
      okRecords, GoResult.toOption, mapIndex, recordKey, upstream_msec_names]
  · intro filter name s
    simp [filterRecords, NewVTSExporter, newFilterMetric, NewDesc, MustNewConstMetric, descErr_vts, vtsDescriptorTable, hns,
      okRecords, GoResult.toOption, mapIndex, recordKey, filter_msec_names]
  · intro zone s
    simp [cacheZoneRecords, NewVTSExporter, newCacheMetric, NewDesc, MustNewConstMetric, descErr_vts, vtsDescriptorTable, hns,
      okRecords, GoResult.toOption, mapIndex, recordKey]

end VTS

end NginxExporter

/-! ## Two runs on one snapshot -/

namespace NginxExporter

theorem perm_of_length_le_one {α : Type} (a b : List α) (h : List.Perm a b)
    (hl : a.length ≤ 1) : a = b := by
  match a, hl with
  | [], _ => exact (List.perm_nil.mp h.symm).symm
  | [x], _ => exact (List.perm_singleton.mp h.symm).symm

theorem perm_flatMap_of_forall₂ {α β : Type} (R : α → α → Prop) (f : α → List β)
    (hf : ∀ x y, R x y → List.Perm (f x) (f y)) :
    ∀ (c b : List α), List.Forall₂ R c b → List.Perm (c.flatMap f) (b.flatMap f) := by
  intro c b h
  induction h with
  | nil => exact List.Perm.refl _
  | cons hxy _ ih =>
    simp only [List.flatMap_cons]
    exact List.Perm.append (hf _ _ hxy) ih

theorem eq_of_forall₂_perm {α : Type} :
    ∀ (c b : List (String × List (String × α))),
      List.Forall₂ (fun x y => x.1 = y.1 ∧ List.Perm x.2 y.2) c b →
      (∀ fv ∈ c, fv.2.length ≤ 1) → c = b := by
  intro c b h
  induction h with
  | nil => intro _; rfl
  | @cons x y c1 b1 hxy _ ih =>
    intro hs
    obtain ⟨x1, x2⟩ := x
    obtain ⟨y1, y2⟩ := y
    obtain ⟨hxy1, hxy2⟩ := hxy
    simp only at hxy1 hxy2
    have hx := perm_of_length_le_one _ _ hxy2 (hs (x1, x2) (List.mem_cons_self _ _))
    rw [hxy1, hx, ih (fun fv hfv => hs fv (List.mem_cons_of_mem _ hfv))]

namespace VTS

theorem translate_perm (e : VtsExporter) (v1 v2 : NginxVts) (h : sameSnapshot v1 v2) :
    List.Perm (okRecords (translate e v1)) (okRecords (translate e v2)) := by
  obtain ⟨h1, h2, h3, h4, h5, h6, hS, hU, ⟨c, hF1, hF2⟩, hC⟩ := h
  simp only [translate, okRecords_append, okRecords_flatMap, infoRecords, connectionsRecords,
    sharedZonesRecords, h1, h2, h3, h4, h5, h6]
  refine List.Perm.append (List.Perm.append (List.Perm.append (List.Perm.append
    (List.Perm.refl _) ?_) ?_) ?_) ?_
  · exact List.Perm.flatMap_right _ hS
  · exact List.Perm.flatMap_right _ hU
  · refine List.Perm.trans (List.Perm.flatMap_right _ hF1) ?_
    refine perm_flatMap_of_forall₂ _ _ ?_ c v2.FilterZones hF2
    rintro ⟨x1, x2⟩ ⟨y1, y2⟩ ⟨hxy1, hxy2⟩
    simp only at hxy1 hxy2
    subst hxy1
    simp only [okRecords_flatMap]
    exact List.Perm.flatMap_right _ hxy2
  · exact List.Perm.flatMap_right _ hC

theorem translate_fixed_part (e : VtsExporter) (v1 v2 : NginxVts) (h : sameSnapshot v1 v2) :
    infoRecords e v1 ++ connectionsRecords e v1 ++ sharedZonesRecords e v1
      = infoRecords e v2 ++ connectionsRecords e v2 ++ sharedZonesRecords e v2 := by
  obtain ⟨h1, h2, h3, h4, h5, h6, _⟩ := h
  simp only [infoRecords, connectionsRecords, sharedZonesRecords, h1, h2, h3, h4, h5, h6]

theorem translate_eq_of_singleEntryMaps (e : VtsExporter) (v1 v2 : NginxVts)
    (h : sameSnapshot v1 v2) (hs : singleEntryMaps v1) : translate e v1 = translate e v2 := by
  obtain ⟨hs1, hs2, hs3, hs4, hs5⟩ := hs
  have hfix := translate_fixed_part e v1 v2 h
  obtain ⟨_, _, _, _, _, _, hS, hU, ⟨c, hF1, hF2⟩, hC⟩ := h
  have eS := perm_of_length_le_one _ _ hS hs1
  have eU := perm_of_length_le_one _ _ hU hs2
  have eC := perm_of_length_le_one _ _ hC hs5
  have eF1 := perm_of_length_le_one _ _ hF1 hs3
  have eF : v1.FilterZones = v2.FilterZones := by
    rw [eF1]
    rw [eF1] at hs4
    exact eq_of_forall₂_perm c v2.FilterZones hF2 hs4
  simp only [translate, hfix, eS, eU, eC, eF]

end VTS

end NginxExporter

namespace NginxExporter

namespace VTS

/-- C12, as the code has it: two runs of the translation on one decoded
snapshot send the same records, in the same order up to the order in which
`range` visits the entries of the zone maps: the two sequences are
permutations of each other, they agree on the first twelve records (gauge,
info, connections, shared zones), and they are equal when no zone map holds
more than one entry. -/
theorem Collect_deterministic_up_to_map_order (e0 : VtsExporter) (up : String → Desc)
    (uri ns : String) (i : Bool) (t : Nat) (get : Except String Response)
    (Unmarshal1 Unmarshal2 : List Nat → Except String NginxVts) (v1 v2 : NginxVts)
    (h1 : CycleDecodes get Unmarshal1 v1) (h2 : CycleDecodes get Unmarshal2 v2)
    (hsame : sameSnapshot v1 v2) :
    List.Perm (Collect (NewVTSExporter e0 up uri ns i t) (fetchHTTP get) Unmarshal1).records
      (Collect (NewVTSExporter e0 up uri ns i t) (fetchHTTP get) Unmarshal2).records ∧
    (Collect (NewVTSExporter e0 up uri ns i t) (fetchHTTP get) Unmarshal1).records.take 12
      = (Collect (NewVTSExporter e0 up uri ns i t) (fetchHTTP get) Unmarshal2).records.take 12 ∧
    (singleEntryMaps v1 →
      (Collect (NewVTSExporter e0 up uri ns i t) (fetchHTTP get) Unmarshal1).records
        = (Collect (NewVTSExporter e0 up uri ns i t) (fetchHTTP get) Unmarshal2).records) := by
  cases hns : validNamespace e0.NAMESPACE with
  | false =>
    rw [Collect_invalid_namespace e0 up uri ns i t hns get Unmarshal1 v1 h1,
      Collect_invalid_namespace e0 up uri ns i t hns get Unmarshal2 v2 h2]
    exact ⟨List.Perm.refl _, rfl, fun _ => rfl⟩
  | true =>
    rw [Collect_of_decodes e0 up uri ns i t hns get Unmarshal1 v1 h1,
      Collect_of_decodes e0 up uri ns i t hns get Unmarshal2 v2 h2]
    refine ⟨List.Perm.cons _ (translate_perm _ v1 v2 hsame), ?_, ?_⟩
    · have hfix := translate_fixed_part (NewVTSExporter e0 up uri ns i t) v1 v2 hsame
      have hlen : ∀ v : NginxVts,
          (okRecords (infoRecords (NewVTSExporter e0 up uri ns i t) v
            ++ connectionsRecords (NewVTSExporter e0 up uri ns i t) v
            ++ sharedZonesRecords (NewVTSExporter e0 up uri ns i t) v)).length = 11 := by
        intro v
        obtain ⟨⟨b1, b2, b3, _⟩, _⟩ := blocks_exact e0 up uri ns i t hns v
        simp only [okRecords_append, List.length_append, b1, b2, b3]
      have htake : ∀ v : NginxVts,
          (upRecord (NewVTSExporter e0 up uri ns i t) nginxUp
              :: okRecords (translate (NewVTSExporter e0 up uri ns i t) v)).take 12
            = upRecord (NewVTSExporter e0 up uri ns i t) nginxUp
              :: okRecords (infoRecords (NewVTSExporter e0 up uri ns i t) v
                ++ connectionsRecords (NewVTSExporter e0 up uri ns i t) v
                ++ sharedZonesRecords (NewVTSExporter e0 up uri ns i t) v) := by
        intro v
        simp only [translate, List.append_assoc, okRecords_append, List.take_succ_cons]
        have hl := hlen v
        simp only [List.append_assoc, okRecords_append] at hl
        rw [← List.append_assoc, ← List.append_assoc, List.take_left' (by
          simpa [List.append_assoc] using hl)]
        simp [List.append_assoc]
      simp only [htake, hfix]
    · intro hs
      simp only [translate_eq_of_singleEntryMaps _ v1 v2 hsame hs]

/-- Witness for C12 as amended: the server zones `a.example` and `b.example`
visited in the two orders. -/
theorem Collect_deterministic_up_to_map_order_witness :
    (CycleDecodes (.ok ⟨200, .ok []⟩) (fun _ => (.ok snapshotAB : Except String NginxVts))
        snapshotAB ∧
     CycleDecodes (.ok ⟨200, .ok []⟩) (fun _ => (.ok snapshotBA : Except String NginxVts))
        snapshotBA ∧
     sameSnapshot snapshotAB snapshotBA) ∧
    List.Perm
      (Collect exampleExporter (fetchHTTP (.ok ⟨200, .ok []⟩)) (fun _ => .ok snapshotAB)).records
      (Collect exampleExporter (fetchHTTP (.ok ⟨200, .ok []⟩)) (fun _ => .ok snapshotBA)).records :=
  have hsame : sameSnapshot snapshotAB snapshotBA :=
    ⟨rfl, rfl, rfl, rfl, rfl, rfl, List.Perm.swap _ _ _, List.Perm.refl _,
      ⟨_, List.Perm.refl _, List.Forall₂.nil⟩, List.Perm.refl _⟩
  ⟨⟨⟨⟨200, .ok []⟩, [], rfl, by decide, rfl, rfl⟩, ⟨⟨200, .ok []⟩, [], rfl, by decide, rfl, rfl⟩,
     hsame⟩,
   (Collect_deterministic_up_to_map_order exampleReceiver exampleUpMetric
     "http://localhost/status/format/json" "nginx" false 5 (.ok ⟨200, .ok []⟩)
     (fun _ => .ok snapshotAB) (fun _ => .ok snapshotBA) snapshotAB snapshotBA
     ⟨⟨200, .ok []⟩, [], rfl, by decide, rfl, rfl⟩ ⟨⟨200, .ok []⟩, [], rfl, by decide, rfl, rfl⟩
     hsame).1⟩

/-- C12, counterexample: one snapshot with the server zones `a.example` and
`b.example`; a run that visits `a.example` first and a run that visits
`b.example` first send different sequences of records. -/
theorem Collect_order_depends_on_map_order :
    sameSnapshot snapshotAB snapshotBA ∧
    (Collect exampleExporter (fetchHTTP (.ok ⟨200, .ok []⟩)) (fun _ => .ok snapshotAB)).records
      ≠ (Collect exampleExporter (fetchHTTP (.ok ⟨200, .ok []⟩))
          (fun _ => .ok snapshotBA)).records :=
  ⟨⟨rfl, rfl, rfl, rfl, rfl, rfl, List.Perm.swap _ _ _, List.Perm.refl _,
      ⟨_, List.Perm.refl _, List.Forall₂.nil⟩, List.Perm.refl _⟩,
   fun h => absurd (congrArg (List.map recordKey) h) (by decide)⟩

end VTS

end NginxExporter

/-! ## The exact set of records of a cycle -/

namespace NginxExporter

namespace VTS

theorem zero_values (e0 : VtsExporter) (up : String → Desc) (uri ns : String) (i : Bool)
    (t : Nat) (hns : validNamespace e0.NAMESPACE = true) (v : NginxVts) (hz : v.isZero) :
    ∀ m ∈ okRecords (translate (NewVTSExporter e0 up uri ns i t) v), m.value = Float.ofNat 0 := by
  obtain ⟨hl, hn, hc, hs1, hs2, hs3, hsz, huz, hfz, hcz⟩ := hz
  intro m hm
  simp only [translate, okRecords_append, okRecords_flatMap, List.mem_append,
    List.mem_flatMap] at hm
  rcases hm with (((((hm | hm) | hm) | ⟨hs, hmem, hm⟩) | ⟨nl, hmem, s, hmem2, hm⟩)
    | ⟨fv, hmem, fs, hmem2, hm⟩) | ⟨zs, hmem, hm⟩
  · have hu := uptime_zero
    simp [infoRecords, NewVTSExporter, newServerMetric, NewDesc, MustNewConstMetric, descErr_vts, vtsDescriptorTable, hns, okRecords,
      GoResult.toOption, hl, hn] at hm
    rw [hm]
    exact hu
  · simp [connectionsRecords, NewVTSExporter, newServerMetric, NewDesc, MustNewConstMetric, descErr_vts, vtsDescriptorTable, hns,
      okRecords, GoResult.toOption, mapIndex, hc, float64] at hm
    rcases hm with rfl | rfl | rfl | rfl | rfl | rfl | rfl <;> rfl
  · simp [sharedZonesRecords, NewVTSExporter, newServerMetric, NewDesc, MustNewConstMetric, descErr_vts, vtsDescriptorTable, hns,
      okRecords, GoResult.toOption, mapIndex, hs1, hs2, hs3, float64] at hm
    rcases hm with rfl | rfl | rfl <;> rfl
  · obtain ⟨h1, h2, h3, h4, h5, _⟩ := hsz hs hmem
    simp [serverZoneRecords, NewVTSExporter, newServerMetric, NewDesc, MustNewConstMetric, descErr_vts, vtsDescriptorTable, hns,
      okRecords, GoResult.toOption, mapIndex, h1, h2, h3, h4, h5, float64] at hm
    rcases hm with rfl | rfl | rfl | rfl | rfl | rfl | rfl | rfl | rfl | rfl | rfl | rfl | rfl
      | rfl | rfl | rfl | rfl <;> rfl
  · obtain ⟨h1, h2, h3, h4, h5, h6, _⟩ := huz nl hmem s hmem2
    simp [upstreamRecords, NewVTSExporter, newUpstreamMetric, NewDesc, MustNewConstMetric, descErr_vts, vtsDescriptorTable, hns,
      okRecords, GoResult.toOption, mapIndex, h1, h2, h3, h4, h5, h6, float64] at hm
    rcases hm with rfl | rfl | rfl | rfl | rfl | rfl | rfl | rfl | rfl | rfl <;> rfl
  · obtain ⟨h1, h2, h3, h4, h5, h6, _⟩ := hfz fv hmem fs hmem2
    simp [filterRecords, NewVTSExporter, newFilterMetric, NewDesc, MustNewConstMetric, descErr_vts, vtsDescriptorTable, hns,
      okRecords, GoResult.toOption, mapIndex, h1, h2, h3, h4, h5, h6, float64] at hm
    rcases hm with rfl | rfl | rfl | rfl | rfl | rfl | rfl | rfl | rfl | rfl <;> rfl
  · obtain ⟨_, _, h3, h4, h5, _⟩ := hcz zs hmem
    simp [cacheZoneRecords, NewVTSExporter, newCacheMetric, NewDesc, MustNewConstMetric, descErr_vts, vtsDescriptorTable, hns,
      okRecords, GoResult.toOption, mapIndex, h3, h4, h5, float64] at hm
    rcases hm with rfl | rfl | rfl | rfl | rfl | rfl | rfl | rfl | rfl | rfl <;> rfl

end VTS

end NginxExporter

namespace NginxExporter

namespace VTS

/-- The combinations of name and label values within each expected block
are distinct. -/
theorem expected_keys_nodup (ns : String) :
    (∀ c, ((expectedConnections ns c).map (fun r => (r.1, r.2.2.2))).Nodup) ∧
    (∀ z, ((expectedSharedZones ns z).map (fun r => (r.1, r.2.2.2))).Nodup) ∧
    (∀ host s, ((expectedServerZone ns host s).map (fun r => (r.1, r.2.2.2))).Nodup) ∧
    (∀ name s, ((expectedUpstream ns name s).map (fun r => (r.1, r.2.2.2))).Nodup) ∧
    (∀ filter name s, ((expectedFilter ns filter name s).map (fun r => (r.1, r.2.2.2))).Nodup) ∧
    (∀ zone s, ((expectedCacheZone ns zone s).map (fun r => (r.1, r.2.2.2))).Nodup) := by
  have hu : qualified ns "upstream_responseMsec" ≠ qualified ns "upstream_requestMsec" :=
    fun h => absurd (qualified_inj ns _ _ h) (by decide)
  have hf : qualified ns "filter_responseMsec" ≠ qualified ns "filter_requestMsec" :=
    fun h => absurd (qualified_inj ns _ _ h) (by decide)
  refine ⟨?_, ?_, ?_, ?_, ?_, ?_⟩
  · intro c
    simp [expectedConnections]
  · intro z
    simp [expectedSharedZones]
  · intro host s
    simp [expectedServerZone]
  · intro name s
    simp [expectedUpstream, hu]
  · intro filter name s
    simp [expectedFilter, hf]
  · intro zone s
    simp [expectedCacheZone]

/-- C13, as the code has it: in a cycle of an exporter with a valid
namespace that decodes a snapshot, `Collect` does not panic and sends the
gauge and then exactly the expected records, each with its name, kind, value and label values and none
besides: 1 info record, 7 connection records, 3 shared-zone records, 17
records per server zone, 10 per upstream backend entry, 10 per filter entry
and 10 per cache zone; within each block the combinations of name and label
values are distinct; and when every numeric field of the snapshot is zero,
each of these records has the value 0. -/
theorem Collect_records_exact (e0 : VtsExporter) (up : String → Desc) (uri ns : String)
    (i : Bool) (t : Nat) (get : Except String Response)
    (Unmarshal : List Nat → Except String NginxVts) (v : NginxVts)
    (hns : validNamespace e0.NAMESPACE = true)
    (h : CycleDecodes get Unmarshal v) :
    (Collect (NewVTSExporter e0 up uri ns i t) (fetchHTTP get) Unmarshal).panic = none ∧
    (Collect (NewVTSExporter e0 up uri ns i t) (fetchHTTP get) Unmarshal).records.map view
      = ((up ns).fqName, .GaugeValue, Float.ofNat 1, [])
        :: (expectedInfo e0.NAMESPACE v
          ++ expectedConnections e0.NAMESPACE v.Connections
          ++ expectedSharedZones e0.NAMESPACE v.SharedZones
          ++ v.ServerZones.flatMap (fun hs => expectedServerZone e0.NAMESPACE hs.1 hs.2)
          ++ v.UpstreamZones.flatMap
              (fun nl => nl.2.flatMap (fun s => expectedUpstream e0.NAMESPACE nl.1 s))
          ++ v.FilterZones.flatMap
              (fun fv => fv.2.flatMap (fun fs => expectedFilter e0.NAMESPACE fv.1 fs.1 fs.2))
          ++ v.CacheZones.flatMap (fun zs => expectedCacheZone e0.NAMESPACE zs.1 zs.2)) ∧
    (Collect (NewVTSExporter e0 up uri ns i t) (fetchHTTP get) Unmarshal).records.length
      = 1 + (1 + 7 + 3 + 17 * v.ServerZones.length + 10 * upstreamEntries v
          + 10 * filterEntries v + 10 * v.CacheZones.length) ∧
    ((expectedInfo e0.NAMESPACE v).length = 1 ∧
     (expectedConnections e0.NAMESPACE v.Connections).length = 7 ∧
     (expectedSharedZones e0.NAMESPACE v.SharedZones).length = 3 ∧
     (∀ host s, (expectedServerZone e0.NAMESPACE host s).length = 17) ∧
     (∀ name s, (expectedUpstream e0.NAMESPACE name s).length = 10) ∧
     (∀ filter name s, (expectedFilter e0.NAMESPACE filter name s).length = 10) ∧
     (∀ zone s, (expectedCacheZone e0.NAMESPACE zone s).length = 10)) ∧
    (((expectedConnections e0.NAMESPACE v.Connections).map (fun r => (r.1, r.2.2.2))).Nodup ∧
     ((expectedSharedZones e0.NAMESPACE v.SharedZones).map (fun r => (r.1, r.2.2.2))).Nodup ∧
     (∀ host s,
       ((expectedServerZone e0.NAMESPACE host s).map (fun r => (r.1, r.2.2.2))).Nodup) ∧
     (∀ name s,
       ((expectedUpstream e0.NAMESPACE name s).map (fun r => (r.1, r.2.2.2))).Nodup) ∧
     (∀ filter name s,
       ((expectedFilter e0.NAMESPACE filter name s).map (fun r => (r.1, r.2.2.2))).Nodup) ∧
     (∀ zone s,
       ((expectedCacheZone e0.NAMESPACE zone s).map (fun r => (r.1, r.2.2.2))).Nodup)) ∧
    (v.isZero →
      ∀ m ∈ (Collect (NewVTSExporter e0 up uri ns i t) (fetchHTTP get) Unmarshal).records.tail,
        m.value = Float.ofNat 0) := by
  have hb := blocks_exact e0 up uri ns i t hns v
  have hrec := Collect_records_of_decodes e0 up uri ns i t hns get Unmarshal v h
  have hview := Collect_view e0 up uri ns i t hns get Unmarshal v h
  have hk := expected_keys_nodup e0.NAMESPACE
  refine ⟨hview.1, hview.2, ?_, ⟨rfl, rfl, rfl, fun _ _ => rfl, fun _ _ => rfl,
    fun _ _ _ => rfl, fun _ _ => rfl⟩, ⟨hk.1 _, hk.2.1 _, hk.2.2.1, hk.2.2.2.1, hk.2.2.2.2.1,
    hk.2.2.2.2.2⟩, ?_⟩
  · obtain ⟨⟨h1, h2, h3, h4, h5, h6, h7⟩, _⟩ := hb
    rw [hrec]
    have hS := length_flatMap_of_const v.ServerZones
      (fun hs => okRecords (serverZoneRecords (NewVTSExporter e0 up uri ns i t) hs.1 hs.2)) 17
      (fun hs => h4 hs.1 hs.2)
    have hC := length_flatMap_of_const v.CacheZones
      (fun zs => okRecords (cacheZoneRecords (NewVTSExporter e0 up uri ns i t) zs.1 zs.2)) 10
      (fun zs => h7 zs.1 zs.2)
    have hU := length_flatMap_flatMap_of_const v.UpstreamZones (fun nl => nl.2)
      (fun nl s => okRecords (upstreamRecords (NewVTSExporter e0 up uri ns i t) nl.1 s)) 10
      (fun nl s => h5 nl.1 s)
    have hF := length_flatMap_flatMap_of_const v.FilterZones (fun fv => fv.2)
      (fun fv fs => okRecords
        (filterRecords (NewVTSExporter e0 up uri ns i t) fv.1 fs.1 fs.2)) 10
      (fun fv fs => h6 fv.1 fs.1 fs.2)
    simp only [List.length_cons, List.length_append, h1, h2, h3, hS, hC, hU, hF,
      upstreamEntries, filterEntries]
    omega
  · intro hz
    rw [Collect_of_decodes e0 up uri ns i t hns get Unmarshal v h]
    exact zero_values e0 up uri ns i t hns v hz

/-- Witness for C13 as amended: the snapshot `zeroSnapshot` for the
namespace `nginx`: 86 records, all but the gauge with the value 0; the names and label values of
the 17 records of the server zone `example.org` and of the 10 records of the
cache zone `one` are written out. -/
theorem Collect_records_exact_witness :
    validNamespace exampleReceiver.NAMESPACE = true ∧
    CycleDecodes (.ok ⟨200, .ok []⟩) (fun _ => (.ok zeroSnapshot : Except String NginxVts))
      zeroSnapshot ∧
    zeroSnapshot.isZero ∧
    (Collect exampleExporter (fetchHTTP (.ok ⟨200, .ok []⟩))
        (fun _ => .ok zeroSnapshot)).records.length = 86 ∧
    (∀ m ∈ (Collect exampleExporter (fetchHTTP (.ok ⟨200, .ok []⟩))
        (fun _ => .ok zeroSnapshot)).records.tail, m.value = Float.ofNat 0) ∧
    (((Collect exampleExporter (fetchHTTP (.ok ⟨200, .ok []⟩))
        (fun _ => .ok zeroSnapshot)).records.drop 12).take 17).map recordKey
      = [("nginx_server_requests", ["example.org", "total"]),
         ("nginx_server_requests", ["example.org", "1xx"]),
         ("nginx_server_requests", ["example.org", "2xx"]),
         ("nginx_server_requests", ["example.org", "3xx"]),
         ("nginx_server_requests", ["example.org", "4xx"]),
         ("nginx_server_requests", ["example.org", "5xx"]),
         ("nginx_server_cache", ["example.org", "bypass"]),
         ("nginx_server_cache", ["example.org", "expired"]),
         ("nginx_server_cache", ["example.org", "hit"]),
         ("nginx_server_cache", ["example.org", "miss"]),
         ("nginx_server_cache", ["example.org", "revalidated"]),
         ("nginx_server_cache", ["example.org", "scarce"]),
         ("nginx_server_cache", ["example.org", "stale"]),
         ("nginx_server_cache", ["example.org", "updating"]),
         ("nginx_server_bytes", ["example.org", "in"]),
         ("nginx_server_bytes", ["example.org", "out"]),
         ("nginx_server_requestMsec", ["example.org"])] ∧
    ((Collect exampleExporter (fetchHTTP (.ok ⟨200, .ok []⟩))
        (fun _ => .ok zeroSnapshot)).records.drop 76).map recordKey
      = [("nginx_cache_requests", ["one", "bypass"]),
         ("nginx_cache_requests", ["one", "expired"]),
         ("nginx_cache_requests", ["one", "hit"]),
         ("nginx_cache_requests", ["one", "miss"]),
         ("nginx_cache_requests", ["one", "revalidated"]),
         ("nginx_cache_requests", ["one", "scarce"]),
         ("nginx_cache_requests", ["one", "stale"]),
         ("nginx_cache_requests", ["one", "updating"]),
         ("nginx_cache_bytes", ["one", "in"]),
         ("nginx_cache_bytes", ["one", "out"])] :=
  have hz : zeroSnapshot.isZero := by
    simp [NginxVts.isZero, zeroSnapshot, Server.isZero, Upstream.isZero, Cache.isZero,
      zeroBackend]
  have hc := Collect_records_exact exampleReceiver exampleUpMetric
    "http://localhost/status/format/json" "nginx" false 5 (.ok ⟨200, .ok []⟩)
    (fun _ => .ok zeroSnapshot) zeroSnapshot (by decide)
    ⟨⟨200, .ok []⟩, [], rfl, by decide, rfl, rfl⟩
  ⟨by decide, ⟨⟨200, .ok []⟩, [], rfl, by decide, rfl, rfl⟩, hz, hc.2.2.1,
    hc.2.2.2.2.2 hz, by decide, by decide⟩

/-- C13, counterexample: the receiver `badReceiver` has the namespace
`bad-ns`; the cycle decodes the snapshot `zeroSnapshot`, for which 85 records
are expected besides the gauge, yet `Collect` sends the gauge alone: the
construction of the info record panics and every record of the translation
is missing. -/
theorem Collect_records_bad_namespace :
    validNamespace badReceiver.NAMESPACE = false ∧
    CycleDecodes (.ok ⟨200, .ok []⟩) (fun _ => (.ok zeroSnapshot : Except String NginxVts))
      zeroSnapshot ∧
    (expectedRecords badReceiver.NAMESPACE zeroSnapshot).length = 85 ∧
    (Collect badExporter (fetchHTTP (.ok ⟨200, .ok []⟩))
        (fun _ => .ok zeroSnapshot)).records.map view
      = [("nginx_up", .GaugeValue, Float.ofNat 1, [])] ∧
    (Collect badExporter (fetchHTTP (.ok ⟨200, .ok []⟩)) (fun _ => .ok zeroSnapshot)).panic
      = some "\"bad-ns_server_uptime\" is not a valid metric name" := by
  have hd : CycleDecodes (.ok ⟨200, .ok []⟩)
      (fun _ => (.ok zeroSnapshot : Except String NginxVts)) zeroSnapshot :=
    ⟨⟨200, .ok []⟩, [], rfl, by decide, rfl, rfl⟩
  have hc := Collect_invalid_namespace badReceiver exampleUpMetric
    "http://localhost/status/format/json" "nginx" false 5 (by decide) _ _ _ hd
  refine ⟨by decide, hd, rfl, ?_, ?_⟩
  · unfold badExporter
    rw [hc]
    simp [view, upRecord, NewVTSExporter, exampleUpMetric, NewDesc, float64, nginxUp]
    decide
  · unfold badExporter
    rw [hc]
    decide

end VTS

end NginxExporter

/-! ## Stream nodes that lack a child -/

namespace NginxExporter

namespace RTMP

/-- A stream node that lacks one of the six children: the loop body panics
with a nil pointer dereference. -/
theorem parseStream_missing_child (e : RTMPExporter) (normalizer : String → String)
    (stream : NodeRef) (f : String) (hf : f ∈ streamFields) (hmiss : hasChild stream f = false) :
    parseStream e normalizer stream = .panic nilDeref := by
  obtain ⟨node, ancestors⟩ := stream
  have hnone : node.child f = none := by
    simpa [hasChild] using hmiss
  simp only [streamFields, List.mem_cons, List.mem_singleton, List.not_mem_nil, or_false] at hf
  have hall : ∀ c1 c2 c3 c4 c5 c6, node.child "name" = some c1 →
      node.child "bytes_in" = some c2 → node.child "bytes_out" = some c3 →
      node.child "bw_in" = some c4 → node.child "bw_out" = some c5 →
      node.child "time" = some c6 → False := by
    intro c1 c2 c3 c4 c5 c6 h1 h2 h3 h4 h5 h6
    rcases hf with rfl | rfl | rfl | rfl | rfl | rfl <;> simp_all
  clear hf hnone hmiss
  have hshape : ancestors = [] ∨ (∃ p, ancestors = [p]) ∨
      (∃ p g rest, ancestors = p :: g :: rest ∧ g.child "name" = none) ∨
      (∃ p g rest c, ancestors = p :: g :: rest ∧ g.child "name" = some c) := by
    rcases ancestors with _ | ⟨p, _ | ⟨g, rest⟩⟩
    · exact Or.inl rfl
    · exact Or.inr (Or.inl ⟨p, rfl⟩)
    · cases hg : g.child "name" with
      | none => exact Or.inr (Or.inr (Or.inl ⟨p, g, rest, rfl, hg⟩))
      | some c => exact Or.inr (Or.inr (Or.inr ⟨p, g, rest, c, rfl, hg⟩))
  cases h1 : node.child "name" with
  | none =>
    simp [parseStream, bind, GoResult.bind, SelectElement, InnerText, pure, h1]
  | some c1 =>
  cases h2 : node.child "bytes_in" with
  | none =>
    rcases hshape with rfl | ⟨p, rfl⟩ | ⟨p, g, rest, rfl, hg⟩ | ⟨p, g, rest, c, rfl, hg⟩ <;>
      first
      | simp [parseStream, NodeRef.Parent, bind, GoResult.bind, SelectElement, InnerText,
          pure, h1, h2, hg]
      | simp [parseStream, NodeRef.Parent, bind, GoResult.bind, SelectElement, InnerText,
          pure, h1, h2]
  | some c2 =>
  cases h3 : node.child "bytes_out" with
  | none =>
    rcases hshape with rfl | ⟨p, rfl⟩ | ⟨p, g, rest, rfl, hg⟩ | ⟨p, g, rest, c, rfl, hg⟩ <;>
      first
      | simp [parseStream, NodeRef.Parent, bind, GoResult.bind, SelectElement, InnerText,
          pure, h1, h2, h3, hg]
      | simp [parseStream, NodeRef.Parent, bind, GoResult.bind, SelectElement, InnerText,
          pure, h1, h2, h3]
  | some c3 =>
  cases h4 : node.child "bw_in" with
  | none =>
    rcases hshape with rfl | ⟨p, rfl⟩ | ⟨p, g, rest, rfl, hg⟩ | ⟨p, g, rest, c, rfl, hg⟩ <;>
      first
      | simp [parseStream, NodeRef.Parent, bind, GoResult.bind, SelectElement, InnerText,
          pure, h1, h2, h3, h4, hg]
      | simp [parseStream, NodeRef.Parent, bind, GoResult.bind, SelectElement, InnerText,
          pure, h1, h2, h3, h4]
  | some c4 =>
  cases h5 : node.child "bw_out" with
  | none =>
    rcases hshape with rfl | ⟨p, rfl⟩ | ⟨p, g, rest, rfl, hg⟩ | ⟨p, g, rest, c, rfl, hg⟩ <;>
      first
      | simp [parseStream, NodeRef.Parent, bind, GoResult.bind, SelectElement, InnerText,
          pure, h1, h2, h3, h4, h5, hg]
      | simp [parseStream, NodeRef.Parent, bind, GoResult.bind, SelectElement, InnerText,
          pure, h1, h2, h3, h4, h5]
  | some c5 =>
  cases h6 : node.child "time" with
  | none =>
    rcases hshape with rfl | ⟨p, rfl⟩ | ⟨p, g, rest, rfl, hg⟩ | ⟨p, g, rest, c, rfl, hg⟩ <;>
      first
      | simp [parseStream, NodeRef.Parent, bind, GoResult.bind, SelectElement, InnerText,
          pure, h1, h2, h3, h4, h5, h6, hg]
      | simp [parseStream, NodeRef.Parent, bind, GoResult.bind, SelectElement, InnerText,
          pure, h1, h2, h3, h4, h5, h6]
  | some c6 => exact (hall _ _ _ _ _ _ h1 h2 h3 h4 h5 h6).elim

/-- A panic of the loop body is a nil pointer dereference. -/
theorem parseStream_panic (e : RTMPExporter) (normalizer : String → String) (stream : NodeRef)
    (msg : String) (h : parseStream e normalizer stream = .panic msg) : msg = nilDeref := by
  by_cases hwf : ∀ f ∈ streamFields, hasChild stream f = true
  · obtain ⟨info, hinfo, _⟩ := parseStream_identity e normalizer stream hwf
    rw [hinfo] at h
    cases h
  · simp only [not_forall, Bool.not_eq_true] at hwf
    obtain ⟨f, hf, hmiss⟩ := hwf
    rw [parseStream_missing_child e normalizer stream f hf hmiss] at h
    cases h
    rfl

theorem parseStreamsLoop_missing_child (e : RTMPExporter) (normalizer : String → String) :
    ∀ (data : List NodeRef) (streams : List StreamInfo),
      (∃ stream ∈ data, ∃ f ∈ streamFields, hasChild stream f = false) →
      parseStreamsLoop e normalizer data streams = .panic nilDeref := by
  intro data
  induction data with
  | nil =>
    intro streams h
    obtain ⟨stream, hs, _⟩ := h
    cases hs
  | cons head rest ih =>
    intro streams h
    obtain ⟨stream, hs, f, hf, hmiss⟩ := h
    cases hp : parseStream e normalizer head with
    | panic msg =>
      have hmsg := parseStream_panic e normalizer head msg hp
      subst hmsg
      simp only [parseStreamsLoop, hp]
    | ok info =>
      rcases List.mem_cons.mp hs with rfl | hrest
      · rw [parseStream_missing_child e normalizer stream f hf hmiss] at hp
        cases hp
      · simp only [parseStreamsLoop, hp]
        exact ih _ ⟨stream, hrest, f, hf, hmiss⟩

theorem parseStreamsLoop_document_order (e : RTMPExporter) (normalizer : String → String) :
    ∀ (data : List NodeRef) (streams : List StreamInfo),
      (∀ stream ∈ data, ∀ f ∈ streamFields, hasChild stream f = true) →
      ∃ infos, parseStreamsLoop e normalizer data streams = .ok (streams ++ infos) ∧
        List.Forall₂ (fun stream info => parseStream e normalizer stream = .ok info)
          data infos := by
  intro data
  induction data with
  | nil =>
    intro streams _
    exact ⟨[], by simp [parseStreamsLoop], List.Forall₂.nil⟩
  | cons stream rest ih =>
    intro streams hwf
    obtain ⟨info, hinfo, _⟩ :=
      parseStream_identity e normalizer stream (hwf stream (List.mem_cons_self _ _))
    obtain ⟨infos, hloop, hall⟩ :=
      ih (streams ++ [info]) (fun s hs => hwf s (List.mem_cons_of_mem _ hs))
    refine ⟨info :: infos, ?_, List.Forall₂.cons hinfo hall⟩
    simp only [parseStreamsLoop, hinfo, hloop, List.append_assoc, List.singleton_append]

/-- On a document whose stream nodes have the six children, `parseStreamsStats`
returns one `StreamInfo` for each stream node, in document order: the one the
loop body builds from that node. -/
theorem parseStreamsStats_document_order (e : RTMPExporter) (doc : Node)
    (normalizer : String → String)
    (hwf : ∀ stream ∈ Find doc "stream", ∀ f ∈ streamFields, hasChild stream f = true) :
    ∃ streams, parseStreamsStats e doc normalizer = .ok (streams, none) ∧
      streams.length = (Find doc "stream").length ∧
      List.Forall₂ (fun stream info => parseStream e normalizer stream = .ok info)
        (Find doc "stream") streams := by
  obtain ⟨infos, hloop, hall⟩ :=
    parseStreamsLoop_document_order e normalizer (Find doc "stream") [] hwf
  refine ⟨infos, ?_, hall.length_eq.symm, hall⟩
  simp only [parseStreamsStats, hloop]
  simp

/-- C8, on the code: `parseStreamsStats` gives each stream the identity
`appName + "-" + normalizedName`, or `normalizedName` alone without an
application name two levels up, only in a document in which every stream
node has the six children read from it. When a stream node of the document
lacks one of them, `parseStreamsStats` panics with a nil pointer dereference
and gives no stream an identity, whatever names the stream nodes and their
applications have. -/
theorem parseStreamsStats_identity_or_panic (e : RTMPExporter) (doc : Node)
    (normalizer : String → String) :
    ((∀ stream ∈ Find doc "stream", ∀ f ∈ streamFields, hasChild stream f = true) →
      ∃ streams, parseStreamsStats e doc normalizer = .ok (streams, none) ∧
        streams.map (fun info => info.Name)
          = (Find doc "stream").map (streamIdentity normalizer)) ∧
    (∀ stream ∈ Find doc "stream", ∀ f ∈ streamFields, hasChild stream f = false →
      parseStreamsStats e doc normalizer = .panic nilDeref) := by
  refine ⟨parseStreamsStats_identity e doc normalizer, ?_⟩
  intro stream hs f hf hmiss
  simp only [parseStreamsStats,
    parseStreamsLoop_missing_child e normalizer (Find doc "stream") [] ⟨stream, hs, f, hf, hmiss⟩]

/-- Witness for C8: in the document `docLive` the streams get the identities
`live-cam1` and `cam1`; in the document `docWithoutTime` the two stream nodes
have the names `cam1` and `cam2` and the application `live` two levels up,
the second has no child `time`, and `parseStreamsStats` panics. -/
theorem parseStreamsStats_identity_or_panic_witness :
    ((∀ stream ∈ Find docLive "stream", ∀ f ∈ streamFields, hasChild stream f = true) ∧
      (Find docLive "stream").map (streamIdentity id) = ["live-cam1", "cam1"] ∧
      ∃ streams, parseStreamsStats exampleExporter docLive id = .ok (streams, none) ∧
        streams.map (fun info => info.Name)
          = (Find docLive "stream").map (streamIdentity id)) ∧
    ((Find docWithoutTime "stream").map (streamIdentity id) = ["live-cam1", "live-cam2"] ∧
      (∃ stream ∈ Find docWithoutTime "stream", hasChild stream "time" = false) ∧
      parseStreamsStats exampleExporter docWithoutTime id = .panic nilDeref) :=
  ⟨⟨by decide, by decide,
      (parseStreamsStats_identity_or_panic exampleExporter docLive id).1 (by decide)⟩,
    ⟨by decide,
      ⟨(Find docWithoutTime "stream").get ⟨1, by decide⟩, List.get_mem _ _ _, by decide⟩,
      (parseStreamsStats_identity_or_panic exampleExporter docWithoutTime id).2
        ((Find docWithoutTime "stream").get ⟨1, by decide⟩) (List.get_mem _ _ _) "time"
        (by decide) (by decide)⟩⟩

/-- The elements of the document `docPrefixed` carry a namespace prefix: the
query for `rtmp` finds none of them and `parseServerStats` panics. -/
theorem parseServerStats_docPrefixed :
    FindOne docPrefixed "rtmp" = none ∧
    parseServerStats exampleExporter docPrefixed = .panic nilDeref :=
  ⟨rfl, rfl⟩

/-- The descriptors of the two tables of the RTMP exporter are valid. -/
theorem descErr_metrics :
    descErr (BuildFQName rtmpNamespace "server" "incoming_bytes_total") [] = none ∧
    descErr (BuildFQName rtmpNamespace "server" "outgoing_bytes_total") [] = none ∧
    descErr (BuildFQName rtmpNamespace "server" "receive_bytes") [] = none ∧
    descErr (BuildFQName rtmpNamespace "server" "transmit_bytes") [] = none ∧
    descErr (BuildFQName rtmpNamespace "server" "current_streams") [] = none ∧
    descErr (BuildFQName rtmpNamespace "server" "uptime_seconds_total") [] = none ∧
    descErr (BuildFQName rtmpNamespace "stream" "incoming_bytes_total") ["stream"] = none ∧
    descErr (BuildFQName rtmpNamespace "stream" "outgoing_bytes_total") ["stream"] = none ∧
    descErr (BuildFQName rtmpNamespace "stream" "receive_bytes") ["stream"] = none ∧
    descErr (BuildFQName rtmpNamespace "stream" "transmit_bytes") ["stream"] = none ∧
    descErr (BuildFQName rtmpNamespace "stream" "uptime_seconds_total") ["stream"] = none := by
  decide

theorem serverAttempts_isOk (uri : String) (norm : String → String)
    (pf : String → Option Float) (server : ServerInfo) :
    send
      [MustNewConstMetric (mapIndex (NewRTMPExporter uri norm pf).serverMetrics "bytesIn")
         .CounterValue server.BytesIn [],
       MustNewConstMetric (mapIndex (NewRTMPExporter uri norm pf).serverMetrics "bytesOut")
         .CounterValue server.BytesOut [],
       MustNewConstMetric (mapIndex (NewRTMPExporter uri norm pf).serverMetrics "bandwidthIn")
         .GaugeValue server.BandwidthIn [],
       MustNewConstMetric (mapIndex (NewRTMPExporter uri norm pf).serverMetrics "bandwidthOut")
         .GaugeValue server.BandwidhOut [],
       MustNewConstMetric (mapIndex (NewRTMPExporter uri norm pf).serverMetrics "uptime")
         .CounterValue server.Uptime []]
      = ⟨serverRecords (NewRTMPExporter uri norm pf) server, none⟩ :=
  send_of_isOk _ (by simp [MustNewConstMetric, descErr_metrics, mapIndex, NewRTMPExporter, serverMetrics,
    newServerMetric, NewDesc, GoResult.isOk, GoResult.toOption])

/-- With both parsing methods returning, `scrape` sends the five records of
the server, then the five records of each stream in the order of the slice,
each labelled with the name of its stream, then the gauge of the current
streams with the length of the slice. -/
theorem scrape_streams_in_order (uri : String) (norm : String → String)
    (pf : String → Option Float) (bytes : List Nat) (doc : Node) (server : ServerInfo)
    (streams : List StreamInfo)
    (hserver : parseServerStats (NewRTMPExporter uri norm pf) doc = .ok (server, none))
    (hstreams : parseStreamsStats (NewRTMPExporter uri norm pf) doc norm = .ok (streams, none)) :
    scrape (NewRTMPExporter uri norm pf) (.ok (.ok bytes)) (fun _ => .ok doc)
      = ⟨serverRecords (NewRTMPExporter uri norm pf) server
          ++ (streams.flatMap (fun s => okRecords (streamRecords (NewRTMPExporter uri norm pf) s))
          ++ [⟨newServerMetric "current_streams" "Current number of active streams" [],
                .GaugeValue, Float.ofNat streams.length, []⟩]), none⟩ ∧
    ∀ s, (okRecords (streamRecords (NewRTMPExporter uri norm pf) s)).map
        (fun m => m.labelValues) = List.replicate 5 [s.Name] := by
  constructor
  · have hn : (NewRTMPExporter uri norm pf).streamNameNormalizer = norm := rfl
    simp only [scrape, parseDocument, hserver, hn, hstreams, serverAttempts_isOk]
    rw [send_of_isOk _ (by
      simp [List.all_flatMap, streamRecords, MustNewConstMetric, descErr_metrics, mapIndex, NewRTMPExporter,
        streamMetrics, newStreamMetric, NewDesc, GoResult.isOk, GoResult.toOption])]
    rw [send_of_isOk _ (by simp [MustNewConstMetric, descErr_metrics, mapIndex, NewRTMPExporter,
      serverMetrics, newServerMetric, NewDesc, GoResult.isOk, GoResult.toOption])]
    have hgauge : okRecords
        [MustNewConstMetric (mapIndex (NewRTMPExporter uri norm pf).serverMetrics
          "currentStreams") .GaugeValue (Float.ofNat streams.length) []]
        = [⟨newServerMetric "current_streams" "Current number of active streams" [],
            .GaugeValue, Float.ofNat streams.length, []⟩] := by
      simp [okRecords, MustNewConstMetric, descErr_metrics, mapIndex, NewRTMPExporter, serverMetrics,
        newServerMetric, NewDesc, GoResult.toOption]
    simp only [Sent.andThen, okRecords_flatMap, hgauge]
  · intro s
    simp [okRecords, streamRecords, MustNewConstMetric, descErr_metrics, mapIndex, NewRTMPExporter,
      streamMetrics, newStreamMetric, NewDesc, GoResult.toOption, List.replicate]

/-- C14, on the code: when a stream node of the document lacks one of the
six children read from it, `parseStreamsStats` panics with a nil pointer
dereference and returns no `StreamInfo` at all; `scrape` then ends with that
panic after the five records of the server, without a record of any stream
and without the gauge of the current streams. -/
theorem parseStreamsStats_missing_child_panics (uri : String) (norm : String → String)
    (pf : String → Option Float) (doc : Node) (stream : NodeRef) (f : String)
    (hs : stream ∈ Find doc "stream") (hf : f ∈ streamFields)
    (hmiss : hasChild stream f = false) :
    parseStreamsStats (NewRTMPExporter uri norm pf) doc norm = .panic nilDeref ∧
    ∀ bytes server, parseServerStats (NewRTMPExporter uri norm pf) doc = .ok (server, none) →
      scrape (NewRTMPExporter uri norm pf) (.ok (.ok bytes)) (fun _ => .ok doc)
        = ⟨serverRecords (NewRTMPExporter uri norm pf) server, some nilDeref⟩ := by
  have hp : parseStreamsStats (NewRTMPExporter uri norm pf) doc norm = .panic nilDeref := by
    simp only [parseStreamsStats,
      parseStreamsLoop_missing_child _ norm (Find doc "stream") [] ⟨stream, hs, f, hf, hmiss⟩]
  refine ⟨hp, fun bytes server hserver => ?_⟩
  have hn : (NewRTMPExporter uri norm pf).streamNameNormalizer = norm := rfl
  simp only [scrape, parseDocument, hserver, hn, hp, serverAttempts_isOk]
  simp [Sent.andThen]

/-- Witness for C14: the document `docWithoutTime`, with two stream nodes of
which the second has no child `time`; the server part parses, the five
records of the server are sent and the call panics. -/
theorem parseStreamsStats_missing_child_panics_witness :
    (Find docWithoutTime "stream").length = 2 ∧
    (∃ stream ∈ Find docWithoutTime "stream", hasChild stream "time" = false) ∧
    parseStreamsStats exampleExporter docWithoutTime id = .panic nilDeref ∧
    (∃ server, parseServerStats exampleExporter docWithoutTime = .ok (server, none) ∧
      scrape exampleExporter (.ok (.ok [])) (fun _ => .ok docWithoutTime)
        = ⟨serverRecords exampleExporter server, some nilDeref⟩) ∧
    (scrape exampleExporter (.ok (.ok [])) (fun _ => .ok docWithoutTime)).records.length = 5 :=
  ⟨by decide,
   ⟨(Find docWithoutTime "stream").get ⟨1, by decide⟩, List.get_mem _ _ _, by decide⟩,
   (parseStreamsStats_missing_child_panics "http://localhost/stat" id (fun _ => none)
      docWithoutTime ((Find docWithoutTime "stream").get ⟨1, by decide⟩) "time"
      (List.get_mem _ _ _) (by decide) (by decide)).1,
   ⟨_, rfl,
    (parseStreamsStats_missing_child_panics "http://localhost/stat" id (fun _ => none)
      docWithoutTime ((Find docWithoutTime "stream").get ⟨1, by decide⟩) "time"
      (List.get_mem _ _ _) (by decide) (by decide)).2 [] _ rfl⟩,
   by decide⟩

end RTMP

end NginxExporter

/-! ## Overlapping calls -/

namespace NginxExporter

namespace RTMP

/-- The mutex of the RTMP exporter is held by at most one call, and by none
while it is unlocked. -/
theorem stepCall_holdsMutex (s : Calls) (i : Nat) (returns : Bool)
    (h1 : s.locked = false → s.next.countP RTMP.holdsMutex = 0)
    (h2 : s.next.countP RTMP.holdsMutex ≤ 1) :
    ((stepCall RTMP.CollectSteps s i returns).locked = false →
      (stepCall RTMP.CollectSteps s i returns).next.countP RTMP.holdsMutex = 0) ∧
    (stepCall RTMP.CollectSteps s i returns).next.countP RTMP.holdsMutex ≤ 1 := by
  unfold stepCall
  cases hi : s.next[i]? with
  | none => exact ⟨h1, h2⟩
  | some pc =>
    obtain ⟨hlt, hget⟩ := List.getElem?_eq_some_iff.mp hi
    have hset : ∀ a, (s.next.set i a).countP RTMP.holdsMutex
        = s.next.countP RTMP.holdsMutex - (if RTMP.holdsMutex pc then 1 else 0)
          + (if RTMP.holdsMutex a then 1 else 0) := by
      intro a
      rw [List.countP_set _ _ _ _ hlt, hget]
    have hpos : RTMP.holdsMutex pc = true → 0 < s.next.countP RTMP.holdsMutex := by
      intro hp
      apply List.countP_pos_iff.mpr
      exact ⟨pc, by rw [← hget]; exact List.getElem_mem _, hp⟩
    have hkeep : ∀ a, RTMP.holdsMutex pc = true → RTMP.holdsMutex a = true →
        (s.next.set i a).countP RTMP.holdsMutex = s.next.countP RTMP.holdsMutex := by
      intro a hp ha
      have := hpos hp
      rw [hset, hp, ha]
      simp only [if_true]
      omega
    have hcycle : ∀ a, RTMP.holdsMutex pc = true → RTMP.holdsMutex a = true →
        ((Calls.mk s.locked (s.next.set i a)).locked = false →
          (Calls.mk s.locked (s.next.set i a)).next.countP RTMP.holdsMutex = 0) ∧
        (Calls.mk s.locked (s.next.set i a)).next.countP RTMP.holdsMutex ≤ 1 := by
      intro a hp ha
      simp only [hkeep a hp ha]
      exact ⟨h1, h2⟩
    rcases pc with _ | _ | _ | _ | _ | _ | pc
    · -- the step `Lock`
      cases hl : s.locked with
      | true =>
        simp only [RTMP.CollectSteps, List.getElem?_cons_zero, if_true]
        exact ⟨h1, h2⟩
      | false =>
        have h0 := h1 hl
        simp only [RTMP.CollectSteps, List.getElem?_cons_zero, Bool.false_eq_true, if_false]
        refine ⟨fun h => by simp at h, ?_⟩
        rw [hset, h0]
        simp [RTMP.holdsMutex]
    · cases returns
      · exact hcycle _ (by decide) (by decide)
      · exact hcycle _ (by decide) (by decide)
    · cases returns
      · exact hcycle _ (by decide) (by decide)
      · exact hcycle _ (by decide) (by decide)
    · cases returns
      · exact hcycle _ (by decide) (by decide)
      · exact hcycle _ (by decide) (by decide)
    · cases returns
      · exact hcycle _ (by decide) (by decide)
      · exact hcycle _ (by decide) (by decide)
    · -- the step `Unlock`
      have hp := hpos (by decide)
      have hc : (s.next.set i (0 + 1 + 1 + 1 + 1 + 1 + 1)).countP RTMP.holdsMutex = 0 := by
        rw [hset]
        have h5 : RTMP.holdsMutex (0 + 1 + 1 + 1 + 1 + 1) = true := by decide
        have h6 : RTMP.holdsMutex (0 + 1 + 1 + 1 + 1 + 1 + 1) = false := by decide
        rw [h5, h6]
        simp only [if_true, Bool.false_eq_true, if_false]
        omega
      show ((Calls.mk false (s.next.set i (0 + 1 + 1 + 1 + 1 + 1 + 1))).locked = false →
          (Calls.mk false (s.next.set i (0 + 1 + 1 + 1 + 1 + 1 + 1))).next.countP
            RTMP.holdsMutex = 0) ∧
        (Calls.mk false (s.next.set i (0 + 1 + 1 + 1 + 1 + 1 + 1))).next.countP
          RTMP.holdsMutex ≤ 1
      simp only [hc]
      exact ⟨fun _ => trivial, Nat.zero_le _⟩
    · -- the call has returned
      have hnone : RTMP.CollectSteps[pc + 1 + 1 + 1 + 1 + 1 + 1]? = none := by
        simp [RTMP.CollectSteps]
      simp only [hnone]
      exact ⟨h1, h2⟩

theorem cycleRunning_holdsMutex (pc : Nat)
    (h : cycleRunning RTMP.CollectSteps pc = true) : RTMP.holdsMutex pc = true := by
  rcases pc with _ | _ | _ | _ | _ | _ | pc
  · revert h; decide
  · decide
  · decide
  · decide
  · decide
  · decide
  · simp [cycleRunning, RTMP.CollectSteps] at h

theorem foldl_holdsMutex (schedule : List (Nat × Bool)) :
    ∀ s : Calls, (s.locked = false → s.next.countP RTMP.holdsMutex = 0) →
      s.next.countP RTMP.holdsMutex ≤ 1 →
      ((schedule.foldl (fun s ev => stepCall RTMP.CollectSteps s ev.1 ev.2) s).locked = false →
        (schedule.foldl (fun s ev => stepCall RTMP.CollectSteps s ev.1 ev.2) s).next.countP
          RTMP.holdsMutex = 0) ∧
      (schedule.foldl (fun s ev => stepCall RTMP.CollectSteps s ev.1 ev.2) s).next.countP
        RTMP.holdsMutex ≤ 1 := by
  induction schedule with
  | nil => intro s h1 h2; exact ⟨h1, h2⟩
  | cons ev rest ih =>
    intro s h1 h2
    obtain ⟨h3, h4⟩ := RTMP.stepCall_holdsMutex s ev.1 ev.2 h1 h2
    exact ih _ h3 h4

/-- C15, as the code has it: under any number of overlapping calls of
`Collect` on one RTMP exporter and any schedule of their steps, early returns
and blocked calls included, at most one cycle is running, and one is running
only while the mutex is locked. -/
theorem Collect_cycles_exclusive (n : Nat) (schedule : List (Nat × Bool)) :
    cyclesRunning RTMP.CollectSteps (runSchedule RTMP.CollectSteps n schedule) ≤ 1 ∧
    ((runSchedule RTMP.CollectSteps n schedule).locked = false →
      cyclesRunning RTMP.CollectSteps (runSchedule RTMP.CollectSteps n schedule) = 0) := by
  have hstart : (Calls.start n).next.countP RTMP.holdsMutex = 0 := by
    simp [Calls.start, List.countP_replicate, RTMP.holdsMutex]
  obtain ⟨h1, h2⟩ := RTMP.foldl_holdsMutex schedule (Calls.start n) (fun _ => hstart)
    (by rw [hstart]; exact Nat.zero_le _)
  have hle : cyclesRunning RTMP.CollectSteps (runSchedule RTMP.CollectSteps n schedule)
      ≤ (runSchedule RTMP.CollectSteps n schedule).next.countP RTMP.holdsMutex :=
    List.countP_mono_left (fun pc _ h => RTMP.cycleRunning_holdsMutex pc h)
  refine ⟨Nat.le_trans hle h2, fun hl => ?_⟩
  have h0 : (runSchedule RTMP.CollectSteps n schedule).next.countP RTMP.holdsMutex = 0 :=
    h1 hl
  omega

end RTMP

namespace VTS

/-- C15, counterexample: two overlapping calls of `Collect` on one VTS
exporter; the first fetches, then the second fetches, and both cycles are
running. -/
theorem Collect_cycles_overlap :
    cyclesRunning VTS.CollectSteps
      (runSchedule VTS.CollectSteps 2 [(0, false), (1, false)]) = 2 := by
  decide

end VTS

namespace RTMP

/-- Two overlapping calls on one RTMP exporter: the first locks and fetches,
the second is blocked at `Lock` until the first has unlocked, and then runs
its own cycle. -/
theorem Collect_second_call_blocked :
    runSchedule RTMP.CollectSteps 2 [(0, false), (0, false), (1, false)] = ⟨true, [2, 0]⟩ ∧
    cyclesRunning RTMP.CollectSteps
      (runSchedule RTMP.CollectSteps 2 [(0, false), (0, false), (1, false)]) = 1 ∧
    runSchedule RTMP.CollectSteps 2
      [(0, false), (0, false), (1, false), (0, true), (0, false), (1, false), (1, false)]
        = ⟨true, [6, 2]⟩ := by
  decide

end RTMP

end NginxExporter

/-! ## Label names are fixed per metric name -/

namespace NginxExporter

end NginxExporter

namespace NginxExporter

theorem mem_okRecords (l : List (GoResult Metric)) (m : Metric) (h : m ∈ okRecords l) :
    GoResult.ok m ∈ l := by
  simp only [okRecords, List.mem_filterMap] at h
  obtain ⟨r, hr, hm⟩ := h
  cases r with
  | ok m1 =>
    simp only [GoResult.toOption, Option.some.injEq] at hm
    rw [← hm]; exact hr
  | panic msg => simp [GoResult.toOption] at hm

namespace RTMP

end RTMP

namespace VTS

end VTS

end NginxExporter

namespace NginxExporter

end NginxExporter

namespace NginxExporter

end NginxExporter

/-! ## Pool configuration of the backends -/

namespace NginxExporter

namespace VTS

theorem upstreamRecords_erasePool (e : VtsExporter) (name : String) (s : Upstream) :
    upstreamRecords e name (erasePool s) = upstreamRecords e name s := rfl

theorem filterRecords_erasePool (e : VtsExporter) (filter name : String) (s : Upstream) :
    filterRecords e filter name (erasePool s) = filterRecords e filter name s := rfl

theorem translate_erasePools (e : VtsExporter) (v : NginxVts) :
    translate e (erasePools v) = translate e v := by
  simp only [translate, erasePools, infoRecords, connectionsRecords, sharedZonesRecords,
    List.flatMap_map, upstreamRecords_erasePool, filterRecords_erasePool]

/-- C17: for any two decoded snapshots that differ only in the weight,
maxFails, failTimeout, backup or down fields of upstream and filter entries,
`Collect` sends the same records (and ends the same way): these fields are
not translated. -/
theorem Collect_ignores_pool_configuration (e : VtsExporter) (get : Except String Response)
    (Unmarshal1 Unmarshal2 : List Nat → Except String NginxVts) (v1 v2 : NginxVts)
    (h1 : CycleDecodes get Unmarshal1 v1) (h2 : CycleDecodes get Unmarshal2 v2)
    (hpool : differOnlyInPools v1 v2) :
    translate e v1 = translate e v2 ∧
    Collect e (fetchHTTP get) Unmarshal1 = Collect e (fetchHTTP get) Unmarshal2 := by
  have ht : translate e v1 = translate e v2 := by
    rw [← translate_erasePools e v1, ← translate_erasePools e v2, hpool]
  obtain ⟨resp, data, hg, hs, hb, hd⟩ := h1
  obtain ⟨resp2, data2, hg2, hs2, hb2, hd2⟩ := h2
  rw [hg] at hg2
  cases hg2
  rw [hb] at hb2
  cases hb2
  refine ⟨ht, ?_⟩
  simp [Collect, fetchHTTP, fetchBody, hg, hs, hb, hd, hd2, ht]

/-- Witness for C17: one backend with weight 1, up, and with weight 5, down. -/
theorem Collect_ignores_pool_configuration_witness :
    (CycleDecodes (.ok ⟨200, .ok []⟩)
        (fun _ => (.ok (snapshotWithBackend 1 false) : Except String NginxVts))
        (snapshotWithBackend 1 false) ∧
     CycleDecodes (.ok ⟨200, .ok []⟩)
        (fun _ => (.ok (snapshotWithBackend 5 true) : Except String NginxVts))
        (snapshotWithBackend 5 true) ∧
     differOnlyInPools (snapshotWithBackend 1 false) (snapshotWithBackend 5 true)) ∧
    (translate exampleExporter (snapshotWithBackend 1 false)
        = translate exampleExporter (snapshotWithBackend 5 true) ∧
     Collect exampleExporter (fetchHTTP (.ok ⟨200, .ok []⟩))
        (fun _ => .ok (snapshotWithBackend 1 false))
      = Collect exampleExporter (fetchHTTP (.ok ⟨200, .ok []⟩))
        (fun _ => .ok (snapshotWithBackend 5 true))) :=
  ⟨⟨⟨⟨200, .ok []⟩, [], rfl, by decide, rfl, rfl⟩, ⟨⟨200, .ok []⟩, [], rfl, by decide, rfl, rfl⟩,
     rfl⟩,
   Collect_ignores_pool_configuration exampleExporter (.ok ⟨200, .ok []⟩)
     (fun _ => .ok (snapshotWithBackend 1 false)) (fun _ => .ok (snapshotWithBackend 5 true))
     (snapshotWithBackend 1 false) (snapshotWithBackend 5 true)
     ⟨⟨200, .ok []⟩, [], rfl, by decide, rfl, rfl⟩ ⟨⟨200, .ok []⟩, [], rfl, by decide, rfl, rfl⟩
     rfl⟩

end VTS

end NginxExporter

